import Mathlib

/-!
Verification development for the Summit compiler (Rust), shallowly embedded in Lean 4.

Conventions of the embedding:
- Rust `String`/`&str` become Lean `String`; `Vec<char>` becomes `List Char`.
- Rust `u128` values become `Nat` (every lexed literal is `< 2^128`); where the
  code performs an `as i64` cast, the wrap-around is made explicit.
- Rust `Result<T, String>` becomes `Except String T`.
- `HashMap`/`HashSet` become association lists with insert-replacing-existing
  semantics; iteration order is modelled as insertion order (no theorem below
  depends on that order except where a claim is explicitly about iteration
  order, in which case the order is a parameter).
- Stateful walkers (parser position, emitter output buffer) become explicit
  state passing; `&mut` parameters become returned values.
- Loops whose termination is positional (parser/lexer cursors) take an explicit
  fuel argument; fuel is always instantiated large enough that it is never
  exhausted on the concrete inputs used in theorems.
-/

namespace Summit

/-! ## Numeric constants (Rust `iN::MAX`, `uN::MAX`, and friends) -/

def i8_max : Nat := 127
def i16_max : Nat := 32767
def i32_max : Nat := 2147483647
def i64_max : Nat := 9223372036854775807
def i128_max : Nat := 170141183460469231731687303715884105727
def u8_max : Nat := 255
def u16_max : Nat := 65535
def u32_max : Nat := 4294967295
def u64_max : Nat := 18446744073709551615
def u128_max : Nat := 340282366920938463463374607431768211455

/-- Rust's `v as i64` applied to a `u128` value `v` (modelled as `Nat`):
truncate to the low 64 bits, then reinterpret as a two's-complement `i64`. -/
def i64_of_u128 (v : Nat) : Int :=
  let low := v % 18446744073709551616
  if low < 9223372036854775808 then (low : Int) else (low : Int) - 18446744073709551616

/-! ## Association-list maps and sets (the embedding of `HashMap`/`HashSet`) -/

/-- `HashMap<K, A>` as an association list; `insert` replaces an existing
binding in place (like `HashMap::insert`) and appends new keys. -/
abbrev AMap (κ α : Type) := List (κ × α)

def AMap.insert [BEq κ] (m : AMap κ α) (key : κ) (val : α) : AMap κ α :=
  match m with
  | [] => [(key, val)]
  | (k, v) :: rest =>
    if k == key then (k, val) :: rest else (k, v) :: AMap.insert rest key val

def AMap.get? [BEq κ] (m : AMap κ α) (key : κ) : Option α :=
  match m with
  | [] => none
  | (k, v) :: rest => if k == key then some v else AMap.get? rest key

def AMap.containsKey [BEq κ] (m : AMap κ α) (key : κ) : Bool :=
  (AMap.get? m key).isSome

/-- `HashSet<K>` as a duplicate-free list; `insert` is a no-op on members. -/
abbrev ASet (κ : Type) := List κ

def ASet.insert [BEq κ] (s : ASet κ) (key : κ) : ASet κ :=
  if s.contains key then s else s ++ [key]

/-! ## Substring search (used to state "the generated C contains ...") -/

/-- Whether `p` is an initial segment of `s`. -/
def leadsWith : List Char → List Char → Bool
  | [], _ => true
  | _ :: _, [] => false
  | a :: ps, b :: ss => a == b && leadsWith ps ss

/-- Whether the pattern `p` occurs contiguously inside `s`. -/
def occursL (p : List Char) : List Char → Bool
  | [] => leadsWith p []
  | c :: rest => leadsWith p (c :: rest) || occursL p rest

/-- Whether the string `pat` occurs contiguously inside `s`. -/
def occurs (pat s : String) : Bool := occursL pat.toList s.toList

/-- Rust `str::split` with a one-character separator, as a structural
recursion (core `String.splitOn` does not reduce in the kernel). -/
def split_chars (sep : Char) : List Char → List Char → List String
  | [], acc => [String.mk acc.reverse]
  | c :: rest, acc =>
    if c == sep then String.mk acc.reverse :: split_chars sep rest []
    else split_chars sep rest (c :: acc)

def split_on_char (sep : Char) (s : String) : List String :=
  split_chars sep s.data []

/-- Rust `str::split` with a two-character separator. -/
def split_chars2 (a b : Char) : List Char → List Char → List String
  | [], acc => [String.mk acc.reverse]
  | [c], acc => [String.mk (c :: acc).reverse]
  | c1 :: c2 :: rest, acc =>
    if c1 == a && c2 == b then String.mk acc.reverse :: split_chars2 a b rest []
    else split_chars2 a b (c2 :: rest) (c1 :: acc)

def split_on_pair (a b : Char) (s : String) : List String :=
  split_chars2 a b s.data []

/-! ## Tokens (src/frontend/lexer/token.rs)

The checked-in token.rs predates the parser in the same tree: the parser
matches on `Token::Struct`, `Token::Enum`, `Token::Extern`, `Token::ElseIf`,
`Token::Dot` and `Token::Ellipsis`, and the specification lists the keywords
`struct`, `enum`, `extern`, `elseif` and the operators `.` and `...`
(sections 3.1 and 4.1), but those variants are absent from token.rs.  The
variants below marked "modelled from the spec" fill that gap. -/

/-- `Token` from src/frontend/lexer/token.rs, plus the spec-modelled variants
the parser requires. -/
inductive Token where
  | importKw | func | ret | var | const | comptime
  | ifKw | elseKw | whileKw | forKw | next | stop
  | whenKw | expectKw | isKw | fallthrough
  | inKw | to | through | byKw | whereKw
  | not | and | or | null | trueKw | falseKw
  | type (name : String)
  | identifier (name : String)
  | intLiteral (value : Nat)
  | stringLiteral (value : String)
  | plus | minus | star | slash | percent
  | assign | equal | notEqual | lessEqual | greaterEqual
  | question | arrow
  | doubleColon | colon | semicolon | comma
  | leftParen | rightParen | leftBrace | rightBrace
  | leftBracket | rightBracket | leftAngle | rightAngle
  | eof
  | structKw | enumKw | externKw | elseifKw | dot | ellipsis

/-- A distinct numeric tag per `Token` constructor (used only to define
`Token.beq` below with terms whose nesting stays linear in the number of
constructors; a derived `DecidableEq` produces a match splitter nested
quadratically in it). -/
def Token.tag : Token → Nat
  | .importKw => 0 | .func => 1 | .ret => 2 | .var => 3 | .const => 4 | .comptime => 5
  | .ifKw => 6 | .elseKw => 7 | .whileKw => 8 | .forKw => 9 | .next => 10 | .stop => 11
  | .whenKw => 12 | .expectKw => 13 | .isKw => 14 | .fallthrough => 15
  | .inKw => 16 | .to => 17 | .through => 18 | .byKw => 19 | .whereKw => 20
  | .not => 21 | .and => 22 | .or => 23 | .null => 24 | .trueKw => 25 | .falseKw => 26
  | .type _ => 27 | .identifier _ => 28 | .intLiteral _ => 29 | .stringLiteral _ => 30
  | .plus => 31 | .minus => 32 | .star => 33 | .slash => 34 | .percent => 35
  | .assign => 36 | .equal => 37 | .notEqual => 38 | .lessEqual => 39 | .greaterEqual => 40
  | .question => 41 | .arrow => 42
  | .doubleColon => 43 | .colon => 44 | .semicolon => 45 | .comma => 46
  | .leftParen => 47 | .rightParen => 48 | .leftBrace => 49 | .rightBrace => 50
  | .leftBracket => 51 | .rightBracket => 52 | .leftAngle => 53 | .rightAngle => 54
  | .eof => 55
  | .structKw => 56 | .enumKw => 57 | .externKw => 58 | .elseifKw => 59 | .dot => 60
  | .ellipsis => 61

/-- Structural equality on `Token`: payload constructors compare payloads,
everything else compares by tag. -/
def Token.beq (a b : Token) : Bool :=
  match a, b with
  | .type x, .type y => x == y
  | .identifier x, .identifier y => x == y
  | .intLiteral x, .intLiteral y => x == y
  | .stringLiteral x, .stringLiteral y => x == y
  | _, _ => Token.tag a == Token.tag b

instance : BEq Token := ⟨Token.beq⟩

/-- The `{:?}` (derive Debug) rendering of a token, used in parser error
messages (`Expected {:?}, got {:?}`).  Payload strings are quoted without
re-escaping; no theorem below depends on these error strings. -/
def Token.debugFmt : Token → String
  | .importKw => "Import" | .func => "Func" | .ret => "Ret" | .var => "Var"
  | .const => "Const" | .comptime => "Comptime" | .ifKw => "If" | .elseKw => "Else"
  | .whileKw => "While" | .forKw => "For" | .next => "Next" | .stop => "Stop"
  | .whenKw => "When" | .expectKw => "Expect" | .isKw => "Is"
  | .fallthrough => "Fallthrough" | .inKw => "In" | .to => "To"
  | .through => "Through" | .byKw => "By" | .whereKw => "Where" | .not => "Not"
  | .and => "And" | .or => "Or" | .null => "Null" | .trueKw => "True"
  | .falseKw => "False"
  | .type n => "Type(\"" ++ n ++ "\")"
  | .identifier n => "Identifier(\"" ++ n ++ "\")"
  | .intLiteral v => "IntLiteral(" ++ toString v ++ ")"
  | .stringLiteral s => "StringLiteral(\"" ++ s ++ "\")"
  | .plus => "Plus" | .minus => "Minus" | .star => "Star" | .slash => "Slash"
  | .percent => "Percent" | .assign => "Assign" | .equal => "Equal"
  | .notEqual => "NotEqual" | .lessEqual => "LessEqual"
  | .greaterEqual => "GreaterEqual" | .question => "Question" | .arrow => "Arrow"
  | .doubleColon => "DoubleColon" | .colon => "Colon" | .semicolon => "Semicolon"
  | .comma => "Comma" | .leftParen => "LeftParen" | .rightParen => "RightParen"
  | .leftBrace => "LeftBrace" | .rightBrace => "RightBrace"
  | .leftBracket => "LeftBracket" | .rightBracket => "RightBracket"
  | .leftAngle => "LeftAngle" | .rightAngle => "RightAngle" | .eof => "Eof"
  | .structKw => "Struct" | .enumKw => "Enum" | .externKw => "Extern"
  | .elseifKw => "ElseIf" | .dot => "Dot" | .ellipsis => "Ellipsis"

/-! ## AST (src/frontend/ast): operators, expressions, statements, program -/

/-- `BinaryOp` from src/frontend/ast/operators.rs. -/
inductive BinaryOp where
  | add | sub | mul | div | mod
  | equal | notEqual | less | greater | lessEqual | greaterEqual
  | and | or
deriving DecidableEq

/-- `UnaryOp` from src/frontend/ast/operators.rs. -/
inductive UnaryOp where
  | negate | not
deriving DecidableEq

mutual

/-- `Expression` from src/frontend/ast/expressions.rs.  Integer literals carry
the `u128` magnitude as a `Nat`. -/
inductive Expression where
  | intLiteral (value : Nat)
  | stringLiteral (value : String)
  | boolLiteral (value : Bool)
  | nullLiteral
  | var (name : String)
  | call (path : List String) (typeArgs : Option (List String)) (args : List Expression)
  | binary (op : BinaryOp) (left right : Expression)
  | unary (op : UnaryOp) (operand : Expression)
  | ifExpr (condition thenExpr elseExpr : Expression)
  | whenExpr (value : Expression) (cases : List WhenExprCase) (elseExpr : Expression)
  | structInit (structName : String) (fields : List StructFieldInit)
  | fieldAccess (object : Expression) (field : String)
  | enumConstruct (enumName variantName : String) (args : List Expression)

/-- `WhenPattern` (the variant set used by the parser and analyzer, which
includes enum-variant patterns). -/
inductive WhenPattern where
  | single (e : Expression)
  | range (start stop : Expression) (inclusive : Bool)
  | enumVariant (enumName variantName : String) (bindings : List String)

/-- `WhenExprCase` from src/frontend/ast/expressions.rs. -/
inductive WhenExprCase where
  | mk (pattern : WhenPattern) (result : Expression)

/-- `StructFieldInit` from src/frontend/ast/structs.rs. -/
inductive StructFieldInit where
  | mk (name : Option String) (value : Expression)

end

def WhenExprCase.pattern : WhenExprCase → WhenPattern
  | .mk p _ => p

def WhenExprCase.result : WhenExprCase → Expression
  | .mk _ r => r

def StructFieldInit.name : StructFieldInit → Option String
  | .mk n _ => n

def StructFieldInit.value : StructFieldInit → Expression
  | .mk _ v => v

/-- `ExpectPattern` from src/frontend/ast/statements.rs. -/
inductive ExpectPattern where
  | single (e : Expression)
  | range (start stop : Expression) (inclusive : Bool)

mutual

/-- `Statement` from src/frontend/ast/statements.rs. -/
inductive Statement where
  | varDecl (name : String) (varType : Option String) (value : Expression)
  | constDecl (name : String) (varType : Option String) (value : Expression)
  | comptimeDecl (name : String) (varType : Option String) (value : Expression)
  | assign (name : String) (value : Expression)
  | fieldAssign (object field : String) (value : Expression)
  | ret (e : Expression)
  | exprStmt (e : Expression)
  | ifStmt (condition : Expression) (thenBlock : List Statement)
      (elseifBlocks : List ElseIfBlock) (elseBlock : Option (List Statement))
  | whileStmt (condition : Expression) (body : List Statement)
  | forStmt (variable_ : String) (start stop : Expression) (inclusive : Bool)
      (step filter : Option Expression) (body : List Statement)
  | whenStmt (value : Expression) (cases : List WhenCase) (elseBlock : Option (List Statement))
  | expect (condition : Expression) (pattern : Option ExpectPattern) (elseBlock : List Statement)
  | next
  | stop
  | fallthrough

/-- `ElseIfBlock` from src/frontend/ast/statements.rs. -/
inductive ElseIfBlock where
  | mk (condition : Expression) (body : List Statement)

/-- `WhenCase` from src/frontend/ast/statements.rs. -/
inductive WhenCase where
  | mk (pattern : WhenPattern) (body : List Statement)

end

def ElseIfBlock.condition : ElseIfBlock → Expression
  | .mk c _ => c

def ElseIfBlock.body : ElseIfBlock → List Statement
  | .mk _ b => b

def WhenCase.pattern : WhenCase → WhenPattern
  | .mk p _ => p

def WhenCase.body : WhenCase → List Statement
  | .mk _ b => b

/-- `StructField` from src/frontend/ast/structs.rs. -/
structure StructField where
  name : String
  field_type : String

/-- `StructDef` from src/frontend/ast/structs.rs. -/
structure StructDef where
  name : String
  fields : List StructField

/-- `EnumVariant` from src/frontend/ast/enums.rs. -/
structure EnumVariant where
  name : String
  payload : Option (List String)

/-- `EnumDef` from src/frontend/ast/enums.rs. -/
structure EnumDef where
  name : String
  variants : List EnumVariant

/-- `Parameter` from src/frontend/ast/declarations.rs. -/
structure Parameter where
  name : String
  param_type : String

/-- `Function` from src/frontend/ast/declarations.rs. -/
structure Function where
  name : String
  params : List Parameter
  has_varargs : Bool
  return_type : String
  abi : Option String
  body : List Statement

/-- `GlobalDeclaration` from src/frontend/ast/declarations.rs. -/
inductive GlobalDeclaration where
  | varG (name : String) (varType : Option String) (value : Expression)
  | constG (name : String) (varType : Option String) (value : Expression)
  | comptimeG (name : String) (varType : Option String) (value : Expression)
  | structG (d : StructDef)
  | enumG (d : EnumDef)

/-- `Import` from src/frontend/ast/declarations.rs. -/
structure Import where
  path : List String

/-- `Program` from src/frontend/ast/program.rs. -/
structure Program where
  imports : List Import
  globals : List GlobalDeclaration
  statements : List Statement
  functions : List Function

/-! ## Type-checker utilities
(src/analysis/type_checker/type_checker_utils.rs) -/

namespace TypeCheckerUtils

/-- `TypeCheckerUtils::is_signed`: `type_name.starts_with('i')`, expressed on
the character list so that it evaluates by kernel reduction. -/
def is_signed (type_name : String) : Bool :=
  match type_name.data with
  | c :: _ => c == 'i'
  | [] => false

/-- `TypeCheckerUtils::get_type_size` (bit size; `bool` counts as 8,
unknown names as 64). -/
def get_type_size (type_name : String) : Nat :=
  match type_name with
  | "bool" => 8
  | "i8" | "u8" => 8
  | "i16" | "u16" => 16
  | "i32" | "u32" => 32
  | "i64" | "u64" => 64
  | "i128" | "u128" => 128
  | _ => 64

/-- `TypeCheckerUtils::wider_type`: larger bit size wins; on a tie the first
argument wins iff it is signed, otherwise the second argument is returned. -/
def wider_type (type1 type2 : String) : String :=
  let size1 := get_type_size type1
  let size2 := get_type_size type2
  if size1 > size2 then type1
  else if size2 > size1 then type2
  else if is_signed type1 then type1 else type2

/-- `TypeCheckerUtils::get_literal_value`: `Some(v)` exactly on integer
literals. -/
def get_literal_value (expr : Expression) : Option Nat :=
  match expr with
  | .intLiteral val => some val
  | _ => none

/-- `TypeCheckerUtils::get_type_max` (the Rust code formats `iN::MAX` /
`uN::MAX` with `to_string`; the resulting decimal strings are inlined here). -/
def get_type_max (type_name : String) : String :=
  match type_name with
  | "bool" => "1"
  | "i8" => "127"
  | "i16" => "32767"
  | "i32" => "2147483647"
  | "i64" => "9223372036854775807"
  | "i128" => "170141183460469231731687303715884105727"
  | "u8" => "255"
  | "u16" => "65535"
  | "u32" => "4294967295"
  | "u64" => "18446744073709551615"
  | "u128" => "340282366920938463463374607431768211455"
  | _ => "unknown"

/-- `TypeCheckerUtils::get_unsigned_max` (unknown and signed names map to 0). -/
def get_unsigned_max (type_name : String) : Nat :=
  match type_name with
  | "bool" => 1
  | "u8" => u8_max
  | "u16" => u16_max
  | "u32" => u32_max
  | "u64" => u64_max
  | "u128" => u128_max
  | _ => 0

end TypeCheckerUtils

/-! ## Type conversion (src/analysis/type_checker/type_conversion.rs) -/

namespace TypeConversion

/-- The widening edge set from `TypeConversion::can_convert`. -/
def conversions : List (String × String) :=
  [("i8", "i16"), ("i8", "i32"), ("i8", "i64"), ("i8", "i128"),
   ("i16", "i32"), ("i16", "i64"), ("i16", "i128"),
   ("i32", "i64"), ("i32", "i128"),
   ("i64", "i128"),
   ("u8", "u16"), ("u8", "u32"), ("u8", "u64"), ("u8", "u128"),
   ("u16", "u32"), ("u16", "u64"), ("u16", "u128"),
   ("u32", "u64"), ("u32", "u128"),
   ("u64", "u128")]

/-- `TypeConversion::can_convert`: membership in the fixed edge set. -/
def can_convert (from_ to_ : String) : Bool :=
  conversions.any (fun p => p.1 == from_ && p.2 == to_)

/-- The size table from `TypeConversion::would_truncate`. -/
def type_sizes : List (String × Nat) :=
  [("i8", 8), ("i16", 16), ("i32", 32), ("i64", 64), ("i128", 128),
   ("u8", 8), ("u16", 16), ("u32", 32), ("u64", 64), ("u128", 128)]

/-- `TypeConversion::would_truncate`: both sizes known and source strictly
larger. -/
def would_truncate (from_ to_ : String) : Bool :=
  let from_size := (type_sizes.find? (fun p => p.1 == from_)).map (·.2)
  let to_size := (type_sizes.find? (fun p => p.1 == to_)).map (·.2)
  match from_size, to_size with
  | some fs, some ts => fs > ts
  | _, _ => false

end TypeConversion

/-! ## Type compatibility (src/analysis/type_checker/type_compatibility.rs) -/

namespace TypeCompatibility

/-- The integer-type list from `TypeCompatibility::types_compatible`. -/
def int_types : List String :=
  ["i8", "i16", "i32", "i64", "i128", "u8", "u16", "u32", "u64", "u128"]

/-- `TypeCompatibility::types_compatible`: same name, or both integer types. -/
def types_compatible (type1 type2 : String) : Bool :=
  if type1 == type2 then true
  else int_types.contains type1 && int_types.contains type2

/-- `TypeCompatibility::check_type_compatibility`. -/
def check_type_compatibility (expected actual : String) (expr : Expression) :
    Except String Unit :=
  if !(types_compatible expected actual) then
    if TypeConversion.can_convert actual expected then
      if TypeCheckerUtils.is_signed actual && !(TypeCheckerUtils.is_signed expected) then
        match TypeCheckerUtils.get_literal_value expr with
        | some val =>
          if val > TypeCheckerUtils.get_unsigned_max expected then
            .error ("Cannot convert signed value " ++ toString val ++
              " to unsigned type '" ++ expected ++ "' (exceeds maximum: " ++
              toString (TypeCheckerUtils.get_unsigned_max expected) ++ ")")
          else .ok ()
        | none =>
          .error ("Cannot implicitly convert signed type '" ++ actual ++
            "' to unsigned type '" ++ expected ++ "' without explicit cast")
      else .ok ()
    else
      .error ("Type mismatch: expected '" ++ expected ++ "', got '" ++ actual ++ "'")
  else .ok ()

end TypeCompatibility

/-! ## Bounds checking (src/analysis/type_checker/bounds_checker.rs) -/

namespace BoundsChecker

/-- `BoundsChecker::check_literal_bounds`. -/
def check_literal_bounds (value : Nat) (target_type : String) : Except String Unit :=
  match target_type with
  | "bool" =>
    if value > 1 then
      .error ("Integer literal " ++ toString value ++
        " cannot be converted to 'bool' (valid values: 0 or 1)")
    else .ok ()
  | "i8" =>
    if value > i8_max then
      .error ("Integer literal " ++ toString value ++
        " exceeds maximum value for type 'i8' (maximum: 127)")
    else .ok ()
  | "i16" =>
    if value > i16_max then
      .error ("Integer literal " ++ toString value ++
        " exceeds maximum value for type 'i16' (maximum: 32767)")
    else .ok ()
  | "i32" =>
    if value > i32_max then
      .error ("Integer literal " ++ toString value ++
        " exceeds maximum value for type 'i32' (maximum: 2147483647)")
    else .ok ()
  | "i64" =>
    if value > i64_max then
      .error ("Integer literal " ++ toString value ++
        " exceeds maximum value for type 'i64' (maximum: 9223372036854775807)")
    else .ok ()
  | "i128" =>
    if value > i128_max then
      .error ("Integer literal " ++ toString value ++
        " exceeds maximum value for type 'i128' (maximum: 170141183460469231731687303715884105727)")
    else .ok ()
  | "u8" =>
    if value > u8_max then
      .error ("Integer literal " ++ toString value ++
        " exceeds maximum value for type 'u8' (maximum: 255)")
    else .ok ()
  | "u16" =>
    if value > u16_max then
      .error ("Integer literal " ++ toString value ++
        " exceeds maximum value for type 'u16' (maximum: 65535)")
    else .ok ()
  | "u32" =>
    if value > u32_max then
      .error ("Integer literal " ++ toString value ++
        " exceeds maximum value for type 'u32' (maximum: 4294967295)")
    else .ok ()
  | "u64" =>
    if value > u64_max then
      .error ("Integer literal " ++ toString value ++
        " exceeds maximum value for type 'u64' (maximum: 18446744073709551615)")
    else .ok ()
  | "u128" => .ok ()
  | _ => .ok ()

/-- `BoundsChecker::check_negative_literal_bounds` (the operand of a unary
negation): signed targets accept `-v` iff `v` does not exceed the magnitude of
the type minimum; unsigned targets always reject; other targets accept. -/
def check_negative_literal_bounds (operand : Expression) (target_type : String) :
    Except String Unit :=
  match operand with
  | .intLiteral val =>
    match target_type with
    | "i8" =>
      if val > 128 then
        .error ("Value -" ++ toString val ++
          " is out of bounds for type 'i8' (valid range: -128 to 127)")
      else .ok ()
    | "i16" =>
      if val > 32768 then
        .error ("Value -" ++ toString val ++
          " is out of bounds for type 'i16' (valid range: -32768 to 32767)")
      else .ok ()
    | "i32" =>
      if val > 2147483648 then
        .error ("Value -" ++ toString val ++
          " is out of bounds for type 'i32' (valid range: -2147483648 to 2147483647)")
      else .ok ()
    | "i64" =>
      if val > 9223372036854775808 then
        .error ("Value -" ++ toString val ++
          " is out of bounds for type 'i64' (valid range: -9223372036854775808 to 9223372036854775807)")
      else .ok ()
    | "i128" =>
      if val > 170141183460469231731687303715884105728 then
        .error ("Value -" ++ toString val ++
          " is out of bounds for type 'i128' (valid range: -170141183460469231731687303715884105728 to 170141183460469231731687303715884105727)")
      else .ok ()
    | "u8" | "u16" | "u32" | "u64" | "u128" =>
      .error ("Cannot assign negative value -" ++ toString val ++
        " to unsigned type '" ++ target_type ++ "'")
    | _ => .ok ()
  | _ => .ok ()

/-- `BoundsChecker::check_expression_bounds`: constrains only integer
literals, boolean literals, and negated literals; everything else passes. -/
def check_expression_bounds (expr : Expression) (target_type : String) :
    Except String Unit :=
  match expr with
  | .intLiteral val => check_literal_bounds val target_type
  | .boolLiteral _ =>
    if target_type != "bool" then
      .error ("Cannot assign boolean literal to type '" ++ target_type ++ "'")
    else .ok ()
  | .unary .negate operand => check_negative_literal_bounds operand target_type
  | _ => .ok ()

end BoundsChecker

/-- The assignment-compatibility sequence the analyzer runs for a declaration
with an explicit type (`SemanticAnalyzer::validate_and_register_global` lines
276-277, and identically `StatementAnalyzer` for local `var`/`const`/`comptime`
declarations): the compatibility check followed by the bounds check. -/
def declaration_check (expected actual : String) (value : Expression) :
    Except String Unit := do
  TypeCompatibility.check_type_compatibility expected actual value
  BoundsChecker.check_expression_bounds value expected

/-! ## Analyzer literal type inference
(src/analysis/type_checker/type_inference.rs, `infer_int_literal_type`) -/

namespace TypeInference

/-- `TypeInference::infer_int_literal_type`: the analyzer's literal-typing
if-chain. -/
def infer_int_literal_type (val : Nat) : Except String String :=
  if val ≤ i8_max then .ok "i8"
  else if val ≤ u8_max && val ≤ i16_max then .ok "u8"
  else if val ≤ i16_max then .ok "i16"
  else if val ≤ u16_max && val ≤ i32_max then .ok "u16"
  else if val ≤ i32_max then .ok "i32"
  else if val ≤ u32_max && val ≤ i64_max then .ok "u32"
  else if val ≤ i64_max then .ok "i64"
  else if val ≤ u64_max then .ok "u64"
  else if val ≤ i128_max then .ok "i128"
  else .ok "u128"

end TypeInference

/-! ## Shared type utility (src/utils/type_utils.rs) -/

namespace TypeUtils

/-- `TypeUtils::infer_int_literal_type`: the code generator's (coarser)
literal-typing rule: `i64`, `u64`, or `u128`. -/
def infer_int_literal_type (val : Nat) : String :=
  if val ≤ i64_max then "i64"
  else if val ≤ u64_max then "u64"
  else "u128"

end TypeUtils

/-! ## Code-generator wider_type
(src/compiler/backend/codegen/helpers/type_inference.rs, `wider_type`) -/

namespace CodegenTypeInference

/-- The priority list from the emitter's `TypeInference::wider_type`. -/
def type_priority : List String :=
  ["bool", "i8", "u8", "i16", "u16", "i32", "u32", "i64", "u64", "i128", "u128"]

/-- The emitter's `TypeInference::wider_type`: the argument with the higher
position in `type_priority` wins; on equal or unknown positions the rules of
the source apply (`p1 > p2` picks the first, otherwise the second; if either
name is unknown the first is returned). -/
def wider_type (type1 type2 : String) : String :=
  let pos1 := type_priority.findIdx? (fun t => t == type1)
  let pos2 := type_priority.findIdx? (fun t => t == type2)
  match pos1, pos2 with
  | some p1, some p2 => if p1 > p2 then type1 else type2
  | _, _ => type1

end CodegenTypeInference

/-! ## Specification vocabulary for the type-level claims -/

-- `Except` values are compared decidably in several theorems below.
deriving instance DecidableEq for Except

/-- The literal-typing order stated by the specification. -/
def literal_order : List String :=
  ["i8", "u8", "i16", "u16", "i32", "u32", "i64", "u64", "i128", "u128"]

/-- MAX(T) as the specification defines it (`i*::MAX` for signed, `u*::MAX`
for unsigned, `bool` capped at 1). -/
def type_max_value : String → Nat
  | "bool" => 1
  | "i8" => i8_max
  | "i16" => i16_max
  | "i32" => i32_max
  | "i64" => i64_max
  | "i128" => i128_max
  | "u8" => u8_max
  | "u16" => u16_max
  | "u32" => u32_max
  | "u64" => u64_max
  | "u128" => u128_max
  | _ => 0

/-- The specification's literal-typing rule: the first type in `literal_order`
whose maximum value is at least `v`. -/
def spec_literal_first_fit (v : Nat) : Option String :=
  literal_order.find? (fun t => decide (v ≤ type_max_value t))

/-- |MIN(T)| for the signed integer types, as the specification defines it
(the magnitude of `i*::MIN`); `0` on every other name. -/
def type_min_magnitude : String → Nat
  | "i8" => 128
  | "i16" => 32768
  | "i32" => 2147483648
  | "i64" => 9223372036854775808
  | "i128" => 170141183460469231731687303715884105728
  | _ => 0

/-- The five signed integer type names. -/
def signed_int_types : List String := ["i8", "i16", "i32", "i64", "i128"]

/-- The five unsigned integer type names. -/
def unsigned_int_types : List String := ["u8", "u16", "u32", "u64", "u128"]

/-- The exact pairs of type names on which the analyzer's and the emitter's
`wider_type` differ: the equal-width mixed-signedness integer pairs in both
orders, plus `(u8, bool)`. -/
def wider_disagreements : List (String × String) :=
  [("u8", "bool"), ("i8", "u8"), ("u8", "i8"), ("i16", "u16"), ("u16", "i16"),
   ("i32", "u32"), ("u32", "i32"), ("i64", "u64"), ("u64", "i64"),
   ("i128", "u128"), ("u128", "i128")]
/-- The eleven type names "bool plus the ten integer types" of claim C7. -/
def bool_and_ints : List String :=
  ["bool", "i8", "u8", "i16", "u16", "i32", "u32", "i64", "u64", "i128", "u128"]

/-- The ten integer type names. -/
def ten_int_types : List String :=
  ["i8", "u8", "i16", "u16", "i32", "u32", "i64", "u64", "i128", "u128"]

/-! ## Claim C9: string-escape processing and emission -/

/-- Rust `str::replace` for a two-character pattern `[a, b]` and a
one-character replacement `[r]`: scans left to right, replacing
non-overlapping occurrences (every replacement in `process_escapes` has this
shape). -/
def replace2 (a b r : Char) : List Char → List Char
  | [] => []
  | [c] => [c]
  | c1 :: c2 :: rest =>
    if c1 == a && c2 == b then r :: replace2 a b r rest
    else c1 :: replace2 a b r (c2 :: rest)
termination_by structural x => x

/-- `process_escapes` from src/frontend/lexer/utils.rs, on character lists:
five sequential `str::replace` passes, in source order. -/
def process_escapes_chars (x : List Char) : List Char :=
  replace2 '\\' '"' '"'
    (replace2 '\\' '\\' '\\'
      (replace2 '\\' 'r' '\r'
        (replace2 '\\' 't' '\t'
          (replace2 '\\' 'n' '\n' x))))

/-- `process_escapes` from src/frontend/lexer/utils.rs. -/
def process_escapes (s : String) : String :=
  String.mk (process_escapes_chars s.data)

/-- A backslash followed by `c`: the two-character escape the emitter writes. -/
def esc_pair (c : Char) : List Char := ['\\', c]

/-- The per-character escaping loop of `LiteralEmitter::emit_string_literal`. -/
def emit_string_literal_chars : List Char → List Char
  | [] => []
  | ch :: rest =>
    (match ch with
     | '"' => esc_pair '"'
     | '\\' => esc_pair '\\'
     | '\n' => esc_pair 'n'
     | '\r' => esc_pair 'r'
     | '\t' => esc_pair 't'
     | _ => [ch]) ++ emit_string_literal_chars rest

/-- `LiteralEmitter::emit_string_literal`: a double quote, the escaped
characters, a double quote. -/
def emit_string_literal (s : String) : String :=
  "\"" ++ String.mk (emit_string_literal_chars s.data) ++ "\""

/-- One of the four escape letters that do not interact across the sequential
replacements: `n`, `t`, `r`, `"` (the escaped backslash `\\` is excluded). -/
def escape_letter (c : Char) : Bool := c == 'n' || c == 't' || c == 'r' || c == '"'

/-- The byte an escape letter denotes. -/
def escape_byte (c : Char) : Char :=
  if c == 'n' then '\n' else if c == 't' then '\t' else if c == 'r' then '\r' else c

/-- String-literal bodies on which escape pairs behave independently of
surrounding text: every backslash starts one of the pairs `\n`, `\t`, `\r`,
`\"`, and no raw newline/tab/carriage-return/quote byte appears. -/
def good_body : List Char → Bool
  | [] => true
  | c :: rest =>
    if c == '\\' then
      match rest with
      | [] => false
      | c2 :: rest2 => escape_letter c2 && good_body rest2
    else
      !(c == '\n' || c == '\t' || c == '\r' || c == '"') && good_body rest

/-- Independent per-pair decoding of the escape set. -/
def decode_escapes : List Char → List Char
  | [] => []
  | c :: rest =>
    if c == '\\' then
      match rest with
      | [] => [c]
      | c2 :: rest2 => escape_byte c2 :: decode_escapes rest2
    else c :: decode_escapes rest


/-! ## The C emitter buffer (src/compiler/backend/codegen/emitter/c_emitter.rs)
and the stdlib declaration emitter (stdlib/stdlib_emitter.rs) -/

/-- `CEmitter`: the output buffer and current indentation level. -/
structure CEmitter where
  output : String
  indent_level : Nat

/-- `CEmitter::new`. -/
def CEmitter.new : CEmitter := ⟨"", 0⟩

/-- `CEmitter::emit`: append raw text. -/
def CEmitter.emit (e : CEmitter) (code : String) : CEmitter :=
  { e with output := e.output ++ code }

/-- `CEmitter::indent`: append four spaces per indentation level. -/
def CEmitter.indent (e : CEmitter) : CEmitter :=
  { e with output := e.output ++ String.join (List.replicate e.indent_level "    ") }

/-- `CEmitter::emit_line`: indentation, the text, a newline. -/
def CEmitter.emit_line (e : CEmitter) (code : String) : CEmitter :=
  (e.indent.emit code).emit "\n"

/-- `StdlibEmitter::emit_decl`: the fixed table of forward declarations for
the `sm_std_io_*` helpers (unknown names emit nothing). -/
def StdlibEmitter.emit_decl (e : CEmitter) (func_name : String) : CEmitter :=
  match func_name with
  | "sm_std_io_println" => e.emit_line "void sm_std_io_println(const char* s);"
  | "sm_std_io_print" => e.emit_line "void sm_std_io_print(const char* s);"
  | "sm_std_io_println_bool" => e.emit_line "void sm_std_io_println_bool(bool b);"
  | "sm_std_io_print_bool" => e.emit_line "void sm_std_io_print_bool(bool b);"
  | "sm_std_io_println_i64" => e.emit_line "void sm_std_io_println_i64(int64_t n);"
  | "sm_std_io_print_i64" => e.emit_line "void sm_std_io_print_i64(int64_t n);"
  | "sm_std_io_println_u64" => e.emit_line "void sm_std_io_println_u64(uint64_t n);"
  | "sm_std_io_print_u64" => e.emit_line "void sm_std_io_print_u64(uint64_t n);"
  | "sm_std_io_println_i128" => e.emit_line "void sm_std_io_println_i128(__int128 n);"
  | "sm_std_io_print_i128" => e.emit_line "void sm_std_io_print_i128(__int128 n);"
  | "sm_std_io_println_u128" => e.emit_line "void sm_std_io_println_u128(unsigned __int128 n);"
  | "sm_std_io_print_u128" => e.emit_line "void sm_std_io_print_u128(unsigned __int128 n);"
  | "sm_std_io_readln" => e.emit_line "const char* sm_std_io_readln(void);"
  | "sm_std_io_read_i8" => e.emit_line "int8_t sm_std_io_read_i8(void);"
  | "sm_std_io_read_u8" => e.emit_line "uint8_t sm_std_io_read_u8(void);"
  | "sm_std_io_read_i16" => e.emit_line "int16_t sm_std_io_read_i16(void);"
  | "sm_std_io_read_u16" => e.emit_line "uint16_t sm_std_io_read_u16(void);"
  | "sm_std_io_read_i32" => e.emit_line "int32_t sm_std_io_read_i32(void);"
  | "sm_std_io_read_u32" => e.emit_line "uint32_t sm_std_io_read_u32(void);"
  | "sm_std_io_read_i64" => e.emit_line "int64_t sm_std_io_read_i64(void);"
  | "sm_std_io_read_u64" => e.emit_line "uint64_t sm_std_io_read_u64(void);"
  | _ => e

/-- `ProgramGenerator::emit_stdlib_decls`: one declaration per collected name
in the iteration order of the `used_stdlib_functions` hash set (the code does
not sort; the iteration order is the `func_names` parameter here), then a
blank line. -/
def emit_stdlib_decls (e : CEmitter) (func_names : List String) : CEmitter :=
  (func_names.foldl (fun acc n => StdlibEmitter.emit_decl acc n) e).emit_line ""


/-! ## Lexer (src/frontend/lexer/lexer.rs)

The positional `while` loops over `Vec<char>` become fuelled recursions over
an index into a `List Char`; fuel exhaustion yields a distinguished error that
no run below ever reaches (the fuel passed in `tokenize` exceeds every loop's
step count).  Rust's Unicode character classes: `char::is_whitespace` is the
25-point White_Space set, written out; `is_alphabetic`/`is_alphanumeric` are
modelled on their ASCII fragments (every program considered here is ASCII). -/

namespace Lexer

def rust_is_whitespace (c : Char) : Bool :=
  [9, 10, 11, 12, 13, 32, 133, 160, 5760, 8192, 8193, 8194, 8195, 8196, 8197,
   8198, 8199, 8200, 8201, 8202, 8232, 8233, 8239, 8287, 12288].contains c.toNat

-- ASCII fragment of `char::is_alphabetic` / `char::is_alphanumeric`.
def rust_is_alphabetic (c : Char) : Bool := c.isAlpha

def rust_is_alphanumeric (c : Char) : Bool := c.isAlphanum

/-- The comment-skipping loop of `tokenize` (lexer.rs lines 22-27): advance to
the next newline or the end of input, returning the new index. -/
def skip_line_comment (fuel : Nat) (chars : List Char) (i : Nat) : Nat :=
  match fuel with
  | 0 => i
  | fuel + 1 =>
    if i < chars.length && !(chars.getD i ' ' == '\n') then
      skip_line_comment fuel chars (i + 1)
    else i

/-- The scanning loop of `tokenize_string` (lexer.rs lines 83-93): from `i`,
find the index of the closing quote, stepping by 2 over a backslash.  Running
past the end is the "Unterminated string literal" error. -/
def scan_string (fuel : Nat) (chars : List Char) (i : Nat) : Except String Nat :=
  match fuel with
  | 0 => .error "lexer fuel exhausted"
  | fuel + 1 =>
    if i < chars.length then
      if chars.getD i ' ' == '"' then .ok i
      else if chars.getD i ' ' == '\\' then scan_string fuel chars (i + 2)
      else scan_string fuel chars (i + 1)
    else .error "Unterminated string literal"

/-- `tokenize_string` (lexer.rs lines 79-99): `i` points at the opening quote;
returns the token and the index just past the closing quote. -/
def tokenize_string (fuel : Nat) (chars : List Char) (i : Nat) :
    Except String (Token × Nat) :=
  let start := i + 1
  match scan_string fuel chars start with
  | .error e => .error e
  | .ok j =>
    .ok (Token.stringLiteral (process_escapes (String.mk ((chars.drop start).take (j - start)))), j + 1)

/-- The digit-scanning loop of `tokenize_number`: first index at or after `i`
holding a non-digit (or the length). -/
def scan_digits (fuel : Nat) (chars : List Char) (i : Nat) : Nat :=
  match fuel with
  | 0 => i
  | fuel + 1 =>
    if i < chars.length && (chars.getD i ' ').isDigit then
      scan_digits fuel chars (i + 1)
    else i

/-- Decimal value of a digit string (`str::parse::<u128>` on the scanned
digits; the scan guarantees the string is non-empty and all digits, so the
parse fails exactly on overflow past `u128::MAX`). -/
def digits_to_nat (ds : List Char) : Nat :=
  ds.foldl (fun a c => a * 10 + (c.toNat - 48)) 0

/-- `tokenize_number` (lexer.rs lines 109-126). -/
def tokenize_number (fuel : Nat) (chars : List Char) (i : Nat) :
    Except String (Token × Nat) :=
  let j := scan_digits fuel chars i
  let ds := (chars.drop i).take (j - i)
  let n := digits_to_nat ds
  if n ≤ u128_max then .ok (Token.intLiteral n, j)
  else
    .error ("Integer literal '" ++ String.mk ds ++
      "' is too large (maximum value is 340282366920938463463374607431768211455)")

/-- The identifier-scanning loop of `tokenize_identifier`: first index at or
after `i` holding a character that is neither alphanumeric nor `_`. -/
def scan_ident (fuel : Nat) (chars : List Char) (i : Nat) : Nat :=
  match fuel with
  | 0 => i
  | fuel + 1 =>
    if i < chars.length &&
        (rust_is_alphanumeric (chars.getD i ' ') || chars.getD i ' ' == '_') then
      scan_ident fuel chars (i + 1)
    else i

/-- The keyword table of `tokenize_identifier` (lexer.rs lines 145-179).  The
final four keyword arms before the identifier fallback are modelled from the
spec (section 3.1 lists `struct`, `enum`, `extern`, `elseif` as keywords and
the parser in this tree matches the corresponding tokens), absent from the
checked-in lexer.rs. -/
def keyword_or_identifier (word : String) : Token :=
  match word with
  | "import" => .importKw
  | "func" => .func
  | "ret" => .ret
  | "var" => .var
  | "const" => .const
  | "comptime" => .comptime
  | "if" => .ifKw
  | "else" => .elseKw
  | "while" => .whileKw
  | "when" => .whenKw
  | "expect" => .expectKw
  | "is" => .isKw
  | "fallthrough" => .fallthrough
  | "next" => .next
  | "stop" => .stop
  | "for" => .forKw
  | "in" => .inKw
  | "to" => .to
  | "through" => .through
  | "by" => .byKw
  | "where" => .whereKw
  | "not" => .not
  | "and" => .and
  | "or" => .or
  | "null" => .null
  | "true" => .trueKw
  | "false" => .falseKw
  | "bool" => .type "bool"
  | "i8" => .type "i8"
  | "i16" => .type "i16"
  | "i32" => .type "i32"
  | "i64" => .type "i64"
  | "i128" => .type "i128"
  | "u8" => .type "u8"
  | "u16" => .type "u16"
  | "u32" => .type "u32"
  | "u64" => .type "u64"
  | "u128" => .type "u128"
  | "void" => .type "void"
  | "str" => .type "str"
  | "struct" => .structKw
  | "enum" => .enumKw
  | "extern" => .externKw
  | "elseif" => .elseifKw
  | _ => .identifier word

/-- `tokenize_identifier` (lexer.rs lines 136-180): returns the token and the
index just past the word. -/
def tokenize_identifier (fuel : Nat) (chars : List Char) (i : Nat) : Token × Nat :=
  let j := scan_ident fuel chars i
  let word := String.mk ((chars.drop i).take (j - i))
  (keyword_or_identifier word, j)

/-- `tokenize_two_char_operator` (lexer.rs lines 190-202). -/
def tokenize_two_char_operator (chars : List Char) (i : Nat) : Option Token :=
  match chars.getD i ' ', chars.getD (i + 1) ' ' with
  | ':', ':' => some .doubleColon
  | '=', '=' => some .equal
  | '!', '=' => some .notEqual
  | '<', '=' => some .lessEqual
  | '>', '=' => some .greaterEqual
  | '-', '>' => some .arrow
  | _, _ => none

/-- `tokenize_single_char` (lexer.rs lines 211-233).  The `.` arm is modelled
from the spec (section 3.1 lists `.` among the operators and the parser
matches `Token::Dot`); it is absent from the checked-in lexer.rs. -/
def tokenize_single_char (ch : Char) : Except String Token :=
  match ch with
  | '+' => .ok .plus
  | '-' => .ok .minus
  | '*' => .ok .star
  | '/' => .ok .slash
  | '%' => .ok .percent
  | '=' => .ok .assign
  | '<' => .ok .leftAngle
  | '>' => .ok .rightAngle
  | ':' => .ok .colon
  | ';' => .ok .semicolon
  | ',' => .ok .comma
  | '(' => .ok .leftParen
  | ')' => .ok .rightParen
  | '{' => .ok .leftBrace
  | '}' => .ok .rightBrace
  | '[' => .ok .leftBracket
  | ']' => .ok .rightBracket
  | '?' => .ok .question
  | '.' => .ok .dot
  | _ => .error ("Unexpected character: " ++ ch.toString)

/-- The main loop of `tokenize` (lexer.rs lines 16-65).  The `...` branch
before the two-character operators is modelled from the spec (section 3.1
lists `...`; the parser matches `Token::Ellipsis` for variadic extern
declarations); it is absent from the checked-in lexer.rs. -/
def tokenize_loop (fuel : Nat) (chars : List Char) (i : Nat) (acc : List Token) :
    Except String (List Token) :=
  match fuel with
  | 0 => .error "lexer fuel exhausted"
  | fuel + 1 =>
    if i < chars.length then
      let c := chars.getD i ' '
      if rust_is_whitespace c then
        tokenize_loop fuel chars (i + 1) acc
      else if i + 1 < chars.length && c == '/' && chars.getD (i + 1) ' ' == '/' then
        tokenize_loop fuel chars (skip_line_comment fuel chars i) acc
      else if c == '"' then
        match tokenize_string fuel chars i with
        | .error e => .error e
        | .ok (t, j) => tokenize_loop fuel chars j (acc ++ [t])
      else if c.isDigit then
        match tokenize_number fuel chars i with
        | .error e => .error e
        | .ok (t, j) => tokenize_loop fuel chars j (acc ++ [t])
      else if rust_is_alphabetic c || c == '_' then
        match tokenize_identifier fuel chars i with
        | (t, j) => tokenize_loop fuel chars j (acc ++ [t])
      else if i + 2 < chars.length && c == '.' && chars.getD (i + 1) ' ' == '.'
          && chars.getD (i + 2) ' ' == '.' then
        tokenize_loop fuel chars (i + 3) (acc ++ [Token.ellipsis])
      else
        match (if i + 1 < chars.length then tokenize_two_char_operator chars i else none) with
        | some t => tokenize_loop fuel chars (i + 2) (acc ++ [t])
        | none =>
          match tokenize_single_char c with
          | .ok t => tokenize_loop fuel chars (i + 1) (acc ++ [t])
          | .error e => .error e
    else .ok acc

/-- `tokenize` (lexer.rs lines 11-69). -/
def tokenize (source : String) : Except String (List Token) :=
  match tokenize_loop (2 * source.length + 8) source.data 0 [] with
  | .error e => .error e
  | .ok ts => .ok (ts ++ [Token.eof])

end Lexer

/-! ## Parser (src/frontend/parser)

`Parser` carries the token vector and the cursor; every `&mut self` method
becomes a function returning the updated state (paired with its result, or
inside `Except` when the Rust method returns `Result`).  Each positional
`while`/`loop` becomes a fuelled helper; every fuelled function burns one
unit per call and hands the remainder to its callees, so the fuel bounds the
length of a call chain and the generous bound passed at the entry points is
never reached.  Rust's `self.tokens[self.pos]` (a panic when out of range)
is embedded as `getD` with default `Token.eof`; `advance` never moves past
the final `Eof` token, so the default is unreachable on lexer output. -/

/-- The `Parser` struct (src/frontend/parser/parser.rs lines 7-12). -/
structure Parser where
  tokens : List Token
  pos : Nat

/-- `Parser::current` (parser.rs lines 30-32). -/
def Parser.current (p : Parser) : Token :=
  p.tokens.getD p.pos Token.eof

/-- `Parser::peek` (parser.rs lines 42-48). -/
def Parser.peek (p : Parser) (offset : Nat) : Token :=
  if p.pos + offset < p.tokens.length then p.tokens.getD (p.pos + offset) Token.eof
  else Token.eof

/-- `Parser::advance` (parser.rs lines 54-58). -/
def Parser.advance (p : Parser) : Parser :=
  if p.pos < p.tokens.length - 1 then { p with pos := p.pos + 1 } else p

/-- `Parser::expect` (parser.rs lines 69-76). -/
def Parser.expect (p : Parser) (expected : Token) : Except String Parser :=
  if p.current == expected then .ok p.advance
  else .error ("Expected " ++ expected.debugFmt ++ ", got " ++ p.current.debugFmt)

/-- The message produced on fuel exhaustion; never reached from the entry
points below. -/
def parser_fuel_msg : String := "parser fuel exhausted"

/-- `parse_type`, shared verbatim by DeclarationParser (declaration_parser.rs
lines 23-37) and StatementParser (statement_parser.rs lines 24-38). -/
def parse_type (p : Parser) : Except String (String × Parser) :=
  match p.current with
  | .type t => .ok (t, p.advance)
  | .identifier id => .ok (id, p.advance)
  | _ => .error "Expected type or struct/enum name"

/-- The `::`-path loop of `ExpressionParser::parse_primary`
(expression_parser.rs lines 414-422). -/
def parse_path_loop (fuel : Nat) (acc : List String) (p : Parser) :
    Except String (List String × Parser) :=
  match fuel with
  | 0 => .error parser_fuel_msg
  | fuel + 1 =>
    if p.current == Token.doubleColon then
      match p.advance.current with
      | .identifier n => parse_path_loop fuel (acc ++ [n]) p.advance.advance
      | _ => .error "Expected identifier after ::"
    else .ok (acc, p)

/-- The generic-type-list loop of `parse_primary` (expression_parser.rs lines
443-456). -/
def parse_generic_types_loop (fuel : Nat) (acc : List String) (p : Parser) :
    Except String (List String × Parser) :=
  match fuel with
  | 0 => .error parser_fuel_msg
  | fuel + 1 =>
    match p.current with
    | .type t =>
      let p := p.advance
      if p.current == Token.comma then parse_generic_types_loop fuel (acc ++ [t]) p.advance
      else .ok (acc ++ [t], p)
    | _ => .error "Expected type in generic parameter"

/-- The type-argument lookahead of `parse_primary` (expression_parser.rs
lines 424-465). -/
def parse_type_args (fuel : Nat) (p : Parser) :
    Except String (Option (List String) × Parser) :=
  if p.current == Token.leftAngle
      && (match p.peek 1 with | .type _ => true | _ => false) then
    let is_generic :=
      match p.peek 1 with
      | .type _ => p.peek 2 == Token.rightAngle && p.peek 3 == Token.leftParen
      | _ => false
    if is_generic then
      match parse_generic_types_loop fuel [] p.advance with
      | .error e => .error e
      | .ok (types, p) =>
        match p.expect Token.rightAngle with
        | .error e => .error e
        | .ok p => .ok (some types, p)
    else .ok (none, p)
  else .ok (none, p)

/-- The binding loop of `StatementParser::parse_when_pattern`
(statement_parser.rs lines 400-415). -/
def parse_bindings_loop (fuel : Nat) (acc : List String) (p : Parser) :
    Except String (List String × Parser) :=
  match fuel with
  | 0 => .error parser_fuel_msg
  | fuel + 1 =>
    match p.current with
    | .identifier b =>
      let p := p.advance
      if p.current == Token.comma then parse_bindings_loop fuel (acc ++ [b]) p.advance
      else .ok (acc ++ [b], p)
    | _ => .error "Expected variable binding in enum pattern"

/-- The `.field` loop of `StatementParser::parse_field_assign`
(statement_parser.rs lines 100-109). -/
def parse_field_list_loop (fuel : Nat) (acc : List String) (p : Parser) :
    Except String (List String × Parser) :=
  match fuel with
  | 0 => .error parser_fuel_msg
  | fuel + 1 =>
    if p.current == Token.dot then
      match p.advance.current with
      | .identifier n => parse_field_list_loop fuel (acc ++ [n]) p.advance.advance
      | _ => .error "Expected field name after '.'"
    else .ok (acc, p)

/-- `StatementParser::parse_next` (statement_parser.rs lines 232-236). -/
def parse_next_stmt (p : Parser) : Except String (Statement × Parser) := do
  let p ← p.expect Token.next
  let p ← p.expect Token.semicolon
  .ok (Statement.next, p)

/-- `StatementParser::parse_stop` (statement_parser.rs lines 247-251). -/
def parse_stop_stmt (p : Parser) : Except String (Statement × Parser) := do
  let p ← p.expect Token.stop
  let p ← p.expect Token.semicolon
  .ok (Statement.stop, p)

/-- `StatementParser::parse_fallthrough` (statement_parser.rs lines
262-266). -/
def parse_fallthrough_stmt (p : Parser) : Except String (Statement × Parser) := do
  let p ← p.expect Token.fallthrough
  let p ← p.expect Token.semicolon
  .ok (Statement.fallthrough, p)

/-- The field loop of `StructParser::parse_struct` (struct_parser.rs lines
38-71). -/
def parse_struct_fields_loop (fuel : Nat) (acc : List StructField) (p : Parser) :
    Except String (List StructField × Parser) :=
  match fuel with
  | 0 => .error parser_fuel_msg
  | fuel + 1 =>
    if p.current == Token.rightBrace then .ok (acc, p)
    else
      match p.current with
      | .identifier n =>
        match p.advance.expect Token.colon with
        | .error e => .error e
        | .ok p =>
          match p.current with
          | .type t =>
            let acc := acc ++ [⟨n, t⟩]
            let p := p.advance
            if p.current == Token.comma then parse_struct_fields_loop fuel acc p.advance
            else parse_struct_fields_loop fuel acc p
          | .identifier t =>
            let acc := acc ++ [⟨n, t⟩]
            let p := p.advance
            if p.current == Token.comma then parse_struct_fields_loop fuel acc p.advance
            else parse_struct_fields_loop fuel acc p
          | _ => .error ("Expected field type, got " ++ p.current.debugFmt)
      | _ => .error "Expected field name"

/-- `StructParser::parse_struct` (struct_parser.rs lines 23-80). -/
def parse_struct_def (fuel : Nat) (p : Parser) : Except String (StructDef × Parser) := do
  let p ← p.expect Token.structKw
  match p.current with
  | .identifier name => do
    let p ← p.advance.expect Token.leftBrace
    let (fields, p) ← parse_struct_fields_loop fuel [] p
    let p ← p.expect Token.rightBrace
    if fields.isEmpty then .error "Struct must have at least one field"
    else .ok (StructDef.mk name fields, p)
  | _ => .error "Expected struct name"

/-- The `::module` loop of `DeclarationParser::parse_import`
(declaration_parser.rs lines 250-258). -/
def parse_import_path_loop (fuel : Nat) (acc : List String) (p : Parser) :
    Except String (List String × Parser) :=
  match fuel with
  | 0 => .error parser_fuel_msg
  | fuel + 1 =>
    if p.current == Token.doubleColon then
      match p.advance.current with
      | .identifier n => parse_import_path_loop fuel (acc ++ [n]) p.advance.advance
      | _ => .error "Expected module name after ::"
    else .ok (acc, p)

/-- `DeclarationParser::parse_import` (declaration_parser.rs lines 238-262). -/
def parse_import (fuel : Nat) (p : Parser) : Except String (Import × Parser) := do
  let p ← p.expect Token.importKw
  match p.current with
  | .identifier name => do
    let (path, p) ← parse_import_path_loop fuel [name] p.advance
    let p ← p.expect Token.semicolon
    .ok (Import.mk path, p)
  | _ => .error "Expected module name"

/-- The parameter loop of `DeclarationParser::parse_func`
(declaration_parser.rs lines 306-335); returns the parameters and the
`has_varargs` flag. -/
def parse_params_loop (fuel : Nat) (acc : List Parameter) (p : Parser) :
    Except String ((List Parameter × Bool) × Parser) :=
  match fuel with
  | 0 => .error parser_fuel_msg
  | fuel + 1 =>
    match p.current with
    | .identifier param_name =>
      let p := p.advance
      if p.current == Token.ellipsis then .ok ((acc, true), p.advance)
      else
        match p.expect Token.colon with
        | .error e => .error e
        | .ok p =>
          match parse_type p with
          | .error e => .error e
          | .ok (param_type, p) =>
            let acc := acc ++ [⟨param_name, param_type⟩]
            if p.current == Token.comma then parse_params_loop fuel acc p.advance
            else .ok ((acc, false), p)
    | _ => .error "Expected parameter name"

/-- The enum-variant attempt of `StatementParser::parse_when_pattern`
(statement_parser.rs lines 383-432): `.ok none` is the `saved_pos` restore
(the caller re-parses from the original position). -/
def parse_enum_pattern_attempt (fuel : Nat) (p : Parser) :
    Except String (Option (WhenPattern × Parser)) :=
  match p.current with
  | .identifier first =>
    let p1 := p.advance
    if p1.current == Token.doubleColon then
      let p2 := p1.advance
      match p2.current with
      | .identifier variant =>
        let p3 := p2.advance
        if p3.current == Token.leftParen then
          let p4 := p3.advance
          match
            (if p4.current == Token.rightParen then .ok ([], p4)
             else parse_bindings_loop fuel [] p4) with
          | .error e => .error e
          | .ok (bindings, p5) =>
            match p5.expect Token.rightParen with
            | .error e => .error e
            | .ok p6 => .ok (some (WhenPattern.enumVariant first variant bindings, p6))
        else .ok (some (WhenPattern.enumVariant first variant [], p3))
      | _ => .ok none
    else .ok none
  | _ => .ok none

mutual

/-- `ExpressionParser::parse_expr` (expression_parser.rs lines 26-28). -/
def parse_expr (fuel : Nat) (p : Parser) : Except String (Expression × Parser) :=
  match fuel with
  | 0 => .error parser_fuel_msg
  | fuel + 1 => parse_ternary fuel p

/-- `ExpressionParser::parse_ternary` (expression_parser.rs lines 39-56). -/
def parse_ternary (fuel : Nat) (p : Parser) : Except String (Expression × Parser) :=
  match fuel with
  | 0 => .error parser_fuel_msg
  | fuel + 1 => do
    let (expr, p) ← parse_when_expr fuel p
    if p.current == Token.question then do
      let (then_expr, p) ← parse_when_expr fuel p.advance
      let p ← p.expect Token.colon
      let (else_expr, p) ← parse_ternary fuel p
      .ok (Expression.ifExpr expr then_expr else_expr, p)
    else .ok (expr, p)

/-- `ExpressionParser::parse_when_expr` (expression_parser.rs lines 67-114). -/
def parse_when_expr (fuel : Nat) (p : Parser) : Except String (Expression × Parser) :=
  match fuel with
  | 0 => .error parser_fuel_msg
  | fuel + 1 =>
    if p.current == Token.whenKw then do
      let (value, p) ← parse_or fuel p.advance
      let p ← p.expect Token.leftBrace
      let (cases, p) ← parse_when_expr_cases_loop fuel [] p
      let p ← p.expect Token.elseKw
      let p ← p.expect Token.arrow
      let (else_expr, p) ← parse_or fuel p
      let p := if p.current == Token.semicolon then p.advance else p
      let p ← p.expect Token.rightBrace
      if cases.isEmpty then .error "When expression must have at least one case"
      else .ok (Expression.whenExpr value cases else_expr, p)
    else parse_if_expr fuel p

/-- The `is` loop of `parse_when_expr` (expression_parser.rs lines 77-92). -/
def parse_when_expr_cases_loop (fuel : Nat) (acc : List WhenExprCase) (p : Parser) :
    Except String (List WhenExprCase × Parser) :=
  match fuel with
  | 0 => .error parser_fuel_msg
  | fuel + 1 =>
    if p.current == Token.isKw then do
      let (pattern, p) ← parse_when_pattern_expr fuel p.advance
      let p ← p.expect Token.arrow
      let (result, p) ← parse_or fuel p
      let acc := acc ++ [WhenExprCase.mk pattern result]
      let p := if p.current == Token.comma || p.current == Token.semicolon then p.advance else p
      parse_when_expr_cases_loop fuel acc p
    else .ok (acc, p)

/-- `ExpressionParser::parse_when_pattern` (expression_parser.rs lines
123-133; the expression-level pattern grammar, distinct from the statement
parser's). -/
def parse_when_pattern_expr (fuel : Nat) (p : Parser) :
    Except String (WhenPattern × Parser) :=
  match fuel with
  | 0 => .error parser_fuel_msg
  | fuel + 1 => do
    let (start_expr, p) ← parse_or fuel p
    if p.current == Token.through then do
      let (end_expr, p) ← parse_or fuel p.advance
      .ok (WhenPattern.range start_expr end_expr true, p)
    else .ok (WhenPattern.single start_expr, p)

/-- `ExpressionParser::parse_if_expr` (expression_parser.rs lines 144-199).
Only the last statement of each block is kept (`pop()`), exactly as in the
source. -/
def parse_if_expr (fuel : Nat) (p : Parser) : Except String (Expression × Parser) :=
  match fuel with
  | 0 => .error parser_fuel_msg
  | fuel + 1 =>
    if p.current == Token.ifKw then do
      let (condition, p) ← parse_or fuel p.advance
      let p ← p.expect Token.leftBrace
      let (then_stmts, p) ← parse_stmt_block_loop fuel [] p
      let p ← p.expect Token.rightBrace
      match then_stmts.getLast? with
      | none => .error "If expression must have at least one statement in then block"
      | some last =>
        let then_expr? : Option Expression :=
          match last with
          | .exprStmt e => some e
          | .ret e => some e
          | _ => none
        match then_expr? with
        | none => .error "If expression's then block must end with an expression"
        | some then_expr => do
          let p ← p.expect Token.elseKw
          let p ← p.expect Token.leftBrace
          let (else_stmts, p) ← parse_stmt_block_loop fuel [] p
          let p ← p.expect Token.rightBrace
          match else_stmts.getLast? with
          | none => .error "If expression must have at least one statement in else block"
          | some last' =>
            let else_expr? : Option Expression :=
              match last' with
              | .exprStmt e => some e
              | .ret e => some e
              | _ => none
            match else_expr? with
            | none => .error "If expression's else block must end with an expression"
            | some else_expr => .ok (Expression.ifExpr condition then_expr else_expr, p)
    else parse_or fuel p

/-- `ExpressionParser::parse_or` (expression_parser.rs lines 210-224). -/
def parse_or (fuel : Nat) (p : Parser) : Except String (Expression × Parser) :=
  match fuel with
  | 0 => .error parser_fuel_msg
  | fuel + 1 => do
    let (left, p) ← parse_and fuel p
    parse_or_loop fuel left p

/-- The `or` loop of `parse_or`. -/
def parse_or_loop (fuel : Nat) (left : Expression) (p : Parser) :
    Except String (Expression × Parser) :=
  match fuel with
  | 0 => .error parser_fuel_msg
  | fuel + 1 =>
    if p.current == Token.or then do
      let (right, p) ← parse_and fuel p.advance
      parse_or_loop fuel (Expression.binary BinaryOp.or left right) p
    else .ok (left, p)

/-- `ExpressionParser::parse_and` (expression_parser.rs lines 235-249). -/
def parse_and (fuel : Nat) (p : Parser) : Except String (Expression × Parser) :=
  match fuel with
  | 0 => .error parser_fuel_msg
  | fuel + 1 => do
    let (left, p) ← parse_comparison fuel p
    parse_and_loop fuel left p

/-- The `and` loop of `parse_and`. -/
def parse_and_loop (fuel : Nat) (left : Expression) (p : Parser) :
    Except String (Expression × Parser) :=
  match fuel with
  | 0 => .error parser_fuel_msg
  | fuel + 1 =>
    if p.current == Token.and then do
      let (right, p) ← parse_comparison fuel p.advance
      parse_and_loop fuel (Expression.binary BinaryOp.and left right) p
    else .ok (left, p)

/-- `ExpressionParser::parse_comparison` (expression_parser.rs lines
260-293). -/
def parse_comparison (fuel : Nat) (p : Parser) : Except String (Expression × Parser) :=
  match fuel with
  | 0 => .error parser_fuel_msg
  | fuel + 1 => do
    let (left, p) ← parse_additive fuel p
    parse_comparison_loop fuel left p

/-- The operator loop of `parse_comparison`, including the `<T>` generic-call
lookahead that stops the loop on `LeftAngle Type RightAngle`. -/
def parse_comparison_loop (fuel : Nat) (left : Expression) (p : Parser) :
    Except String (Expression × Parser) :=
  match fuel with
  | 0 => .error parser_fuel_msg
  | fuel + 1 =>
    let op? : Option BinaryOp :=
      match p.current with
      | .equal => some .equal
      | .notEqual => some .notEqual
      | .lessEqual => some .lessEqual
      | .greaterEqual => some .greaterEqual
      | .leftAngle =>
        let is_generic :=
          match p.peek 1 with
          | .type _ => (match p.peek 2 with | .rightAngle => true | _ => false)
          | _ => false
        if is_generic then none else some .less
      | .rightAngle => some .greater
      | _ => none
    match op? with
    | some op => do
      let (right, p) ← parse_additive fuel p.advance
      parse_comparison_loop fuel (Expression.binary op left right) p
    | none => .ok (left, p)

/-- `ExpressionParser::parse_additive` (expression_parser.rs lines 304-319). -/
def parse_additive (fuel : Nat) (p : Parser) : Except String (Expression × Parser) :=
  match fuel with
  | 0 => .error parser_fuel_msg
  | fuel + 1 => do
    let (left, p) ← parse_multiplicative fuel p
    parse_additive_loop fuel left p

/-- The operator loop of `parse_additive`. -/
def parse_additive_loop (fuel : Nat) (left : Expression) (p : Parser) :
    Except String (Expression × Parser) :=
  match fuel with
  | 0 => .error parser_fuel_msg
  | fuel + 1 =>
    let op? : Option BinaryOp :=
      match p.current with
      | .plus => some .add
      | .minus => some .sub
      | _ => none
    match op? with
    | some op => do
      let (right, p) ← parse_multiplicative fuel p.advance
      parse_additive_loop fuel (Expression.binary op left right) p
    | none => .ok (left, p)

/-- `ExpressionParser::parse_multiplicative` (expression_parser.rs lines
331-347). -/
def parse_multiplicative (fuel : Nat) (p : Parser) : Except String (Expression × Parser) :=
  match fuel with
  | 0 => .error parser_fuel_msg
  | fuel + 1 => do
    let (left, p) ← parse_unary fuel p
    parse_multiplicative_loop fuel left p

/-- The operator loop of `parse_multiplicative`. -/
def parse_multiplicative_loop (fuel : Nat) (left : Expression) (p : Parser) :
    Except String (Expression × Parser) :=
  match fuel with
  | 0 => .error parser_fuel_msg
  | fuel + 1 =>
    let op? : Option BinaryOp :=
      match p.current with
      | .star => some .mul
      | .slash => some .div
      | .percent => some .mod
      | _ => none
    match op? with
    | some op => do
      let (right, p) ← parse_unary fuel p.advance
      parse_multiplicative_loop fuel (Expression.binary op left right) p
    | none => .ok (left, p)

/-- `ExpressionParser::parse_unary` (expression_parser.rs lines 358-378). -/
def parse_unary (fuel : Nat) (p : Parser) : Except String (Expression × Parser) :=
  match fuel with
  | 0 => .error parser_fuel_msg
  | fuel + 1 =>
    match p.current with
    | .minus => do
      let (operand, p) ← parse_unary fuel p.advance
      .ok (Expression.unary UnaryOp.negate operand, p)
    | .not => do
      let (operand, p) ← parse_unary fuel p.advance
      .ok (Expression.unary UnaryOp.not operand, p)
    | _ => parse_primary fuel p

/-- `ExpressionParser::parse_primary` (expression_parser.rs lines 387-499).
The struct-initialization branch is modelled from the spec (struct values
`Name { field: value, ... }`, recognised by an identifier followed by
`{ ident :`): the checked-in expression_parser.rs predates struct values and
lacks the branch, while the analyzer and emitter in the same tree consume
`Expression::StructInit`. -/
def parse_primary (fuel : Nat) (p : Parser) : Except String (Expression × Parser) :=
  match fuel with
  | 0 => .error parser_fuel_msg
  | fuel + 1 =>
    match p.current with
    | .intLiteral n => .ok (Expression.intLiteral n, p.advance)
    | .stringLiteral s => .ok (Expression.stringLiteral s, p.advance)
    | .null => .ok (Expression.nullLiteral, p.advance)
    | .trueKw => .ok (Expression.boolLiteral true, p.advance)
    | .falseKw => .ok (Expression.boolLiteral false, p.advance)
    | .identifier name => do
      let (path, p) ← parse_path_loop fuel [name] p.advance
      let (type_args, p) ← parse_type_args fuel p
      if path.length == 1 && type_args.isNone && p.current == Token.leftBrace
          && (match p.peek 1 with | .identifier _ => p.peek 2 == Token.colon | _ => false) then
        parse_struct_init fuel (path.headD "") p
      else if p.current == Token.leftParen then
        let p := p.advance
        if p.current == Token.rightParen then do
          let p ← p.expect Token.rightParen
          .ok (Expression.call path type_args [], p)
        else do
          let (args, p) ← parse_call_args_loop fuel [] p
          let p ← p.expect Token.rightParen
          .ok (Expression.call path type_args args, p)
      else if path.length == 1 && type_args.isNone then
        .ok (Expression.var (path.headD ""), p)
      else .error "Path without function call or type parameters without function call"
    | .leftParen => do
      let (expr, p) ← parse_expr fuel p.advance
      let p ← p.expect Token.rightParen
      .ok (expr, p)
    | _ => .error ("Unexpected token in expression: " ++ p.current.debugFmt)

/-- The argument loop of `parse_primary` (expression_parser.rs lines
471-480). -/
def parse_call_args_loop (fuel : Nat) (acc : List Expression) (p : Parser) :
    Except String (List Expression × Parser) :=
  match fuel with
  | 0 => .error parser_fuel_msg
  | fuel + 1 => do
    let (arg, p) ← parse_expr fuel p
    let acc := acc ++ [arg]
    if p.current == Token.comma then parse_call_args_loop fuel acc p.advance
    else .ok (acc, p)

/-- `StructParser::parse_struct_init` (struct_parser.rs lines 91-162). -/
def parse_struct_init (fuel : Nat) (struct_name : String) (p : Parser) :
    Except String (Expression × Parser) :=
  match fuel with
  | 0 => .error parser_fuel_msg
  | fuel + 1 => do
    let p ← p.expect Token.leftBrace
    let (fields, p) ← parse_struct_init_loop fuel none [] p
    let p ← p.expect Token.rightBrace
    if fields.isEmpty then .error "Struct initialization must have at least one field"
    else .ok (Expression.structInit struct_name fields, p)

/-- The field loop of `parse_struct_init` (struct_parser.rs lines 97-150),
threading the positional/named mode flag. -/
def parse_struct_init_loop (fuel : Nat) (is_positional : Option Bool)
    (acc : List StructFieldInit) (p : Parser) :
    Except String (List StructFieldInit × Parser) :=
  match fuel with
  | 0 => .error parser_fuel_msg
  | fuel + 1 =>
    if p.current == Token.rightBrace then .ok (acc, p)
    else
      let is_named_field :=
        match p.current with
        | .identifier _ => p.peek 1 == Token.colon
        | _ => false
      let is_positional :=
        if is_positional.isNone then some (!is_named_field) else is_positional
      if is_positional == some true && is_named_field then
        .error "Cannot mix positional and named field initialization"
      else if is_positional == some false && !is_named_field then
        .error "Cannot mix named and positional field initialization"
      else if is_named_field then
        match p.current with
        | .identifier field_name => do
          let p ← p.advance.expect Token.colon
          let (value, p) ← parse_expr fuel p
          let acc := acc ++ [StructFieldInit.mk (some field_name) value]
          if p.current == Token.comma then parse_struct_init_loop fuel is_positional acc p.advance
          else if !(p.current == Token.rightBrace) then
            .error "Expected ',' or '\x7d' after field initialization"
          else parse_struct_init_loop fuel is_positional acc p
        | _ => .error "Expected field name"
      else do
        let (value, p) ← parse_expr fuel p
        let acc := acc ++ [StructFieldInit.mk none value]
        if p.current == Token.comma then parse_struct_init_loop fuel is_positional acc p.advance
        else if !(p.current == Token.rightBrace) then
          .error "Expected ',' or '\x7d' after field initialization"
        else parse_struct_init_loop fuel is_positional acc p

/-- `StatementParser::parse_stmt` (statement_parser.rs lines 47-80). -/
def parse_stmt (fuel : Nat) (p : Parser) : Except String (Statement × Parser) :=
  match fuel with
  | 0 => .error parser_fuel_msg
  | fuel + 1 =>
    match p.current with
    | .var => parse_var_stmt fuel p
    | .const => parse_const_stmt fuel p
    | .comptime => parse_comptime_stmt fuel p
    | .ret => parse_return_stmt fuel p
    | .ifKw => parse_if_stmt fuel p
    | .whileKw => parse_while_stmt fuel p
    | .whenKw => parse_when_stmt fuel p
    | .expectKw => parse_expect_stmt fuel p
    | .forKw => parse_for_stmt fuel p
    | .next => parse_next_stmt p
    | .stop => parse_stop_stmt p
    | .fallthrough => parse_fallthrough_stmt p
    | .identifier _ =>
      if p.peek 1 == Token.dot then parse_field_assign fuel p
      else if p.peek 1 == Token.assign then parse_assign_stmt fuel p
      else do
        let (expr, p) ← parse_expr fuel p
        let p ← p.expect Token.semicolon
        .ok (Statement.exprStmt expr, p)
    | _ => do
      let (expr, p) ← parse_expr fuel p
      let p ← p.expect Token.semicolon
      .ok (Statement.exprStmt expr, p)

/-- The `while current != RightBrace` statement-collection loop that every
block-parsing site inlines (e.g. statement_parser.rs lines 705-708). -/
def parse_stmt_block_loop (fuel : Nat) (acc : List Statement) (p : Parser) :
    Except String (List Statement × Parser) :=
  match fuel with
  | 0 => .error parser_fuel_msg
  | fuel + 1 =>
    if p.current == Token.rightBrace then .ok (acc, p)
    else do
      let (s, p) ← parse_stmt fuel p
      parse_stmt_block_loop fuel (acc ++ [s]) p

/-- `StatementParser::parse_field_assign` (statement_parser.rs lines 88-146).
The chained `FieldAccess` expression the source builds for the multi-field
case is dead (never stored); only the `.`-joined field path survives. -/
def parse_field_assign (fuel : Nat) (p : Parser) : Except String (Statement × Parser) :=
  match fuel with
  | 0 => .error parser_fuel_msg
  | fuel + 1 =>
    match p.current with
    | .identifier object => do
      let (fields, p) ← parse_field_list_loop fuel [] p.advance
      if fields.isEmpty then .error "Expected at least one field access"
      else do
        let p ← p.expect Token.assign
        let (value, p) ← parse_expr fuel p
        let p ← p.expect Token.semicolon
        if fields.length == 1 then
          .ok (Statement.fieldAssign object (fields.headD "") value, p)
        else
          .ok (Statement.fieldAssign object (String.intercalate "." fields) value, p)
    | _ => .error "Expected object name"

/-- `StatementParser::parse_expect` (statement_parser.rs lines 158-221). -/
def parse_expect_stmt (fuel : Nat) (p : Parser) : Except String (Statement × Parser) :=
  match fuel with
  | 0 => .error parser_fuel_msg
  | fuel + 1 => do
    let p ← p.expect Token.expectKw
    let (condition, p) ← parse_or fuel p
    let (pattern, p) ←
      (if p.current == Token.isKw then do
        let (start_expr, p) ← parse_or fuel p.advance
        if p.current == Token.through then do
          let (end_expr, p) ← parse_or fuel p.advance
          .ok (some (ExpectPattern.range start_expr end_expr true), p)
        else if p.current == Token.to then do
          let (end_expr, p) ← parse_or fuel p.advance
          .ok (some (ExpectPattern.range start_expr end_expr false), p)
        else .ok (some (ExpectPattern.single start_expr), p)
      else .ok (none, p) : Except String (Option ExpectPattern × Parser))
    let p ← p.expect Token.leftBrace
    let p ← p.expect Token.elseKw
    if p.current == Token.arrow then do
      let (stmt, p) ← parse_stmt fuel p.advance
      let p ← p.expect Token.rightBrace
      .ok (Statement.expect condition pattern [stmt], p)
    else if p.current == Token.leftBrace then do
      let (else_stmts, p) ← parse_stmt_block_loop fuel [] p.advance
      let p ← p.expect Token.rightBrace
      let p ← p.expect Token.rightBrace
      .ok (Statement.expect condition pattern else_stmts, p)
    else .error "Expected '->' or '\x7b' after 'else' in expect statement"

/-- `StatementParser::parse_when` (statement_parser.rs lines 282-372). -/
def parse_when_stmt (fuel : Nat) (p : Parser) : Except String (Statement × Parser) :=
  match fuel with
  | 0 => .error parser_fuel_msg
  | fuel + 1 => do
    let p ← p.expect Token.whenKw
    let (value, p) ←
      (match p.current with
      | .identifier name => .ok (Expression.var name, p.advance)
      | .intLiteral n => .ok (Expression.intLiteral n, p.advance)
      | .trueKw => .ok (Expression.boolLiteral true, p.advance)
      | .falseKw => .ok (Expression.boolLiteral false, p.advance)
      | _ => parse_or fuel p : Except String (Expression × Parser))
    let p ← p.expect Token.leftBrace
    let (cases, p) ← parse_when_cases_loop fuel [] p
    let (else_block, p) ←
      (if p.current == Token.elseKw then
        let p := p.advance
        if p.current == Token.arrow then do
          let (stmt, p) ← parse_stmt fuel p.advance
          .ok (some [stmt], p)
        else do
          let p ← p.expect Token.leftBrace
          let (else_stmts, p) ← parse_stmt_block_loop fuel [] p
          let p ← p.expect Token.rightBrace
          .ok (some else_stmts, p)
      else .ok (none, p) : Except String (Option (List Statement) × Parser))
    let p ← p.expect Token.rightBrace
    if cases.isEmpty && else_block.isNone then
      .error "When statement must have at least one 'is' case or an 'else' block"
    else .ok (Statement.whenStmt value cases else_block, p)

/-- The `is` loop of `parse_when` (statement_parser.rs lines 314-339). -/
def parse_when_cases_loop (fuel : Nat) (acc : List WhenCase) (p : Parser) :
    Except String (List WhenCase × Parser) :=
  match fuel with
  | 0 => .error parser_fuel_msg
  | fuel + 1 =>
    if p.current == Token.isKw then do
      let (pattern, p) ← parse_when_pattern_stmt fuel p.advance
      if p.current == Token.arrow then do
        let (stmt, p) ← parse_stmt fuel p.advance
        parse_when_cases_loop fuel (acc ++ [WhenCase.mk pattern [stmt]]) p
      else do
        let p ← p.expect Token.leftBrace
        let (stmts, p) ← parse_stmt_block_loop fuel [] p
        let p ← p.expect Token.rightBrace
        parse_when_cases_loop fuel (acc ++ [WhenCase.mk pattern stmts]) p
    else .ok (acc, p)

/-- `StatementParser::parse_when_pattern` (statement_parser.rs lines
382-458): enum-variant attempt with backtracking, then `to`/`through`
ranges or a single value. -/
def parse_when_pattern_stmt (fuel : Nat) (p : Parser) :
    Except String (WhenPattern × Parser) :=
  match fuel with
  | 0 => .error parser_fuel_msg
  | fuel + 1 =>
    match parse_enum_pattern_attempt fuel p with
    | .error e => .error e
    | .ok (some (pat, p)) => .ok (pat, p)
    | .ok none => do
      let (start_expr, p) ← parse_or fuel p
      if p.current == Token.to then do
        let (end_expr, p) ← parse_or fuel p.advance
        .ok (WhenPattern.range start_expr end_expr false, p)
      else if p.current == Token.through then do
        let (end_expr, p) ← parse_or fuel p.advance
        .ok (WhenPattern.range start_expr end_expr true, p)
      else .ok (WhenPattern.single start_expr, p)

/-- `StatementParser::parse_for` (statement_parser.rs lines 474-540). -/
def parse_for_stmt (fuel : Nat) (p : Parser) : Except String (Statement × Parser) :=
  match fuel with
  | 0 => .error parser_fuel_msg
  | fuel + 1 => do
    let p ← p.expect Token.forKw
    let p ← p.expect Token.var
    match p.current with
    | .identifier variable_ => do
      let p ← p.advance.expect Token.inKw
      let (start, p) ← parse_or fuel p
      let (inclusive, p) ←
        (match p.current with
        | .to => .ok (false, p.advance)
        | .through => .ok (true, p.advance)
        | _ => .error "Expected 'to' or 'through' after range start" :
          Except String (Bool × Parser))
      let (end_, p) ← parse_or fuel p
      let (step, p) ←
        (if p.current == Token.byKw then do
          let (s, p) ← parse_or fuel p.advance
          .ok (some s, p)
        else .ok (none, p) : Except String (Option Expression × Parser))
      let (filter, p) ←
        (if p.current == Token.whereKw then do
          let (f, p) ← parse_expr fuel p.advance
          .ok (some f, p)
        else .ok (none, p) : Except String (Option Expression × Parser))
      let p ← p.expect Token.leftBrace
      let (body, p) ← parse_stmt_block_loop fuel [] p
      let p ← p.expect Token.rightBrace
      .ok (Statement.forStmt variable_ start end_ inclusive step filter body, p)
    | _ => .error "Expected loop variable name"

/-- `StatementParser::parse_const` (statement_parser.rs lines 551-575). -/
def parse_const_stmt (fuel : Nat) (p : Parser) : Except String (Statement × Parser) :=
  match fuel with
  | 0 => .error parser_fuel_msg
  | fuel + 1 => do
    let p ← p.expect Token.const
    match p.current with
    | .identifier name => do
      let p := p.advance
      let (var_type, p) ←
        (if p.current == Token.colon then do
          let (t, p) ← parse_type p.advance
          .ok (some t, p)
        else .ok (none, p) : Except String (Option String × Parser))
      let p ← p.expect Token.assign
      let (value, p) ← parse_expr fuel p
      let p ← p.expect Token.semicolon
      .ok (Statement.constDecl name var_type value, p)
    | _ => .error "Expected variable name"

/-- `StatementParser::parse_comptime` (statement_parser.rs lines 586-610). -/
def parse_comptime_stmt (fuel : Nat) (p : Parser) : Except String (Statement × Parser) :=
  match fuel with
  | 0 => .error parser_fuel_msg
  | fuel + 1 => do
    let p ← p.expect Token.comptime
    match p.current with
    | .identifier name => do
      let p := p.advance
      let (var_type, p) ←
        (if p.current == Token.colon then do
          let (t, p) ← parse_type p.advance
          .ok (some t, p)
        else .ok (none, p) : Except String (Option String × Parser))
      let p ← p.expect Token.assign
      let (value, p) ← parse_expr fuel p
      let p ← p.expect Token.semicolon
      .ok (Statement.comptimeDecl name var_type value, p)
    | _ => .error "Expected variable name"

/-- `StatementParser::parse_var` (statement_parser.rs lines 621-645). -/
def parse_var_stmt (fuel : Nat) (p : Parser) : Except String (Statement × Parser) :=
  match fuel with
  | 0 => .error parser_fuel_msg
  | fuel + 1 => do
    let p ← p.expect Token.var
    match p.current with
    | .identifier name => do
      let p := p.advance
      let (var_type, p) ←
        (if p.current == Token.colon then do
          let (t, p) ← parse_type p.advance
          .ok (some t, p)
        else .ok (none, p) : Except String (Option String × Parser))
      let p ← p.expect Token.assign
      let (value, p) ← parse_expr fuel p
      let p ← p.expect Token.semicolon
      .ok (Statement.varDecl name var_type value, p)
    | _ => .error "Expected variable name"

/-- `StatementParser::parse_assign` (statement_parser.rs lines 656-671). -/
def parse_assign_stmt (fuel : Nat) (p : Parser) : Except String (Statement × Parser) :=
  match fuel with
  | 0 => .error parser_fuel_msg
  | fuel + 1 =>
    match p.current with
    | .identifier name => do
      let p ← p.advance.expect Token.assign
      let (value, p) ← parse_expr fuel p
      let p ← p.expect Token.semicolon
      .ok (Statement.assign name value, p)
    | _ => .error "Expected variable name"

/-- `StatementParser::parse_return` (statement_parser.rs lines 682-688). -/
def parse_return_stmt (fuel : Nat) (p : Parser) : Except String (Statement × Parser) :=
  match fuel with
  | 0 => .error parser_fuel_msg
  | fuel + 1 => do
    let p ← p.expect Token.ret
    let (expr, p) ← parse_expr fuel p
    let p ← p.expect Token.semicolon
    .ok (Statement.ret expr, p)

/-- `StatementParser::parse_if` (statement_parser.rs lines 699-744). -/
def parse_if_stmt (fuel : Nat) (p : Parser) : Except String (Statement × Parser) :=
  match fuel with
  | 0 => .error parser_fuel_msg
  | fuel + 1 => do
    let p ← p.expect Token.ifKw
    let (condition, p) ← parse_expr fuel p
    let p ← p.expect Token.leftBrace
    let (then_block, p) ← parse_stmt_block_loop fuel [] p
    let p ← p.expect Token.rightBrace
    let (elseif_blocks, p) ← parse_elseif_loop fuel [] p
    let (else_block, p) ←
      (if p.current == Token.elseKw then do
        let p ← p.advance.expect Token.leftBrace
        let (else_stmts, p) ← parse_stmt_block_loop fuel [] p
        let p ← p.expect Token.rightBrace
        .ok (some else_stmts, p)
      else .ok (none, p) : Except String (Option (List Statement) × Parser))
    .ok (Statement.ifStmt condition then_block elseif_blocks else_block, p)

/-- The `elseif` loop of `parse_if` (statement_parser.rs lines 711-728). -/
def parse_elseif_loop (fuel : Nat) (acc : List ElseIfBlock) (p : Parser) :
    Except String (List ElseIfBlock × Parser) :=
  match fuel with
  | 0 => .error parser_fuel_msg
  | fuel + 1 =>
    if p.current == Token.elseifKw then do
      let (cond, p) ← parse_expr fuel p.advance
      let p ← p.expect Token.leftBrace
      let (body, p) ← parse_stmt_block_loop fuel [] p
      let p ← p.expect Token.rightBrace
      parse_elseif_loop fuel (acc ++ [ElseIfBlock.mk cond body]) p
    else .ok (acc, p)

/-- `StatementParser::parse_while` (statement_parser.rs lines 755-768). -/
def parse_while_stmt (fuel : Nat) (p : Parser) : Except String (Statement × Parser) :=
  match fuel with
  | 0 => .error parser_fuel_msg
  | fuel + 1 => do
    let p ← p.expect Token.whileKw
    let (condition, p) ← parse_expr fuel p
    let p ← p.expect Token.leftBrace
    let (body, p) ← parse_stmt_block_loop fuel [] p
    let p ← p.expect Token.rightBrace
    .ok (Statement.whileStmt condition body, p)

end

/-- `DeclarationParser::parse_func` (declaration_parser.rs lines 276-366). -/
def parse_func (fuel : Nat) (p : Parser) : Except String (Function × Parser) := do
  let (abi, p) ←
    (match p.current with
    | .externKw =>
      let p := p.advance
      match p.current with
      | .stringLiteral abi_name => .ok (some abi_name, p.advance)
      | _ => .error "Expected ABI name as string literal (e.g., \"C\")"
    | _ => .ok (none, p) : Except String (Option String × Parser))
  let p ← p.expect Token.func
  match p.current with
  | .identifier name => do
    let p ← p.advance.expect Token.leftParen
    let ((params, has_varargs), p) ←
      (if p.current == Token.rightParen then .ok (([], false), p)
       else parse_params_loop fuel [] p : Except String ((List Parameter × Bool) × Parser))
    let p ← p.expect Token.rightParen
    let p ← p.expect Token.colon
    let (return_type, p) ← parse_type p
    let (body, p) ←
      (if p.current == Token.semicolon then .ok ([], p.advance)
       else do
        let p ← p.expect Token.leftBrace
        let (body, p) ← parse_stmt_block_loop fuel [] p
        let p ← p.expect Token.rightBrace
        .ok (body, p) : Except String (List Statement × Parser))
    .ok (Function.mk name params has_varargs return_type abi body, p)
  | _ => .error "Expected function name"

/-- `DeclarationParser::parse_global_var` (declaration_parser.rs lines
133-157). -/
def parse_global_var (fuel : Nat) (p : Parser) :
    Except String (GlobalDeclaration × Parser) := do
  let p ← p.expect Token.var
  match p.current with
  | .identifier name => do
    let p := p.advance
    let (var_type, p) ←
      (if p.current == Token.colon then do
        let (t, p) ← parse_type p.advance
        .ok (some t, p)
      else .ok (none, p) : Except String (Option String × Parser))
    let p ← p.expect Token.assign
    let (value, p) ← parse_expr fuel p
    let p ← p.expect Token.semicolon
    .ok (GlobalDeclaration.varG name var_type value, p)
  | _ => .error "Expected variable name"

/-- `DeclarationParser::parse_global_const` (declaration_parser.rs lines
168-192). -/
def parse_global_const (fuel : Nat) (p : Parser) :
    Except String (GlobalDeclaration × Parser) := do
  let p ← p.expect Token.const
  match p.current with
  | .identifier name => do
    let p := p.advance
    let (var_type, p) ←
      (if p.current == Token.colon then do
        let (t, p) ← parse_type p.advance
        .ok (some t, p)
      else .ok (none, p) : Except String (Option String × Parser))
    let p ← p.expect Token.assign
    let (value, p) ← parse_expr fuel p
    let p ← p.expect Token.semicolon
    .ok (GlobalDeclaration.constG name var_type value, p)
  | _ => .error "Expected variable name"

/-- `DeclarationParser::parse_global_comptime` (declaration_parser.rs lines
203-227). -/
def parse_global_comptime (fuel : Nat) (p : Parser) :
    Except String (GlobalDeclaration × Parser) := do
  let p ← p.expect Token.comptime
  match p.current with
  | .identifier name => do
    let p := p.advance
    let (var_type, p) ←
      (if p.current == Token.colon then do
        let (t, p) ← parse_type p.advance
        .ok (some t, p)
      else .ok (none, p) : Except String (Option String × Parser))
    let p ← p.expect Token.assign
    let (value, p) ← parse_expr fuel p
    let p ← p.expect Token.semicolon
    .ok (GlobalDeclaration.comptimeG name var_type value, p)
  | _ => .error "Expected variable name"

/-- The declaration loop of `Parser::parse_program` (parser.rs lines 91-126).
There is no arm for `Token::Enum`: a top-level `enum` falls to the statement
fallback, exactly as in the source. -/
def parse_program_loop (fuel : Nat) (p : Parser) (imports : List Import)
    (globals : List GlobalDeclaration) (statements : List Statement)
    (functions : List Function) : Except String Program :=
  match fuel with
  | 0 => .error parser_fuel_msg
  | fuel + 1 =>
    if p.current == Token.eof then
      .ok (Program.mk imports globals statements functions)
    else
      match p.current with
      | .importKw =>
        match parse_import fuel p with
        | .error e => .error e
        | .ok (im, p) => parse_program_loop fuel p (imports ++ [im]) globals statements functions
      | .structKw =>
        match parse_struct_def fuel p with
        | .error e => .error e
        | .ok (sd, p) =>
          parse_program_loop fuel p imports (globals ++ [GlobalDeclaration.structG sd])
            statements functions
      | .var =>
        match parse_global_var fuel p with
        | .error e => .error e
        | .ok (g, p) => parse_program_loop fuel p imports (globals ++ [g]) statements functions
      | .const =>
        match parse_global_const fuel p with
        | .error e => .error e
        | .ok (g, p) => parse_program_loop fuel p imports (globals ++ [g]) statements functions
      | .comptime =>
        match parse_global_comptime fuel p with
        | .error e => .error e
        | .ok (g, p) => parse_program_loop fuel p imports (globals ++ [g]) statements functions
      | .func =>
        match parse_func fuel p with
        | .error e => .error e
        | .ok (f, p) => parse_program_loop fuel p imports globals statements (functions ++ [f])
      | .externKw =>
        match parse_func fuel p with
        | .error e => .error e
        | .ok (f, p) => parse_program_loop fuel p imports globals statements (functions ++ [f])
      | _ =>
        match parse_stmt fuel p with
        | .error e => .error e
        | .ok (s, p) => parse_program_loop fuel p imports globals (statements ++ [s]) functions

/-- `parse` / `Parser::parse_program` (parser.rs lines 85-142).  The fuel
grows linearly with the token count and strictly dominates the longest
possible call chain, so the fuel error is unreachable from here. -/
def parse (tokens : List Token) : Except String Program :=
  parse_program_loop (16 * tokens.length + 64) (Parser.mk tokens 0) [] [] [] []

/-! ## I/O path matching (src/utils/io_path_matcher.rs) -/

namespace IoPathMatcher

/-- `IoPathMatcher::matches_io_function` (io_path_matcher.rs lines 64-67). -/
def matches_io_function (path : List String) (function_name : String) : Bool :=
  match path with
  | [a, b] => a == "io" && b == function_name
  | [a, b, c] => a == "std" && b == "io" && c == function_name
  | _ => false

/-- `IoPathMatcher::is_readln` (io_path_matcher.rs lines 12-14). -/
def is_readln (path : List String) : Bool := matches_io_function path "readln"

/-- `IoPathMatcher::is_read` (io_path_matcher.rs lines 23-25). -/
def is_read (path : List String) : Bool := matches_io_function path "read"

/-- `IoPathMatcher::is_println` (io_path_matcher.rs lines 34-37). -/
def is_println (path : List String) : Bool :=
  match path with
  | [a, b] => a == "io" && b == "println"
  | [a, b, c] => a == "std" && b == "io" && c == "println"
  | _ => false

/-- `IoPathMatcher::is_print` (io_path_matcher.rs lines 46-49). -/
def is_print (path : List String) : Bool :=
  match path with
  | [a, b] => a == "io" && b == "print"
  | [a, b, c] => a == "std" && b == "io" && c == "print"
  | _ => false

end IoPathMatcher

/-! ## Semantic analyzer (src/analysis/semantics)

`SemanticAnalyzer`'s hash containers become the insertion-ordered `AMap` /
list embeddings; `&mut` parameters become returned updated values.  Every
function that recurses through expressions or statements takes fuel (the
checked-in AST is finite, Rust's recursion is plain structural descent, and
the generous fuel at the entry point makes the fuel error unreachable; on
`Bool`-valued checkers fuel exhaustion yields `false`).

The checked-in `type_inference.rs` is older than its call sites: the
analyzer and statement analyzer invoke `infer_type` with a fourth `structs`
argument and the tree's expression analyzer consumes `StructInit`,
`FieldAccess` and `EnumConstruct`, none of which `type_inference.rs`
handles.  The three arms marked "modelled from the spec" below fill that
gap: a struct value has its struct's type, a field access has the accessed
field's declared type, and an enum construction has its enum's type. -/

namespace Semantics

/-- `SemanticAnalyzer` (analyzer.rs lines 23-32); `type_checker` is
stateless and is dropped. -/
structure SemanticAnalyzer where
  imported_modules : List (List String)
  functions : AMap String Function
  function_params : AMap String (List (String × String))
  structs : AMap String StructDef
  enums : AMap String EnumDef
  global_scope : AMap String String
  global_mutability : AMap String Bool

/-- `SemanticAnalyzer::new` (analyzer.rs lines 39-50). -/
def SemanticAnalyzer.new : SemanticAnalyzer :=
  ⟨[], [], [], [], [], [], []⟩

def sem_fuel_msg : String := "analyzer fuel exhausted"

/-- `TypeInference::infer_call_type` (type_inference.rs lines 101-125). -/
def infer_call_type (path : List String) (type_args : Option (List String))
    (functions : AMap String Function) : Except String String :=
  if IoPathMatcher.is_readln path then .ok "str"
  else if IoPathMatcher.is_read path then
    match type_args with
    | some [t] => .ok t
    | _ => .error "io::read requires a type parameter"
  else
    match path with
    | [name] =>
      match functions.get? name with
      | some func => .ok func.return_type
      | none => .ok "i64"
    | _ => .ok "i64"

mutual

/-- `TypeInference::infer_type` (type_inference.rs lines 26-57), with the
fourth `structs` argument its callers pass and the three spec-modelled arms
described above. -/
def infer_type (fuel : Nat) (expr : Expression) (scope : AMap String String)
    (functions : AMap String Function) (structs : AMap String StructDef) :
    Except String String :=
  match fuel with
  | 0 => .error sem_fuel_msg
  | fuel + 1 =>
    match expr with
    | .intLiteral val => TypeInference.infer_int_literal_type val
    | .boolLiteral _ => .ok "bool"
    | .stringLiteral _ => .ok "str"
    | .nullLiteral => .ok "void*"
    | .var name =>
      match scope.get? name with
      | some t => .ok t
      | none => .error ("Undefined variable: " ++ name)
    | .call path type_args _ => infer_call_type path type_args functions
    | .binary op left right => infer_binary_type fuel left right op scope functions structs
    | .unary op operand => infer_unary_type fuel op operand scope functions structs
    | .ifExpr _ then_expr else_expr =>
      infer_if_expr_type fuel then_expr else_expr scope functions structs
    | .whenExpr _ cases else_expr =>
      infer_when_expr_type fuel cases else_expr scope functions structs
    | .structInit struct_name _ => .ok struct_name
    | .fieldAccess object field => do
      let object_type ← infer_type fuel object scope functions structs
      match structs.get? object_type with
      | some struct_def =>
        match (struct_def.fields.find? (fun f => f.name == field)).map StructField.field_type with
        | some t => .ok t
        | none => .error ("Field '" ++ field ++ "' not found in struct '" ++ object_type ++ "'")
      | none =>
        .error ("Cannot access field '" ++ field ++ "' on non-struct type '" ++ object_type ++ "'")
    | .enumConstruct enum_name _ _ => .ok enum_name

/-- `TypeInference::infer_binary_type` (type_inference.rs lines 140-156). -/
def infer_binary_type (fuel : Nat) (left right : Expression) (op : BinaryOp)
    (scope : AMap String String) (functions : AMap String Function)
    (structs : AMap String StructDef) : Except String String :=
  match fuel with
  | 0 => .error sem_fuel_msg
  | fuel + 1 =>
    match op with
    | .equal | .notEqual | .less | .greater | .lessEqual | .greaterEqual | .and | .or =>
      .ok "bool"
    | _ => do
      let left_type ← infer_type fuel left scope functions structs
      let right_type ← infer_type fuel right scope functions structs
      .ok (TypeCheckerUtils.wider_type left_type right_type)

/-- `TypeInference::infer_unary_type` (type_inference.rs lines 170-181). -/
def infer_unary_type (fuel : Nat) (op : UnaryOp) (operand : Expression)
    (scope : AMap String String) (functions : AMap String Function)
    (structs : AMap String StructDef) : Except String String :=
  match fuel with
  | 0 => .error sem_fuel_msg
  | fuel + 1 =>
    match op with
    | .negate => infer_type fuel operand scope functions structs
    | .not => .ok "bool"

/-- `TypeInference::infer_if_expr_type` (type_inference.rs lines 195-201). -/
def infer_if_expr_type (fuel : Nat) (then_expr else_expr : Expression)
    (scope : AMap String String) (functions : AMap String Function)
    (structs : AMap String StructDef) : Except String String :=
  match fuel with
  | 0 => .error sem_fuel_msg
  | fuel + 1 => do
    let then_type ← infer_type fuel then_expr scope functions structs
    let else_type ← infer_type fuel else_expr scope functions structs
    .ok (TypeCheckerUtils.wider_type then_type else_type)

/-- `TypeInference::infer_when_expr_type` (type_inference.rs lines 215-235). -/
def infer_when_expr_type (fuel : Nat) (cases : List WhenExprCase)
    (else_expr : Expression) (scope : AMap String String)
    (functions : AMap String Function) (structs : AMap String StructDef) :
    Except String String :=
  match fuel with
  | 0 => .error sem_fuel_msg
  | fuel + 1 =>
    match cases with
    | [] => infer_type fuel else_expr scope functions structs
    | first :: rest => do
      let first_type ← infer_type fuel first.result scope functions structs
      let result_type ← infer_when_cases_loop fuel rest first_type scope functions structs
      let else_type ← infer_type fuel else_expr scope functions structs
      .ok (TypeCheckerUtils.wider_type result_type else_type)

/-- The accumulating loop of `infer_when_expr_type` over `cases[1..]`. -/
def infer_when_cases_loop (fuel : Nat) (cases : List WhenExprCase)
    (result_type : String) (scope : AMap String String)
    (functions : AMap String Function) (structs : AMap String StructDef) :
    Except String String :=
  match fuel with
  | 0 => .error sem_fuel_msg
  | fuel + 1 =>
    match cases with
    | [] => .ok result_type
    | case :: rest => do
      let case_type ← infer_type fuel case.result scope functions structs
      infer_when_cases_loop fuel rest (TypeCheckerUtils.wider_type result_type case_type)
        scope functions structs

end

/-- `ModuleChecker::check_module_import` (module_checker.rs lines 32-69). -/
def check_module_import (a : SemanticAnalyzer) (path : List String) :
    Except String Unit :=
  let found :=
    (if path.length == 2 then
      a.imported_modules.contains ["std", path.headD ""]
        || a.imported_modules.contains [path.headD ""]
    else if path.length == 3 then
      a.imported_modules.contains [path.headD ""]
        || a.imported_modules.contains (path.take 2)
    else false)
    || ((List.range path.length).drop 1).any
        (fun i => a.imported_modules.contains (path.take i))
  if !found then
    let module_name :=
      if path.length == 2 then path.headD ""
      else String.intercalate "::" (path.take (path.length - 1))
    .error ("Module '" ++ module_name ++ "' not imported")
  else .ok ()

/-- `ModuleChecker::is_valid_read_type` (module_checker.rs lines 78-80). -/
def is_valid_read_type (type_name : String) : Bool :=
  ["i8", "u8", "i16", "u16", "i32", "u32", "i64", "u64"].contains type_name

/-- `ModuleChecker::is_integer_type` (module_checker.rs lines 89-92). -/
def is_integer_type (type_name : String) : Bool :=
  ["i8", "i16", "i32", "i64", "i128", "u8", "u16", "u32", "u64", "u128"].contains type_name

/-- `CompileTimeChecker::is_compile_time_constant` (compile_time_checker.rs
lines 30-88).  The checked-in checker predates enum patterns and enum
construction; those arms (modelled) answer `false`, like calls. -/
def is_compile_time_constant (fuel : Nat) (a : SemanticAnalyzer) (expr : Expression) : Bool :=
  match fuel with
  | 0 => false
  | fuel + 1 =>
    match expr with
    | .intLiteral _ | .stringLiteral _ | .boolLiteral _ | .nullLiteral => true
    | .var name => a.global_scope.containsKey name
    | .unary _ operand => is_compile_time_constant fuel a operand
    | .binary _ left right =>
      is_compile_time_constant fuel a left && is_compile_time_constant fuel a right
    | .ifExpr condition then_expr else_expr =>
      is_compile_time_constant fuel a condition
        && is_compile_time_constant fuel a then_expr
        && is_compile_time_constant fuel a else_expr
    | .whenExpr value cases else_expr =>
      is_compile_time_constant fuel a value
        && cases.all (fun case =>
            (match case.pattern with
            | .single pattern_expr => is_compile_time_constant fuel a pattern_expr
            | .range start_ end_ _ =>
              is_compile_time_constant fuel a start_ && is_compile_time_constant fuel a end_
            | .enumVariant _ _ _ => false)
            && is_compile_time_constant fuel a case.result)
        && is_compile_time_constant fuel a else_expr
    | .structInit _ fields =>
      fields.all (fun field_init => is_compile_time_constant fuel a field_init.value)
    | .fieldAccess object _ => is_compile_time_constant fuel a object
    | .call _ _ _ => false
    | .enumConstruct _ _ _ => false

/-- `CompileTimeChecker::is_compile_time_evaluable` (compile_time_checker.rs
lines 98-154); same stale-arm treatment as `is_compile_time_constant`. -/
def is_compile_time_evaluable (fuel : Nat) (a : SemanticAnalyzer) (expr : Expression) : Bool :=
  match fuel with
  | 0 => false
  | fuel + 1 =>
    match expr with
    | .intLiteral _ | .stringLiteral _ | .boolLiteral _ | .nullLiteral => true
    | .var _ => true
    | .unary _ operand => is_compile_time_evaluable fuel a operand
    | .binary _ left right =>
      is_compile_time_evaluable fuel a left && is_compile_time_evaluable fuel a right
    | .ifExpr condition then_expr else_expr =>
      is_compile_time_evaluable fuel a condition
        && is_compile_time_evaluable fuel a then_expr
        && is_compile_time_evaluable fuel a else_expr
    | .whenExpr value cases else_expr =>
      is_compile_time_evaluable fuel a value
        && cases.all (fun case =>
            (match case.pattern with
            | .single pattern_expr => is_compile_time_evaluable fuel a pattern_expr
            | .range start_ end_ _ =>
              is_compile_time_evaluable fuel a start_ && is_compile_time_evaluable fuel a end_
            | .enumVariant _ _ _ => false)
            && is_compile_time_evaluable fuel a case.result)
        && is_compile_time_evaluable fuel a else_expr
    | .structInit _ fields =>
      fields.all (fun field_init => is_compile_time_evaluable fuel a field_init.value)
    | .fieldAccess object _ => is_compile_time_evaluable fuel a object
    | .call _ _ _ => false
    | .enumConstruct _ _ _ => false

/-- The pairwise `result_types[0]` vs `result_types[i]` check of the
`WhenExpr` arm (expression_analyzer.rs lines 239-246). -/
def when_result_types_check (first : String) : List String → Except String Unit
  | [] => .ok ()
  | t :: rest =>
    if !TypeCompatibility.types_compatible first t then
      .error ("When expression branches have incompatible result types: '" ++ first ++
        "' and '" ++ t ++ "'")
    else when_result_types_check first rest

mutual

/-- `ExpressionAnalyzer::analyze_expr` (expression_analyzer.rs lines
34-399). -/
def analyze_expr (fuel : Nat) (a : SemanticAnalyzer) (expr : Expression)
    (scope : AMap String String) : Except String Unit :=
  match fuel with
  | 0 => .error sem_fuel_msg
  | fuel + 1 =>
    match expr with
    | .intLiteral _ | .stringLiteral _ | .boolLiteral _ | .nullLiteral => .ok ()
    | .var name =>
      if !scope.containsKey name then .error ("Undefined variable: " ++ name)
      else .ok ()
    | .call path type_args args =>
      if IoPathMatcher.is_read path then
        match type_args with
        | none => .error "io::read requires a type parameter, e.g., io::read<i32>()"
        | some types =>
          if types.length != 1 then .error "io::read requires exactly one type parameter"
          else if !is_valid_read_type (types.headD "") then
            .error ("io::read does not support type '" ++ types.headD "" ++
              "'. Supported types: i8, u8, i16, u16, i32, u32, i64, u64")
          else if !args.isEmpty then .error "io::read takes no arguments"
          else .ok ()
      else if IoPathMatcher.is_readln path then
        if type_args.isSome then .error "io::readln does not take type parameters"
        else if !args.isEmpty then .error "io::readln takes no arguments"
        else .ok ()
      else do
        (if path.length ≥ 2 then check_module_import a path
         else if path.length == 1 then check_local_func_call fuel a path args scope
         else .ok ())
        analyze_args_loop fuel a args scope
    | .binary _ left right => do
      analyze_expr fuel a left scope
      analyze_expr fuel a right scope
      let left_type ← infer_type fuel left scope a.functions a.structs
      let right_type ← infer_type fuel right scope a.functions a.structs
      if !TypeCompatibility.types_compatible left_type right_type then
        .error ("Type mismatch in binary operation: " ++ left_type ++ " and " ++ right_type)
      else .ok ()
    | .unary _ operand => analyze_expr fuel a operand scope
    | .ifExpr condition then_expr else_expr => do
      analyze_expr fuel a condition scope
      analyze_expr fuel a then_expr scope
      analyze_expr fuel a else_expr scope
      let then_type ← infer_type fuel then_expr scope a.functions a.structs
      let else_type ← infer_type fuel else_expr scope a.functions a.structs
      if !TypeCompatibility.types_compatible then_type else_type then
        .error ("If expression branches have incompatible types: '" ++ then_type ++
          "' and '" ++ else_type ++ "'")
      else .ok ()
    | .whenExpr value cases else_expr => do
      analyze_expr fuel a value scope
      let value_type ← infer_type fuel value scope a.functions a.structs
      let result_types ← analyze_when_expr_cases fuel a cases value_type scope []
      analyze_expr fuel a else_expr scope
      let else_type ← infer_type fuel else_expr scope a.functions a.structs
      let result_types := result_types ++ [else_type]
      match result_types with
      | [] => .ok ()
      | first :: rest => when_result_types_check first rest
    | .structInit struct_name fields =>
      match a.structs.get? struct_name with
      | none => .error ("Undefined struct: " ++ struct_name)
      | some struct_def =>
        if fields.isEmpty then
          .error ("Struct '" ++ struct_name ++ "' must be initialized with fields")
        else
          let has_named := fields.any (fun f => f.name.isSome)
          let has_positional := fields.any (fun f => f.name.isNone)
          if has_named && has_positional then
            .error ("Struct '" ++ struct_name ++
              "' cannot mix named and positional field initialization")
          else if has_positional then
            if fields.length != struct_def.fields.length then
              .error ("Struct '" ++ struct_name ++ "' expects " ++
                toString struct_def.fields.length ++ " fields, but " ++
                toString fields.length ++ " were provided")
            else
              analyze_positional_fields fuel a struct_name (fields.zip struct_def.fields)
                0 scope
          else do
            let initialized ← analyze_named_fields fuel a struct_name struct_def fields
              ([] : AMap String Unit) scope
            match struct_def.fields.find? (fun f => !initialized.containsKey f.name) with
            | some missing =>
              .error ("Field '" ++ missing.name ++ "' is not initialized in struct '" ++
                struct_name ++ "'")
            | none => .ok ()
    | .fieldAccess object field => do
      analyze_expr fuel a object scope
      let object_type ← infer_type fuel object scope a.functions a.structs
      match a.structs.get? object_type with
      | none =>
        .error ("Cannot access field '" ++ field ++ "' on non-struct type '" ++
          object_type ++ "'")
      | some struct_def =>
        if !struct_def.fields.any (fun f => f.name == field) then
          .error ("Field '" ++ field ++ "' not found in struct '" ++ object_type ++ "'")
        else .ok ()
    | .enumConstruct enum_name variant_name args =>
      match a.enums.get? enum_name with
      | none => .error ("Undefined enum: " ++ enum_name)
      | some enum_def =>
        match enum_def.variants.find? (fun v => v.name == variant_name) with
        | none =>
          .error ("Variant '" ++ variant_name ++ "' not found in enum '" ++ enum_name ++ "'")
        | some variant =>
          let expected_arg_count := (variant.payload.map List.length).getD 0
          if args.length != expected_arg_count then
            .error ("Enum variant '" ++ enum_name ++ "::" ++ variant_name ++ "' expects " ++
              toString expected_arg_count ++ " arguments, but " ++ toString args.length ++
              " were provided")
          else
            match variant.payload with
            | some payload_types =>
              analyze_enum_args fuel a enum_name variant_name (args.zip payload_types) 0 scope
            | none => analyze_args_loop fuel a args scope

/-- The `for arg in args` loop of the call arm (expression_analyzer.rs lines
92-94). -/
def analyze_args_loop (fuel : Nat) (a : SemanticAnalyzer) (args : List Expression)
    (scope : AMap String String) : Except String Unit :=
  match fuel with
  | 0 => .error sem_fuel_msg
  | fuel + 1 =>
    match args with
    | [] => .ok ()
    | arg :: rest => do
      analyze_expr fuel a arg scope
      analyze_args_loop fuel a rest scope

/-- The case loop of the `WhenExpr` arm (expression_analyzer.rs lines
150-232), returning the accumulated `result_types`. -/
def analyze_when_expr_cases (fuel : Nat) (a : SemanticAnalyzer)
    (cases : List WhenExprCase) (value_type : String) (scope : AMap String String)
    (result_types : List String) : Except String (List String) :=
  match fuel with
  | 0 => .error sem_fuel_msg
  | fuel + 1 =>
    match cases with
    | [] => .ok result_types
    | case :: rest => do
      let case_scope ←
        (match case.pattern with
        | .single pattern_expr => do
          analyze_expr fuel a pattern_expr scope
          let pattern_type ← infer_type fuel pattern_expr scope a.functions a.structs
          if !TypeCompatibility.types_compatible value_type pattern_type then
            .error ("When pattern type '" ++ pattern_type ++
              "' is incompatible with value type '" ++ value_type ++ "'")
          else .ok scope
        | .range start_ end_ _ => do
          analyze_expr fuel a start_ scope
          analyze_expr fuel a end_ scope
          let start_type ← infer_type fuel start_ scope a.functions a.structs
          let end_type ← infer_type fuel end_ scope a.functions a.structs
          if !TypeCompatibility.types_compatible value_type start_type then
            .error ("When range start type '" ++ start_type ++
              "' is incompatible with value type '" ++ value_type ++ "'")
          else if !TypeCompatibility.types_compatible value_type end_type then
            .error ("When range end type '" ++ end_type ++
              "' is incompatible with value type '" ++ value_type ++ "'")
          else .ok scope
        | .enumVariant enum_name variant_name bindings =>
          if value_type != enum_name then
            .error ("When pattern '" ++ enum_name ++ "::" ++ variant_name ++
              "' expects enum type '" ++ enum_name ++ "', but value has type '" ++
              value_type ++ "'")
          else
            match a.enums.get? enum_name with
            | some enum_def =>
              match enum_def.variants.find? (fun v => v.name == variant_name) with
              | some variant =>
                let payload_count := (variant.payload.map List.length).getD 0
                if bindings.length != payload_count then
                  .error ("Enum variant '" ++ enum_name ++ "::" ++ variant_name ++
                    "' expects " ++ toString payload_count ++ " bindings, but " ++
                    toString bindings.length ++ " were provided")
                else
                  match variant.payload with
                  | some payload_types =>
                    .ok ((bindings.zip payload_types).foldl
                      (fun s (bt : String × String) => s.insert bt.1 bt.2) scope)
                  | none => .ok scope
              | none =>
                .error ("Enum variant '" ++ enum_name ++ "::" ++ variant_name ++
                  "' not found in enum '" ++ enum_name ++ "'")
            | none =>
              .ok (bindings.foldl (fun s b => s.insert b "i32") scope)
          : Except String (AMap String String))
      analyze_expr fuel a case.result case_scope
      let result_type ← infer_type fuel case.result case_scope a.functions a.structs
      analyze_when_expr_cases fuel a rest value_type scope (result_types ++ [result_type])

/-- The positional-field loop of the `StructInit` arm (expression_analyzer.rs
lines 276-287). -/
def analyze_positional_fields (fuel : Nat) (a : SemanticAnalyzer) (struct_name : String)
    (pairs : List (StructFieldInit × StructField)) (i : Nat)
    (scope : AMap String String) : Except String Unit :=
  match fuel with
  | 0 => .error sem_fuel_msg
  | fuel + 1 =>
    match pairs with
    | [] => .ok ()
    | (field_init, struct_field) :: rest => do
      analyze_expr fuel a field_init.value scope
      let value_type ← infer_type fuel field_init.value scope a.functions a.structs
      if !TypeCompatibility.types_compatible struct_field.field_type value_type then
        .error ("Type mismatch in field " ++ toString (i + 1) ++ " of struct '" ++
          struct_name ++ "': expected '" ++ struct_field.field_type ++ "', got '" ++
          value_type ++ "'")
      else analyze_positional_fields fuel a struct_name rest (i + 1) scope

/-- The named-field loop of the `StructInit` arm (expression_analyzer.rs
lines 289-320), returning the `initialized_fields` map. -/
def analyze_named_fields (fuel : Nat) (a : SemanticAnalyzer) (struct_name : String)
    (struct_def : StructDef) (fields : List StructFieldInit)
    (initialized : AMap String Unit) (scope : AMap String String) :
    Except String (AMap String Unit) :=
  match fuel with
  | 0 => .error sem_fuel_msg
  | fuel + 1 =>
    match fields with
    | [] => .ok initialized
    | field_init :: rest =>
      match field_init.name with
      | none => analyze_named_fields fuel a struct_name struct_def rest initialized scope
      | some field_name =>
        if initialized.containsKey field_name then
          .error ("Field '" ++ field_name ++ "' is initialized multiple times in struct '" ++
            struct_name ++ "'")
        else
          match struct_def.fields.find? (fun f => f.name == field_name) with
          | none =>
            .error ("Field '" ++ field_name ++ "' not found in struct '" ++ struct_name ++ "'")
          | some struct_field => do
            analyze_expr fuel a field_init.value scope
            let value_type ← infer_type fuel field_init.value scope a.functions a.structs
            if !TypeCompatibility.types_compatible struct_field.field_type value_type then
              .error ("Type mismatch in field '" ++ field_name ++ "' of struct '" ++
                struct_name ++ "': expected '" ++ struct_field.field_type ++ "', got '" ++
                value_type ++ "'")
            else
              analyze_named_fields fuel a struct_name struct_def rest
                (initialized.insert field_name ()) scope

/-- The payload-argument loop of the `EnumConstruct` arm
(expression_analyzer.rs lines 376-389). -/
def analyze_enum_args (fuel : Nat) (a : SemanticAnalyzer)
    (enum_name variant_name : String) (pairs : List (Expression × String)) (i : Nat)
    (scope : AMap String String) : Except String Unit :=
  match fuel with
  | 0 => .error sem_fuel_msg
  | fuel + 1 =>
    match pairs with
    | [] => .ok ()
    | (arg, expected_type) :: rest => do
      analyze_expr fuel a arg scope
      let arg_type ← infer_type fuel arg scope a.functions a.structs
      if !TypeCompatibility.types_compatible arg_type expected_type then
        .error ("Type mismatch in argument " ++ toString (i + 1) ++ " of enum variant '" ++
          enum_name ++ "::" ++ variant_name ++ "': expected '" ++ expected_type ++
          "', got '" ++ arg_type ++ "'")
      else analyze_enum_args fuel a enum_name variant_name rest (i + 1) scope

/-- `ExpressionAnalyzer::check_local_func_call` (expression_analyzer.rs lines
411-522). -/
def check_local_func_call (fuel : Nat) (a : SemanticAnalyzer) (path : List String)
    (args : List Expression) (scope : AMap String String) : Except String Unit :=
  match fuel with
  | 0 => .error sem_fuel_msg
  | fuel + 1 =>
    let func_name := path.headD ""
    if !a.functions.containsKey func_name then
      .error ("Undefined function: '" ++ func_name ++ "'")
    else
      match a.function_params.get? func_name with
      | none => .ok ()
      | some params =>
        let is_variadic := ((a.functions.get? func_name).map Function.has_varargs).getD false
        if is_variadic then
          if args.length < params.length then
            .error ("Function '" ++ func_name ++ "' expects at least " ++
              toString params.length ++ " arguments, but " ++ toString args.length ++
              " were provided")
          else check_call_args fuel a func_name (args.zip params) 0 scope
        else
          if args.length != params.length then
            .error ("Function '" ++ func_name ++ "' expects " ++ toString params.length ++
              " arguments, but " ++ toString args.length ++ " were provided")
          else check_call_args fuel a func_name (args.zip params) 0 scope

/-- The argument-checking loop of `check_local_func_call`
(expression_analyzer.rs lines 439-518). -/
def check_call_args (fuel : Nat) (a : SemanticAnalyzer) (func_name : String)
    (pairs : List (Expression × (String × String))) (i : Nat)
    (scope : AMap String String) : Except String Unit :=
  match fuel with
  | 0 => .error sem_fuel_msg
  | fuel + 1 =>
    match pairs with
    | [] => .ok ()
    | (arg, (param_name, param_type)) :: rest => do
      let arg_type ← infer_type fuel arg scope a.functions a.structs
      if arg_type == param_type then check_call_args fuel a func_name rest (i + 1) scope
      else if TypeConversion.can_convert arg_type param_type then
        check_call_args fuel a func_name rest (i + 1) scope
      else if TypeCheckerUtils.is_signed arg_type && !TypeCheckerUtils.is_signed param_type
          && TypeCheckerUtils.get_type_size arg_type < TypeCheckerUtils.get_type_size param_type then
        match TypeCheckerUtils.get_literal_value arg with
        | some val =>
          if val > TypeCheckerUtils.get_unsigned_max param_type then
            .error ("Cannot convert value " ++ toString val ++ " to unsigned type '" ++
              param_type ++ "' (exceeds maximum: " ++
              toString (TypeCheckerUtils.get_unsigned_max param_type) ++ ")")
          else check_call_args fuel a func_name rest (i + 1) scope
        | none => check_call_args fuel a func_name rest (i + 1) scope
      else if !TypeCheckerUtils.is_signed arg_type && TypeCheckerUtils.is_signed param_type
          && TypeCheckerUtils.get_type_size arg_type < TypeCheckerUtils.get_type_size param_type then
        check_call_args fuel a func_name rest (i + 1) scope
      else if TypeConversion.would_truncate arg_type param_type then
        match arg with
        | .var var_name =>
          .error ("Type mismatch in argument " ++ toString (i + 1) ++ " of function '" ++
            func_name ++ "': variable '" ++ var_name ++ "' has inferred type '" ++ arg_type ++
            "', but parameter '" ++ param_name ++ "' expects type '" ++ param_type ++
            "'. The value assigned to '" ++ var_name ++ "' requires type '" ++ arg_type ++
            "', which exceeds the range of '" ++ param_type ++ "'")
        | .intLiteral val =>
          .error ("Type mismatch in argument " ++ toString (i + 1) ++ " of function '" ++
            func_name ++ "': literal value " ++ toString val ++
            " exceeds maximum value for parameter '" ++ param_name ++ "' of type '" ++
            param_type ++ "' (maximum: " ++ TypeCheckerUtils.get_type_max param_type ++ ")")
        | _ =>
          .error ("Type mismatch in argument " ++ toString (i + 1) ++ " of function '" ++
            func_name ++ "': expression has type '" ++ arg_type ++ "' but parameter '" ++
            param_name ++ "' expects type '" ++ param_type ++ "' (would lose data)")
      else if !TypeCompatibility.types_compatible arg_type param_type then
        .error ("Type mismatch in argument " ++ toString (i + 1) ++ " of function '" ++
          func_name ++ "': expected '" ++ param_type ++ "', got '" ++ arg_type ++ "'")
      else
        .error ("Type mismatch in argument " ++ toString (i + 1) ++ " of function '" ++
          func_name ++ "': cannot implicitly convert '" ++ arg_type ++ "' to '" ++
          param_type ++ "' (same size but different signedness)")

end

/-! ### Mutation checker (src/analysis/semantics/mutation_checker.rs) -/

mutual

/-- `MutationChecker::collect_mutations` (mutation_checker.rs lines 26-99);
the two `&mut` collections are threaded through and returned. -/
def collect_mutations (fuel : Nat) (stmt : Statement) (mutations : List String)
    (var_declarations : AMap String Bool) :
    Except String (List String × AMap String Bool) :=
  match fuel with
  | 0 => .error sem_fuel_msg
  | fuel + 1 =>
    match stmt with
    | .varDecl name _ _ => .ok (mutations, var_declarations.insert name true)
    | .constDecl name _ _ => .ok (mutations, var_declarations.insert name false)
    | .comptimeDecl name _ _ => .ok (mutations, var_declarations.insert name false)
    | .assign name _ => .ok (ASet.insert mutations name, var_declarations)
    | .fieldAssign object _ _ => .ok (ASet.insert mutations object, var_declarations)
    | .forStmt _ _ _ _ _ _ body => collect_mutations_list fuel body mutations var_declarations
    | .ifStmt _ then_block elseif_blocks else_block => do
      let (m, v) ← collect_mutations_list fuel then_block mutations var_declarations
      let (m, v) ← collect_mutations_elseifs fuel elseif_blocks m v
      match else_block with
      | some else_stmts => collect_mutations_list fuel else_stmts m v
      | none => .ok (m, v)
    | .whileStmt _ body => collect_mutations_list fuel body mutations var_declarations
    | .whenStmt _ cases else_block => do
      let (m, v) ← collect_mutations_cases fuel cases mutations var_declarations
      match else_block with
      | some else_stmts => collect_mutations_list fuel else_stmts m v
      | none => .ok (m, v)
    | .expect _ _ else_block => collect_mutations_list fuel else_block mutations var_declarations
    | _ => .ok (mutations, var_declarations)

/-- Sequential `collect_mutations` over a statement list. -/
def collect_mutations_list (fuel : Nat) (stmts : List Statement) (mutations : List String)
    (var_declarations : AMap String Bool) :
    Except String (List String × AMap String Bool) :=
  match fuel with
  | 0 => .error sem_fuel_msg
  | fuel + 1 =>
    match stmts with
    | [] => .ok (mutations, var_declarations)
    | stmt :: rest => do
      let (m, v) ← collect_mutations fuel stmt mutations var_declarations
      collect_mutations_list fuel rest m v

/-- The `elseif` walk of the `If` arm of `collect_mutations`. -/
def collect_mutations_elseifs (fuel : Nat) (blocks : List ElseIfBlock)
    (mutations : List String) (var_declarations : AMap String Bool) :
    Except String (List String × AMap String Bool) :=
  match fuel with
  | 0 => .error sem_fuel_msg
  | fuel + 1 =>
    match blocks with
    | [] => .ok (mutations, var_declarations)
    | b :: rest => do
      let (m, v) ← collect_mutations_list fuel b.body mutations var_declarations
      collect_mutations_elseifs fuel rest m v

/-- The case walk of the `When` arm of `collect_mutations`. -/
def collect_mutations_cases (fuel : Nat) (cases : List WhenCase)
    (mutations : List String) (var_declarations : AMap String Bool) :
    Except String (List String × AMap String Bool) :=
  match fuel with
  | 0 => .error sem_fuel_msg
  | fuel + 1 =>
    match cases with
    | [] => .ok (mutations, var_declarations)
    | c :: rest => do
      let (m, v) ← collect_mutations_list fuel c.body mutations var_declarations
      collect_mutations_cases fuel rest m v

end

/-- `MutationChecker::validate_mutations` (mutation_checker.rs lines
110-123). -/
def validate_mutations : List String → AMap String Bool → Except String Unit
  | [], _ => .ok ()
  | var_name :: rest, var_declarations =>
    match var_declarations.get? var_name with
    | some is_mutable =>
      if !is_mutable then
        .error ("Cannot assign to immutable variable '" ++ var_name ++
          "'. Use 'var' instead of 'const' or 'comptime' to make it mutable")
      else validate_mutations rest var_declarations
    | none => validate_mutations rest var_declarations

/-! ### Statement analyzer (src/analysis/semantics/statement_analyzer.rs) -/

/-- The shared `Single`/`Range` pattern checks of the `When` arms
(statement_analyzer.rs lines 54-96 and 369-411), returning the scope the
case body is analyzed under.  The enum-variant arm is modelled from the
spec, mirroring the expression-level checker in the same tree (the checked-in
statement analyzer predates enum patterns); it is unreachable in every run
below. -/
def when_stmt_pattern_check (fuel : Nat) (a : SemanticAnalyzer) (value_type : String)
    (pattern : WhenPattern) (scope : AMap String String) :
    Except String (AMap String String) :=
  match pattern with
  | .single pattern_expr => do
    analyze_expr fuel a pattern_expr scope
    let pattern_type ← infer_type fuel pattern_expr scope a.functions a.structs
    if !TypeCompatibility.types_compatible value_type pattern_type then
      .error ("When case pattern has incompatible type '" ++ pattern_type ++
        "', expected '" ++ value_type ++ "'")
    else .ok scope
  | .range start_ end_ _ => do
    analyze_expr fuel a start_ scope
    analyze_expr fuel a end_ scope
    let start_type ← infer_type fuel start_ scope a.functions a.structs
    let end_type ← infer_type fuel end_ scope a.functions a.structs
    if !TypeCompatibility.types_compatible value_type start_type then
      .error ("When case range start has incompatible type '" ++ start_type ++
        "', expected '" ++ value_type ++ "'")
    else if !TypeCompatibility.types_compatible value_type end_type then
      .error ("When case range end has incompatible type '" ++ end_type ++
        "', expected '" ++ value_type ++ "'")
    else .ok scope
  | .enumVariant enum_name variant_name bindings =>
    if value_type != enum_name then
      .error ("When pattern '" ++ enum_name ++ "::" ++ variant_name ++
        "' expects enum type '" ++ enum_name ++ "', but value has type '" ++
        value_type ++ "'")
    else
      match a.enums.get? enum_name with
      | some enum_def =>
        match enum_def.variants.find? (fun v => v.name == variant_name) with
        | some variant =>
          let payload_count := (variant.payload.map List.length).getD 0
          if bindings.length != payload_count then
            .error ("Enum variant '" ++ enum_name ++ "::" ++ variant_name ++
              "' expects " ++ toString payload_count ++ " bindings, but " ++
              toString bindings.length ++ " were provided")
          else
            match variant.payload with
            | some payload_types =>
              .ok ((bindings.zip payload_types).foldl
                (fun s (bt : String × String) => s.insert bt.1 bt.2) scope)
            | none => .ok scope
        | none =>
          .error ("Enum variant '" ++ enum_name ++ "::" ++ variant_name ++
            "' not found in enum '" ++ enum_name ++ "'")
      | none => .ok (bindings.foldl (fun s b => s.insert b "i32") scope)

/-- The pattern checks of the `Expect` arms (statement_analyzer.rs lines
121-169 and 434-482). -/
def expect_pattern_check (fuel : Nat) (a : SemanticAnalyzer) (condition_type : String)
    (pattern : ExpectPattern) (scope : AMap String String) : Except String Unit :=
  match pattern with
  | .single pattern_expr => do
    analyze_expr fuel a pattern_expr scope
    let pattern_type ← infer_type fuel pattern_expr scope a.functions a.structs
    if !TypeCompatibility.types_compatible condition_type pattern_type then
      .error ("Expect pattern has incompatible type '" ++ pattern_type ++
        "', expected '" ++ condition_type ++ "'")
    else .ok ()
  | .range start_ end_ _ => do
    analyze_expr fuel a start_ scope
    analyze_expr fuel a end_ scope
    let start_type ← infer_type fuel start_ scope a.functions a.structs
    let end_type ← infer_type fuel end_ scope a.functions a.structs
    if !TypeCompatibility.types_compatible condition_type start_type then
      .error ("Expect range start has incompatible type '" ++ start_type ++
        "', expected '" ++ condition_type ++ "'")
    else if !TypeCompatibility.types_compatible condition_type end_type then
      .error ("Expect range end has incompatible type '" ++ end_type ++
        "', expected '" ++ condition_type ++ "'")
    else .ok ()

/-- The `object.f1.f2...` type walk of the `FieldAssign` arm
(statement_analyzer.rs lines 697-725): every component requires the current
type to be a known struct holding that field; the result is the last field's
type. -/
def field_path_walk (a : SemanticAnalyzer) : String → List String → Except String String
  | current_type, [] => .ok current_type
  | current_type, part :: rest =>
    match a.structs.get? current_type with
    | none =>
      .error ("Cannot access field '" ++ part ++ "' on non-struct type '" ++
        current_type ++ "'")
    | some struct_def =>
      match struct_def.fields.find? (fun f => f.name == part) with
      | none => .error ("Field '" ++ part ++ "' not found in struct '" ++ current_type ++ "'")
      | some f => field_path_walk a f.field_type rest

mutual

/-- `StatementAnalyzer::analyze_stmt` (statement_analyzer.rs lines 356-795);
the two `&mut` maps are threaded and returned. -/
def analyze_stmt (fuel : Nat) (a : SemanticAnalyzer) (stmt : Statement)
    (scope : AMap String String) (mutability : AMap String Bool) :
    Except String (AMap String String × AMap String Bool) :=
  match fuel with
  | 0 => .error sem_fuel_msg
  | fuel + 1 =>
    match stmt with
    | .whenStmt value cases else_block => do
      analyze_expr fuel a value scope
      let value_type ← infer_type fuel value scope a.functions a.structs
      analyze_when_stmt_cases fuel a cases value_type scope mutability
      (match else_block with
       | some else_stmts => do
         let _ ← analyze_stmt_list fuel a else_stmts scope mutability
         .ok ()
       | none => .ok ())
      .ok (scope, mutability)
    | .expect condition pattern else_block => do
      analyze_expr fuel a condition scope
      (match pattern with
       | some p => do
         let condition_type ← infer_type fuel condition scope a.functions a.structs
         expect_pattern_check fuel a condition_type p scope
       | none => .ok ())
      let _ ← analyze_stmt_list fuel a else_block scope mutability
      .ok (scope, mutability)
    | .forStmt variable_ start_ end_ _ step filter body => do
      analyze_expr fuel a start_ scope
      analyze_expr fuel a end_ scope
      let start_type ← infer_type fuel start_ scope a.functions a.structs
      let end_type ← infer_type fuel end_ scope a.functions a.structs
      if !is_integer_type start_type then
        .error ("For loop start must be an integer type, got '" ++ start_type ++ "'")
      else if !is_integer_type end_type then
        .error ("For loop end must be an integer type, got '" ++ end_type ++ "'")
      else do
        (match step with
         | some step_expr => do
           analyze_expr fuel a step_expr scope
           let step_type ← infer_type fuel step_expr scope a.functions a.structs
           if !is_integer_type step_type then
             .error ("For loop step must be an integer type, got '" ++ step_type ++ "'")
           else .ok ()
         | none => .ok ())
        let loop_var_type := TypeCheckerUtils.wider_type start_type end_type
        let body_scope := scope.insert variable_ loop_var_type
        let body_mutability := mutability.insert variable_ false
        (match filter with
         | some filter_expr => analyze_expr fuel a filter_expr body_scope
         | none => .ok ())
        let _ ← analyze_stmt_list fuel a body body_scope body_mutability
        .ok (scope, mutability)
    | .varDecl name var_type value => do
      analyze_expr fuel a value scope
      let inferred_type ← infer_type fuel value scope a.functions a.structs
      match var_type with
      | some explicit_type => do
        (match value with
         | .call path (some types) _ =>
           if IoPathMatcher.is_read path && types.length == 1
               && explicit_type != types.headD "" then
             .error ("Type mismatch: variable '" ++ name ++ "' has type '" ++ explicit_type ++
               "' but io::read<" ++ types.headD "" ++ "> returns '" ++ types.headD "" ++ "'")
           else .ok ()
         | _ => .ok ())
        TypeCompatibility.check_type_compatibility explicit_type inferred_type value
        BoundsChecker.check_expression_bounds value explicit_type
        .ok (scope.insert name explicit_type, mutability.insert name true)
      | none => do
        BoundsChecker.check_expression_bounds value inferred_type
        .ok (scope.insert name inferred_type, mutability.insert name true)
    | .constDecl name var_type value => do
      analyze_expr fuel a value scope
      let inferred_type ← infer_type fuel value scope a.functions a.structs
      match var_type with
      | some explicit_type => do
        (match value with
         | .call path (some types) _ =>
           if IoPathMatcher.is_read path && types.length == 1
               && explicit_type != types.headD "" then
             .error ("Type mismatch: constant '" ++ name ++ "' has type '" ++ explicit_type ++
               "' but io::read<" ++ types.headD "" ++ "> returns '" ++ types.headD "" ++ "'")
           else .ok ()
         | _ => .ok ())
        TypeCompatibility.check_type_compatibility explicit_type inferred_type value
        BoundsChecker.check_expression_bounds value explicit_type
        .ok (scope.insert name explicit_type, mutability.insert name false)
      | none => do
        BoundsChecker.check_expression_bounds value inferred_type
        .ok (scope.insert name inferred_type, mutability.insert name false)
    | .comptimeDecl name var_type value =>
      if !is_compile_time_evaluable fuel a value then
        .error ("Comptime '" ++ name ++ "' must be evaluable at compile time")
      else do
        analyze_expr fuel a value scope
        let inferred_type ← infer_type fuel value scope a.functions a.structs
        match var_type with
        | some explicit_type => do
          (match value with
           | .call path (some types) _ =>
             if IoPathMatcher.is_read path && types.length == 1
                 && explicit_type != types.headD "" then
               .error ("Type mismatch: comptime variable '" ++ name ++ "' has type '" ++
                 explicit_type ++ "' but io::read<" ++ types.headD "" ++ "> returns '" ++
                 types.headD "" ++ "'")
             else .ok ()
           | _ => .ok ())
          TypeCompatibility.check_type_compatibility explicit_type inferred_type value
          BoundsChecker.check_expression_bounds value explicit_type
          .ok (scope.insert name explicit_type, mutability.insert name false)
        | none => do
          BoundsChecker.check_expression_bounds value inferred_type
          .ok (scope.insert name inferred_type, mutability.insert name false)
    | .assign name value =>
      if !scope.containsKey name then
        .error ("Cannot assign to undefined variable: " ++ name)
      else
        let is_mutable :=
          match mutability.get? name with
          | some b => b
          | none => (a.global_mutability.get? name).getD false
        if !is_mutable then
          .error ("Cannot assign to immutable variable '" ++ name ++
            "'. Use 'var' instead of 'const' or 'comptime' to make it mutable")
        else do
          analyze_expr fuel a value scope
          let var_type := (scope.get? name).getD ""
          let value_type ← infer_type fuel value scope a.functions a.structs
          TypeCompatibility.check_type_compatibility var_type value_type value
          .ok (scope, mutability)
    | .fieldAssign object field value =>
      if !scope.containsKey object then
        .error ("Cannot assign to field of undefined variable: " ++ object)
      else
        let is_mutable :=
          match mutability.get? object with
          | some b => b
          | none => (a.global_mutability.get? object).getD false
        if !is_mutable then
          .error ("Cannot assign to field '" ++ field ++ "' of immutable variable '" ++
            object ++ "'. Use 'var' instead of 'const' or 'comptime' to make it mutable")
        else do
          let field_type ← field_path_walk a ((scope.get? object).getD "") (split_on_char '.' field)
          analyze_expr fuel a value scope
          let value_type ← infer_type fuel value scope a.functions a.structs
          TypeCompatibility.check_type_compatibility field_type value_type value
          .ok (scope, mutability)
    | .ret expr => do
      analyze_expr fuel a expr scope
      .ok (scope, mutability)
    | .exprStmt expr => do
      analyze_expr fuel a expr scope
      .ok (scope, mutability)
    | .ifStmt condition then_block elseif_blocks else_block => do
      analyze_expr fuel a condition scope
      let _ ← analyze_stmt_list fuel a then_block scope mutability
      analyze_elseifs fuel a elseif_blocks scope mutability
      (match else_block with
       | some else_stmts => do
         let _ ← analyze_stmt_list fuel a else_stmts scope mutability
         .ok ()
       | none => .ok ())
      .ok (scope, mutability)
    | .whileStmt condition body => do
      analyze_expr fuel a condition scope
      let _ ← analyze_stmt_list fuel a body scope mutability
      .ok (scope, mutability)
    | .next => .ok (scope, mutability)
    | .stop => .ok (scope, mutability)
    | .fallthrough => .ok (scope, mutability)

/-- Sequential `analyze_stmt` over a list, threading a block's maps. -/
def analyze_stmt_list (fuel : Nat) (a : SemanticAnalyzer) (stmts : List Statement)
    (scope : AMap String String) (mutability : AMap String Bool) :
    Except String (AMap String String × AMap String Bool) :=
  match fuel with
  | 0 => .error sem_fuel_msg
  | fuel + 1 =>
    match stmts with
    | [] => .ok (scope, mutability)
    | stmt :: rest => do
      let (scope, mutability) ← analyze_stmt fuel a stmt scope mutability
      analyze_stmt_list fuel a rest scope mutability

/-- The case walk of the `When` arm of `analyze_stmt` (statement_analyzer.rs
lines 368-418). -/
def analyze_when_stmt_cases (fuel : Nat) (a : SemanticAnalyzer) (cases : List WhenCase)
    (value_type : String) (scope : AMap String String) (mutability : AMap String Bool) :
    Except String Unit :=
  match fuel with
  | 0 => .error sem_fuel_msg
  | fuel + 1 =>
    match cases with
    | [] => .ok ()
    | case :: rest => do
      let case_scope ← when_stmt_pattern_check fuel a value_type case.pattern scope
      let _ ← analyze_stmt_list fuel a case.body case_scope mutability
      analyze_when_stmt_cases fuel a rest value_type scope mutability

/-- The `elseif` walk of the `If` arm of `analyze_stmt` (statement_analyzer.rs
lines 756-763). -/
def analyze_elseifs (fuel : Nat) (a : SemanticAnalyzer) (blocks : List ElseIfBlock)
    (scope : AMap String String) (mutability : AMap String Bool) : Except String Unit :=
  match fuel with
  | 0 => .error sem_fuel_msg
  | fuel + 1 =>
    match blocks with
    | [] => .ok ()
    | b :: rest => do
      analyze_expr fuel a b.condition scope
      let _ ← analyze_stmt_list fuel a b.body scope mutability
      analyze_elseifs fuel a rest scope mutability

/-- `StatementAnalyzer::analyze_stmt_with_return_type` (statement_analyzer.rs
lines 39-344); the trailing `_` arm delegates to `analyze_stmt`. -/
def analyze_stmt_wrt (fuel : Nat) (a : SemanticAnalyzer) (stmt : Statement)
    (scope : AMap String String) (func_name expected_return_type : String)
    (mutability : AMap String Bool) :
    Except String (AMap String String × AMap String Bool) :=
  match fuel with
  | 0 => .error sem_fuel_msg
  | fuel + 1 =>
    match stmt with
    | .whenStmt value cases else_block => do
      analyze_expr fuel a value scope
      let value_type ← infer_type fuel value scope a.functions a.structs
      analyze_when_stmt_cases_wrt fuel a cases value_type scope func_name
        expected_return_type mutability
      (match else_block with
       | some else_stmts => do
         let _ ← analyze_stmt_wrt_list fuel a else_stmts scope func_name
           expected_return_type mutability
         .ok ()
       | none => .ok ())
      .ok (scope, mutability)
    | .expect condition pattern else_block => do
      analyze_expr fuel a condition scope
      (match pattern with
       | some p => do
         let condition_type ← infer_type fuel condition scope a.functions a.structs
         expect_pattern_check fuel a condition_type p scope
       | none => .ok ())
      let _ ← analyze_stmt_wrt_list fuel a else_block scope func_name
        expected_return_type mutability
      .ok (scope, mutability)
    | .forStmt variable_ start_ end_ _ step filter body => do
      analyze_expr fuel a start_ scope
      analyze_expr fuel a end_ scope
      let start_type ← infer_type fuel start_ scope a.functions a.structs
      let end_type ← infer_type fuel end_ scope a.functions a.structs
      (match step with
       | some step_expr => analyze_expr fuel a step_expr scope
       | none => .ok ())
      let loop_var_type := TypeCheckerUtils.wider_type start_type end_type
      let body_scope := scope.insert variable_ loop_var_type
      let body_mutability := mutability.insert variable_ false
      (match filter with
       | some filter_expr => analyze_expr fuel a filter_expr body_scope
       | none => .ok ())
      let _ ← analyze_stmt_wrt_list fuel a body body_scope func_name
        expected_return_type body_mutability
      .ok (scope, mutability)
    | .ret expr => do
      analyze_expr fuel a expr scope
      let actual_return_type ← infer_type fuel expr scope a.functions a.structs
      if actual_return_type == expected_return_type then .ok (scope, mutability)
      else if TypeConversion.can_convert actual_return_type expected_return_type then
        .ok (scope, mutability)
      else if TypeCheckerUtils.is_signed actual_return_type
          && !TypeCheckerUtils.is_signed expected_return_type
          && TypeCheckerUtils.get_type_size actual_return_type
            < TypeCheckerUtils.get_type_size expected_return_type then
        match TypeCheckerUtils.get_literal_value expr with
        | some val =>
          if val > TypeCheckerUtils.get_unsigned_max expected_return_type then
            .error ("Function '" ++ func_name ++ "': cannot return value " ++ toString val ++
              " as type '" ++ expected_return_type ++ "' (exceeds maximum: " ++
              toString (TypeCheckerUtils.get_unsigned_max expected_return_type) ++ ")")
          else .ok (scope, mutability)
        | none => .ok (scope, mutability)
      else if !TypeCheckerUtils.is_signed actual_return_type
          && TypeCheckerUtils.is_signed expected_return_type
          && TypeCheckerUtils.get_type_size actual_return_type
            < TypeCheckerUtils.get_type_size expected_return_type then
        .ok (scope, mutability)
      else if TypeConversion.would_truncate actual_return_type expected_return_type then
        .error ("Function '" ++ func_name ++ "': return type mismatch. Expression has type '" ++
          actual_return_type ++ "' but function expects return type '" ++
          expected_return_type ++ "' (would lose data)")
      else if !TypeCompatibility.types_compatible actual_return_type expected_return_type then
        .error ("Function '" ++ func_name ++ "': return type mismatch. Expected '" ++
          expected_return_type ++ "', got '" ++ actual_return_type ++ "'")
      else
        .error ("Function '" ++ func_name ++
          "': return type mismatch. Cannot implicitly convert '" ++ actual_return_type ++
          "' to '" ++ expected_return_type ++ "' (same size but different signedness)")
    | .ifStmt condition then_block elseif_blocks else_block => do
      analyze_expr fuel a condition scope
      let _ ← analyze_stmt_wrt_list fuel a then_block scope func_name
        expected_return_type mutability
      analyze_elseifs_wrt fuel a elseif_blocks scope func_name expected_return_type mutability
      (match else_block with
       | some else_stmts => do
         let _ ← analyze_stmt_wrt_list fuel a else_stmts scope func_name
           expected_return_type mutability
         .ok ()
       | none => .ok ())
      .ok (scope, mutability)
    | .whileStmt condition body => do
      analyze_expr fuel a condition scope
      let _ ← analyze_stmt_wrt_list fuel a body scope func_name
        expected_return_type mutability
      .ok (scope, mutability)
    | .next => .ok (scope, mutability)
    | .stop => .ok (scope, mutability)
    | .fallthrough => .ok (scope, mutability)
    | _ => analyze_stmt fuel a stmt scope mutability

/-- Sequential `analyze_stmt_with_return_type` over a list. -/
def analyze_stmt_wrt_list (fuel : Nat) (a : SemanticAnalyzer) (stmts : List Statement)
    (scope : AMap String String) (func_name expected_return_type : String)
    (mutability : AMap String Bool) :
    Except String (AMap String String × AMap String Bool) :=
  match fuel with
  | 0 => .error sem_fuel_msg
  | fuel + 1 =>
    match stmts with
    | [] => .ok (scope, mutability)
    | stmt :: rest => do
      let (scope, mutability) ← analyze_stmt_wrt fuel a stmt scope func_name
        expected_return_type mutability
      analyze_stmt_wrt_list fuel a rest scope func_name expected_return_type mutability

/-- The case walk of the `When` arm of `analyze_stmt_with_return_type`
(statement_analyzer.rs lines 53-104). -/
def analyze_when_stmt_cases_wrt (fuel : Nat) (a : SemanticAnalyzer) (cases : List WhenCase)
    (value_type : String) (scope : AMap String String)
    (func_name expected_return_type : String) (mutability : AMap String Bool) :
    Except String Unit :=
  match fuel with
  | 0 => .error sem_fuel_msg
  | fuel + 1 =>
    match cases with
    | [] => .ok ()
    | case :: rest => do
      let case_scope ← when_stmt_pattern_check fuel a value_type case.pattern scope
      let _ ← analyze_stmt_wrt_list fuel a case.body case_scope func_name
        expected_return_type mutability
      analyze_when_stmt_cases_wrt fuel a rest value_type scope func_name
        expected_return_type mutability

/-- The `elseif` walk of the `If` arm of `analyze_stmt_with_return_type`
(statement_analyzer.rs lines 299-307). -/
def analyze_elseifs_wrt (fuel : Nat) (a : SemanticAnalyzer) (blocks : List ElseIfBlock)
    (scope : AMap String String) (func_name expected_return_type : String)
    (mutability : AMap String Bool) : Except String Unit :=
  match fuel with
  | 0 => .error sem_fuel_msg
  | fuel + 1 =>
    match blocks with
    | [] => .ok ()
    | b :: rest => do
      analyze_expr fuel a b.condition scope
      let _ ← analyze_stmt_wrt_list fuel a b.body scope func_name
        expected_return_type mutability
      analyze_elseifs_wrt fuel a rest scope func_name expected_return_type mutability

end

/-! ### Function analyzer and program analysis (function_analyzer.rs,
analyzer.rs) -/

/-- `FunctionAnalyzer::analyze_func` (function_analyzer.rs lines 33-68).  The
never-mutated scan iterates a `HashMap`; its arbitrary order affects only
which violating variable is named, never whether the function is accepted. -/
def analyze_func (fuel : Nat) (a : SemanticAnalyzer) (func : Function) :
    Except String Unit := do
  let scope := func.params.foldl (fun s p => s.insert p.name p.param_type) a.global_scope
  let mutability := func.params.foldl (fun m p => m.insert p.name false) a.global_mutability
  let (mutations, var_declarations) ← collect_mutations_list fuel func.body [] []
  (match var_declarations.find? (fun nv => nv.2 && !mutations.contains nv.1) with
   | some nv =>
     .error ("Variable '" ++ nv.1 ++
       "' is never mutated. Consider using 'const' instead of 'var'")
   | none => .ok ())
  let _ ← analyze_stmt_wrt_list fuel a func.body scope func.name func.return_type mutability
  .ok ()

/-- `SemanticAnalyzer::validate_and_register_global` (analyzer.rs lines
272-287). -/
def validate_and_register_global (a : SemanticAnalyzer) (name : String)
    (var_type : Option String) (value : Expression) (inferred_type : String)
    (is_mutable : Bool) : Except String SemanticAnalyzer :=
  match var_type with
  | some explicit_type => do
    TypeCompatibility.check_type_compatibility explicit_type inferred_type value
    BoundsChecker.check_expression_bounds value explicit_type
    .ok { a with global_scope := a.global_scope.insert name explicit_type,
                 global_mutability := a.global_mutability.insert name is_mutable }
  | none => do
    BoundsChecker.check_expression_bounds value inferred_type
    .ok { a with global_scope := a.global_scope.insert name inferred_type,
                 global_mutability := a.global_mutability.insert name is_mutable }

/-- `SemanticAnalyzer::analyze_global` (analyzer.rs lines 219-258). -/
def analyze_global (fuel : Nat) (a : SemanticAnalyzer) (global : GlobalDeclaration) :
    Except String SemanticAnalyzer :=
  match global with
  | .varG name var_type value => do
    analyze_expr fuel a value a.global_scope
    let inferred_type ← infer_type fuel value a.global_scope a.functions a.structs
    validate_and_register_global a name var_type value inferred_type true
  | .constG name var_type value => do
    analyze_expr fuel a value a.global_scope
    let inferred_type ← infer_type fuel value a.global_scope a.functions a.structs
    validate_and_register_global a name var_type value inferred_type false
  | .comptimeG name var_type value =>
    if !is_compile_time_constant fuel a value then
      .error ("Comptime global '" ++ name ++
        "' must be initialized with a compile-time constant")
    else do
      analyze_expr fuel a value a.global_scope
      let inferred_type ← infer_type fuel value a.global_scope a.functions a.structs
      validate_and_register_global a name var_type value inferred_type false
  | .structG _ => .ok a
  | .enumG _ => .ok a

/-- First repeated name in order: the `HashSet::insert` duplicate scan of the
struct/enum registration loops (analyzer.rs lines 72-80 and 89-97). -/
def first_duplicate_aux (seen : List String) : List String → Option String
  | [] => none
  | n :: rest => if seen.contains n then some n else first_duplicate_aux (n :: seen) rest

/-- The struct/enum registration loop of `analyze_program` (analyzer.rs lines
65-103). -/
def register_types_loop (a : SemanticAnalyzer) :
    List GlobalDeclaration → Except String SemanticAnalyzer
  | [] => .ok a
  | .structG struct_def :: rest =>
    if a.structs.containsKey struct_def.name then
      .error ("Struct '" ++ struct_def.name ++ "' is defined multiple times")
    else
      match first_duplicate_aux [] (struct_def.fields.map StructField.name) with
      | some dup =>
        .error ("Struct '" ++ struct_def.name ++ "' has duplicate field '" ++ dup ++ "'")
      | none =>
        register_types_loop
          { a with structs := a.structs.insert struct_def.name struct_def } rest
  | .enumG enum_def :: rest =>
    if a.enums.containsKey enum_def.name then
      .error ("Enum '" ++ enum_def.name ++ "' is defined multiple times")
    else
      match first_duplicate_aux [] (enum_def.variants.map EnumVariant.name) with
      | some dup =>
        .error ("Enum '" ++ enum_def.name ++ "' has duplicate variant '" ++ dup ++ "'")
      | none =>
        register_types_loop { a with enums := a.enums.insert enum_def.name enum_def } rest
  | _ :: rest => register_types_loop a rest

/-- The second globals loop of `analyze_program` (analyzer.rs lines
105-107). -/
def analyze_globals_loop (fuel : Nat) (a : SemanticAnalyzer) :
    List GlobalDeclaration → Except String SemanticAnalyzer
  | [] => .ok a
  | g :: rest => do
    let a ← analyze_global fuel a g
    analyze_globals_loop fuel a rest

/-- The top-level declaration-statement loop of `analyze_program`
(analyzer.rs lines 109-138). -/
def analyze_top_decls (fuel : Nat) (a : SemanticAnalyzer) :
    List Statement → Except String SemanticAnalyzer
  | [] => .ok a
  | .varDecl name var_type value :: rest => do
    analyze_expr fuel a value a.global_scope
    let inferred_type ← infer_type fuel value a.global_scope a.functions a.structs
    let a ← validate_and_register_global a name var_type value inferred_type true
    analyze_top_decls fuel a rest
  | .constDecl name var_type value :: rest => do
    analyze_expr fuel a value a.global_scope
    let inferred_type ← infer_type fuel value a.global_scope a.functions a.structs
    let a ← validate_and_register_global a name var_type value inferred_type false
    analyze_top_decls fuel a rest
  | .comptimeDecl name var_type value :: rest =>
    if !is_compile_time_constant fuel a value then
      .error ("Comptime global '" ++ name ++
        "' must be initialized with a compile-time constant")
    else do
      analyze_expr fuel a value a.global_scope
      let inferred_type ← infer_type fuel value a.global_scope a.functions a.structs
      let a ← validate_and_register_global a name var_type value inferred_type false
      analyze_top_decls fuel a rest
  | _ :: rest => analyze_top_decls fuel a rest

/-- The function-registration loop of `analyze_program` (analyzer.rs lines
140-150). -/
def register_functions (a : SemanticAnalyzer) :
    List Function → Except String SemanticAnalyzer
  | [] => .ok a
  | func :: rest =>
    if a.functions.containsKey func.name then
      .error ("Function '" ++ func.name ++ "' is defined multiple times")
    else
      register_functions
        { a with functions := a.functions.insert func.name func,
                 function_params := a.function_params.insert func.name
                   (func.params.map (fun p => (p.name, p.param_type))) } rest

/-- The statement filter of `analyze_program` (analyzer.rs lines 154-160). -/
def is_decl_stmt : Statement → Bool
  | .varDecl _ _ _ | .constDecl _ _ _ | .comptimeDecl _ _ _ => true
  | _ => false

/-- The final `analyze_func` loop of `analyze_program` (analyzer.rs lines
203-206). -/
def analyze_funcs_loop (fuel : Nat) (a : SemanticAnalyzer) :
    List Function → Except String Unit
  | [] => .ok ()
  | func :: rest => do
    analyze_func fuel a func
    analyze_funcs_loop fuel a rest

/-- `SemanticAnalyzer::analyze_program` (analyzer.rs lines 60-209).  The
`global_mutability` merge iterates a `HashMap`; the merged map's entry set is
order-independent. -/
def analyze_program (fuel : Nat) (program : Program) : Except String Unit := do
  let a := SemanticAnalyzer.new
  let a := { a with imported_modules :=
    program.imports.foldl (fun s im => ASet.insert s im.path) a.imported_modules }
  let a ← register_types_loop a program.globals
  let a ← analyze_globals_loop fuel a program.globals
  let a ← analyze_top_decls fuel a program.statements
  let a ← register_functions a program.functions
  let has_main := a.functions.containsKey "main"
  let actual_statements := program.statements.filter (fun s => !is_decl_stmt s)
  if has_main && !actual_statements.isEmpty then
    .error "Cannot have top-level executable statements when a 'main' function is defined"
  else if !has_main && actual_statements.isEmpty && program.globals.isEmpty
      && program.statements.all is_decl_stmt then
    .error "No 'main' function defined and no top-level statements"
  else do
    (if !actual_statements.isEmpty then do
      let (mutations, var_declarations) ← collect_mutations_list fuel actual_statements [] []
      let var_declarations := a.global_mutability.foldl
        (fun v nm => if v.containsKey nm.1 then v else v.insert nm.1 nm.2) var_declarations
      validate_mutations mutations var_declarations
    else .ok ())
    (if !actual_statements.isEmpty && !has_main then do
      let _ ← analyze_stmt_list fuel a actual_statements a.global_scope a.global_mutability
      .ok ()
    else .ok ())
    analyze_funcs_loop fuel a program.functions

/-- `analyze` (analyzer.rs lines 17-20), with the embedding's fuel made
explicit. -/
def analyze (fuel : Nat) (program : Program) : Except String Unit :=
  analyze_program fuel program

end Semantics

/-! ## Code generator (src/compiler/backend/codegen)

State-passing embedding of `ProgramGenerator` and its borrowing generator
structs: every `&mut` method returns the updated generator.  Expression- and
statement-recursive functions take fuel; its exhaustion returns the state
unchanged (or `"i64"` for the total type-inference helpers), and is
unreachable from `generate` with the entry-point fuel.  The checked-in
`used_stdlib_functions` is a `HashSet` iterated in Rust's per-process
randomised order; here it is an insertion-ordered list, fixing one of the
possible orders (claim C4 records the resulting nondeterminism). -/

/-- `LiteralEmitter::emit_int_literal` (literal_emitter.rs lines 18-34); the
casts stay in range on each branch, so they are value-preserving. -/
def LiteralEmitter.emit_int_literal (value : Nat) : String :=
  if value ≤ i64_max then toString value
  else if value ≤ u64_max then toString value ++ "ULL"
  else if value ≤ i128_max then
    "((__int128)" ++ toString (value / 18446744073709551616) ++ "LL << 64 | " ++
      toString (value % 18446744073709551616) ++ "ULL)"
  else
    "((unsigned __int128)" ++ toString (value / 18446744073709551616) ++ "ULL << 64 | " ++
      toString (value % 18446744073709551616) ++ "ULL)"

/-- `LiteralEmitter::emit_bool_literal` (literal_emitter.rs lines 44-50). -/
def LiteralEmitter.emit_bool_literal (value : Bool) : String :=
  if value then "1" else "0"

/-- `OperatorEmitter::emit_binary_op` (operator_emitter.rs lines 20-36). -/
def OperatorEmitter.emit_binary_op : BinaryOp → String
  | .add => "+"
  | .sub => "-"
  | .mul => "*"
  | .div => "/"
  | .mod => "%"
  | .equal => "=="
  | .notEqual => "!="
  | .less => "<"
  | .greater => ">"
  | .lessEqual => "<="
  | .greaterEqual => ">="
  | .and => "&&"
  | .or => "||"

/-- `CEmitter::emit_int_literal` (c_emitter.rs lines 65-68). -/
def CEmitter.emit_int_literal (e : CEmitter) (value : Nat) : CEmitter :=
  e.emit (LiteralEmitter.emit_int_literal value)

/-- `CEmitter::emit_bool_literal` (c_emitter.rs lines 75-78). -/
def CEmitter.emit_bool_literal (e : CEmitter) (value : Bool) : CEmitter :=
  e.emit (LiteralEmitter.emit_bool_literal value)

/-- `CEmitter::emit_string_literal` (c_emitter.rs lines 85-88), delegating to
the `LiteralEmitter::emit_string_literal` embedded above as
`emit_string_literal`. -/
def CEmitter.emit_string_literal_ (e : CEmitter) (s : String) : CEmitter :=
  e.emit (emit_string_literal s)

namespace Codegen

/-- `TypeMapper::map_type` (helpers/type_mapper.rs lines 18-36). -/
def TypeMapper.map_type (type_name : String) : String :=
  match type_name with
  | "bool" => "bool"
  | "i8" => "int8_t"
  | "i16" => "int16_t"
  | "i32" => "int32_t"
  | "i64" => "int64_t"
  | "i128" => "__int128"
  | "u8" => "uint8_t"
  | "u16" => "uint16_t"
  | "u32" => "uint32_t"
  | "u64" => "uint64_t"
  | "u128" => "unsigned __int128"
  | "void" => "void"
  | "str" => "const char*"
  | "void*" => "void*"
  | _ => "int64_t"

/-- `TypeInference::infer_call_type` (helpers/type_inference.rs lines
109-127). -/
def infer_call_type (path : List String) (type_args : Option (List String))
    (function_signatures : AMap String String) : String :=
  if IoPathMatcher.is_readln path then "str"
  else
    match (if IoPathMatcher.is_read path then
            match type_args with
            | some [t] => some t
            | _ => none
          else none) with
    | some t => t
    | none =>
      match path with
      | [name] => (function_signatures.get? name).getD "i64"
      | _ => "i64"

mutual

/-- `TypeInference::infer_expression_type` (helpers/type_inference.rs lines
46-98); fuel exhaustion answers the `"i64"` default, unreachable from the
entry points. -/
def infer_expression_type (fuel : Nat) (symbol_table function_signatures : AMap String String)
    (struct_defs : AMap String StructDef) (expr : Expression) : String :=
  match fuel with
  | 0 => "i64"
  | fuel + 1 =>
    match expr with
    | .intLiteral val => TypeUtils.infer_int_literal_type val
    | .boolLiteral _ => "bool"
    | .var name => (symbol_table.get? name).getD "i64"
    | .call path type_args _ => infer_call_type path type_args function_signatures
    | .binary _ left right =>
      CodegenTypeInference.wider_type
        (infer_expression_type fuel symbol_table function_signatures struct_defs left)
        (infer_expression_type fuel symbol_table function_signatures struct_defs right)
    | .unary _ operand =>
      infer_expression_type fuel symbol_table function_signatures struct_defs operand
    | .stringLiteral _ => "str"
    | .nullLiteral => "void*"
    | .ifExpr _ then_expr else_expr =>
      CodegenTypeInference.wider_type
        (infer_expression_type fuel symbol_table function_signatures struct_defs then_expr)
        (infer_expression_type fuel symbol_table function_signatures struct_defs else_expr)
    | .whenExpr _ cases else_expr =>
      match cases with
      | [] => infer_expression_type fuel symbol_table function_signatures struct_defs else_expr
      | first :: rest =>
        CodegenTypeInference.wider_type
          (infer_when_cases fuel symbol_table function_signatures struct_defs rest
            (infer_expression_type fuel symbol_table function_signatures struct_defs
              first.result))
          (infer_expression_type fuel symbol_table function_signatures struct_defs else_expr)
    | .structInit struct_name _ => struct_name
    | .enumConstruct enum_name _ _ => enum_name
    | .fieldAccess object field =>
      infer_field_type fuel symbol_table function_signatures struct_defs object field

/-- The accumulating loop of the `WhenExpr` arm over `cases[1..]`
(helpers/type_inference.rs lines 76-81). -/
def infer_when_cases (fuel : Nat) (symbol_table function_signatures : AMap String String)
    (struct_defs : AMap String StructDef) (cases : List WhenExprCase)
    (result_type : String) : String :=
  match fuel with
  | 0 => "i64"
  | fuel + 1 =>
    match cases with
    | [] => result_type
    | case :: rest =>
      infer_when_cases fuel symbol_table function_signatures struct_defs rest
        (CodegenTypeInference.wider_type result_type
          (infer_expression_type fuel symbol_table function_signatures struct_defs case.result))

/-- `TypeInference::infer_field_type` (helpers/type_inference.rs lines
138-150). -/
def infer_field_type (fuel : Nat) (symbol_table function_signatures : AMap String String)
    (struct_defs : AMap String StructDef) (object : Expression) (field : String) : String :=
  match fuel with
  | 0 => "i64"
  | fuel + 1 =>
    let object_type :=
      infer_expression_type fuel symbol_table function_signatures struct_defs object
    match struct_defs.get? object_type with
    | some struct_def =>
      match struct_def.fields.find? (fun f => f.name == field) with
      | some f => f.field_type
      | none => "i64"
    | none => "i64"

end

/-- `CompileTimeChecker::is_compile_time_constant_expr`
(helpers/compile_time_checker.rs lines 26-48).  The checked-in match
predates when-expressions, struct values and enums; those arms answer
`false` like calls (modelled). -/
def is_compile_time_constant_expr (fuel : Nat) (expr : Expression)
    (runtime_globals : List String) : Bool :=
  match fuel with
  | 0 => false
  | fuel + 1 =>
    match expr with
    | .intLiteral _ | .stringLiteral _ | .boolLiteral _ | .nullLiteral => true
    | .var name => !runtime_globals.contains name
    | .unary _ operand => is_compile_time_constant_expr fuel operand runtime_globals
    | .binary _ left right =>
      is_compile_time_constant_expr fuel left runtime_globals
        && is_compile_time_constant_expr fuel right runtime_globals
    | .ifExpr condition then_expr else_expr =>
      is_compile_time_constant_expr fuel condition runtime_globals
        && is_compile_time_constant_expr fuel then_expr runtime_globals
        && is_compile_time_constant_expr fuel else_expr runtime_globals
    | _ => false

/-- `ProgramGenerator` (generators/program_generator.rs lines 11-44); the
stateless helper members are dropped. -/
structure ProgramGenerator where
  emitter : CEmitter
  symbol_table : AMap String String
  mutability_table : AMap String Bool
  function_signatures : AMap String String
  struct_defs : AMap String StructDef
  enum_defs : AMap String EnumDef
  used_stdlib_functions : List String
  link_libs : List String

/-- `ProgramGenerator::new` (program_generator.rs lines 48-62). -/
def ProgramGenerator.new (link_libs : List String) : ProgramGenerator :=
  ⟨CEmitter.new, [], [], [], [], [], [], link_libs⟩

/-- `ProgramGenerator::linking_libc` (program_generator.rs lines 65-67). -/
def ProgramGenerator.linking_libc (g : ProgramGenerator) : Bool :=
  g.link_libs.contains "c"

/-- `ProgramGenerator::infer_expr_type` (program_generator.rs lines
535-540), with the embedding's fuel. -/
def ProgramGenerator.infer_expr_type (fuel : Nat) (g : ProgramGenerator)
    (expr : Expression) : String :=
  infer_expression_type fuel g.symbol_table g.function_signatures g.struct_defs expr

/-- `ProgramGenerator::map_type` (program_generator.rs lines 550-558). -/
def ProgramGenerator.map_type (g : ProgramGenerator) (type_name : String) : String :=
  if g.struct_defs.containsKey type_name then type_name
  else if g.enum_defs.containsKey type_name then type_name
  else TypeMapper.map_type type_name

/-- `TypeResolver::resolve_type` (src/utils/type_resolver.rs lines 20-29),
applied with `infer_expr_type`. -/
def resolve_type (fuel : Nat) (g : ProgramGenerator) (var_type : Option String)
    (value : Expression) : String :=
  match var_type with
  | some t => t
  | none => g.infer_expr_type fuel value

/-! ### Stdlib usage collection (stdlib/stdlib_collector.rs)

The checked-in collector predates several statement forms: its `If` arm
ignores `elseif` blocks and there are no `FieldAssign`/`Expect` arms, while
the parser in the same tree produces all three.  The walks marked modelled
below extend the collector the way the spec describes the stdlib-usage pass
(a full walk of every expression in the program); they mirror the
neighbouring arms. -/

/-- `StdlibCollector::infer_expr_type` (stdlib_collector.rs lines 317-331). -/
def collector_infer_expr_type (fuel : Nat) (symbol_table : AMap String String)
    (expr : Expression) : String :=
  match fuel with
  | 0 => "i64"
  | fuel + 1 =>
    match expr with
    | .intLiteral val => TypeUtils.infer_int_literal_type val
    | .boolLiteral _ => "bool"
    | .stringLiteral _ => "str"
    | .nullLiteral => "void*"
    | .var name => (symbol_table.get? name).getD "i64"
    | .ifExpr _ then_expr _ => collector_infer_expr_type fuel symbol_table then_expr
    | _ => "i64"

/-- `StdlibCollector::add_print_function_for_type` (stdlib_collector.rs lines
289-307). -/
def add_print_function_for_type (used : List String) (type_name : String)
    (is_println : Bool) : List String :=
  let suffix := if is_println then "ln" else ""
  if type_name == "str" then ASet.insert used ("sm_std_io_print" ++ suffix)
  else if type_name == "bool" then ASet.insert used ("sm_std_io_print" ++ suffix ++ "_bool")
  else if occurs "128" type_name then
    if type_name.data.headD ' ' == 'u' then
      ASet.insert used ("sm_std_io_print" ++ suffix ++ "_u128")
    else ASet.insert used ("sm_std_io_print" ++ suffix ++ "_i128")
  else if type_name.data.headD ' ' == 'u' then
    ASet.insert used ("sm_std_io_print" ++ suffix ++ "_u64")
  else if type_name != "str" then
    ASet.insert used ("sm_std_io_print" ++ suffix ++ "_i64")
  else used

/-- The `args[1..]` type walk shared by the print/println processing. -/
def add_print_args (fuel : Nat) (used : List String) (symbol_table : AMap String String) :
    List Expression → List String
  | [] => used
  | arg :: rest =>
    add_print_args fuel
      (add_print_function_for_type used (collector_infer_expr_type fuel symbol_table arg) false)
      symbol_table rest

/-- `StdlibCollector::process_print_call` (stdlib_collector.rs lines
228-247). -/
def process_print_call (fuel : Nat) (used : List String)
    (symbol_table : AMap String String) (args : List Expression) : List String :=
  match args with
  | [arg0] =>
    match arg0 with
    | .stringLiteral s =>
      if occurs "\x7b\x7d" s then
        add_print_args fuel (ASet.insert used "sm_std_io_print") symbol_table (args.drop 1)
      else ASet.insert used "sm_std_io_print"
    | _ =>
      add_print_function_for_type used (collector_infer_expr_type fuel symbol_table arg0) false
  | _ => ASet.insert used "sm_std_io_print"

/-- `StdlibCollector::process_println_call` (stdlib_collector.rs lines
254-281). -/
def process_println_call (fuel : Nat) (used : List String)
    (symbol_table : AMap String String) (args : List Expression) : List String :=
  match args with
  | [] => ASet.insert used "sm_std_io_println"
  | [arg0] =>
    match arg0 with
    | .stringLiteral s =>
      if occurs "\x7b\x7d" s then
        add_print_args fuel
          (ASet.insert (ASet.insert used "sm_std_io_print") "sm_std_io_println")
          symbol_table (args.drop 1)
      else ASet.insert used "sm_std_io_println"
    | _ =>
      add_print_function_for_type used (collector_infer_expr_type fuel symbol_table arg0) true
  | _ =>
    add_print_args fuel
      (ASet.insert (ASet.insert used "sm_std_io_print") "sm_std_io_println")
      symbol_table (args.drop 1)

/-- `StdlibCollector::process_call` (stdlib_collector.rs lines 185-220). -/
def process_call (fuel : Nat) (used : List String) (symbol_table : AMap String String)
    (path : List String) (type_args : Option (List String)) (args : List Expression) :
    List String :=
  let is_stdlib := (path.length == 2 && path.headD "" == "io")
    || (path.length == 3 && path.headD "" == "std" && path.getD 1 "" == "io")
  if !is_stdlib then used
  else
    let func_name := if path.length == 2 then path.getD 1 "" else path.getD 2 ""
    if func_name == "readln" then ASet.insert used "sm_std_io_readln"
    else if func_name == "read" then
      match type_args with
      | some [t] => ASet.insert used ("sm_std_io_read_" ++ t)
      | _ => used
    else if func_name == "print" then process_print_call fuel used symbol_table args
    else if func_name == "println" then process_println_call fuel used symbol_table args
    else used

/-- `StdlibCollector::register_variable` (stdlib_collector.rs lines 38-45). -/
def collector_register_variable (fuel : Nat) (symbol_table : AMap String String)
    (name : String) (var_type : Option String) (value : Expression) : AMap String String :=
  match var_type with
  | some t => symbol_table.insert name t
  | none => symbol_table.insert name (collector_infer_expr_type fuel symbol_table value)

mutual

/-- `StdlibCollector::collect_from_expr` (stdlib_collector.rs lines
151-176); only `used_functions` can change here. -/
def collect_from_expr (fuel : Nat) (used : List String)
    (symbol_table : AMap String String) (expr : Expression) : List String :=
  match fuel with
  | 0 => used
  | fuel + 1 =>
    match expr with
    | .call path type_args args =>
      collect_from_exprs fuel (process_call fuel used symbol_table path type_args args)
        symbol_table args
    | .binary _ left right =>
      collect_from_expr fuel (collect_from_expr fuel used symbol_table left)
        symbol_table right
    | .unary _ operand => collect_from_expr fuel used symbol_table operand
    | .ifExpr condition then_expr else_expr =>
      collect_from_expr fuel
        (collect_from_expr fuel (collect_from_expr fuel used symbol_table condition)
          symbol_table then_expr)
        symbol_table else_expr
    | _ => used

/-- The argument walk of the `Call` arm (stdlib_collector.rs lines
157-159). -/
def collect_from_exprs (fuel : Nat) (used : List String)
    (symbol_table : AMap String String) : List Expression → List String
  | [] => used
  | e :: rest =>
    match fuel with
    | 0 => used
    | fuel + 1 =>
      collect_from_exprs fuel (collect_from_expr fuel used symbol_table e) symbol_table rest

/-- `StdlibCollector::collect_from_stmt` (stdlib_collector.rs lines 63-144),
with the modelled `FieldAssign`/`Expect`/`elseif` walks described above. -/
def collect_from_stmt (fuel : Nat) (used : List String)
    (symbol_table : AMap String String) (stmt : Statement) :
    List String × AMap String String :=
  match fuel with
  | 0 => (used, symbol_table)
  | fuel + 1 =>
    match stmt with
    | .whenStmt value cases else_block =>
      let used := collect_from_expr fuel used symbol_table value
      let (used, symbol_table) := collect_from_when_cases fuel used symbol_table cases
      match else_block with
      | some else_stmts => collect_from_stmts fuel used symbol_table else_stmts
      | none => (used, symbol_table)
    | .forStmt _ start_ end_ _ step filter body =>
      let used := collect_from_expr fuel used symbol_table start_
      let used := collect_from_expr fuel used symbol_table end_
      let used := match step with
        | some s => collect_from_expr fuel used symbol_table s
        | none => used
      let used := match filter with
        | some f => collect_from_expr fuel used symbol_table f
        | none => used
      collect_from_stmts fuel used symbol_table body
    | .varDecl name var_type value =>
      let symbol_table := collector_register_variable fuel symbol_table name var_type value
      (collect_from_expr fuel used symbol_table value, symbol_table)
    | .constDecl name var_type value =>
      let symbol_table := collector_register_variable fuel symbol_table name var_type value
      (collect_from_expr fuel used symbol_table value, symbol_table)
    | .comptimeDecl name var_type value =>
      let symbol_table := collector_register_variable fuel symbol_table name var_type value
      (collect_from_expr fuel used symbol_table value, symbol_table)
    | .assign _ value => (collect_from_expr fuel used symbol_table value, symbol_table)
    | .fieldAssign _ _ value => (collect_from_expr fuel used symbol_table value, symbol_table)
    | .ret expr => (collect_from_expr fuel used symbol_table expr, symbol_table)
    | .exprStmt expr => (collect_from_expr fuel used symbol_table expr, symbol_table)
    | .ifStmt condition then_block elseif_blocks else_block =>
      let used := collect_from_expr fuel used symbol_table condition
      let (used, symbol_table) := collect_from_stmts fuel used symbol_table then_block
      let (used, symbol_table) :=
        collect_from_elseifs fuel used symbol_table elseif_blocks
      match else_block with
      | some else_stmts => collect_from_stmts fuel used symbol_table else_stmts
      | none => (used, symbol_table)
    | .whileStmt condition body =>
      collect_from_stmts fuel (collect_from_expr fuel used symbol_table condition)
        symbol_table body
    | .expect condition pattern else_block =>
      let used := collect_from_expr fuel used symbol_table condition
      let used := match pattern with
        | some (.single e) => collect_from_expr fuel used symbol_table e
        | some (.range s e _) =>
          collect_from_expr fuel (collect_from_expr fuel used symbol_table s) symbol_table e
        | none => used
      collect_from_stmts fuel used symbol_table else_block
    | .next | .stop | .fallthrough => (used, symbol_table)

/-- Sequential `collect_from_stmt` over a list. -/
def collect_from_stmts (fuel : Nat) (used : List String)
    (symbol_table : AMap String String) : List Statement →
    List String × AMap String String
  | [] => (used, symbol_table)
  | stmt :: rest =>
    match fuel with
    | 0 => (used, symbol_table)
    | fuel + 1 =>
      let (used, symbol_table) := collect_from_stmt fuel used symbol_table stmt
      collect_from_stmts fuel used symbol_table rest

/-- The case walk of the `When` arm (stdlib_collector.rs lines 67-80); the
enum-variant pattern (absent from the checked-in collector) contributes no
expressions. -/
def collect_from_when_cases (fuel : Nat) (used : List String)
    (symbol_table : AMap String String) : List WhenCase →
    List String × AMap String String
  | [] => (used, symbol_table)
  | case :: rest =>
    match fuel with
    | 0 => (used, symbol_table)
    | fuel + 1 =>
      let used := match case.pattern with
        | .single e => collect_from_expr fuel used symbol_table e
        | .range s e _ =>
          collect_from_expr fuel (collect_from_expr fuel used symbol_table s) symbol_table e
        | .enumVariant _ _ _ => used
      let (used, symbol_table) := collect_from_stmts fuel used symbol_table case.body
      collect_from_when_cases fuel used symbol_table rest

/-- The modelled `elseif` walk of the `If` arm (the checked-in arm ignores
`elseif_blocks`; the walk mirrors the then/else treatment). -/
def collect_from_elseifs (fuel : Nat) (used : List String)
    (symbol_table : AMap String String) : List ElseIfBlock →
    List String × AMap String String
  | [] => (used, symbol_table)
  | b :: rest =>
    match fuel with
    | 0 => (used, symbol_table)
    | fuel + 1 =>
      let used := collect_from_expr fuel used symbol_table b.condition
      let (used, symbol_table) := collect_from_stmts fuel used symbol_table b.body
      collect_from_elseifs fuel used symbol_table rest

end

/-- `StdlibCollector::collect_from_func` (stdlib_collector.rs lines 52-56). -/
def collect_from_func (fuel : Nat) (used : List String)
    (symbol_table : AMap String String) (func : Function) :
    List String × AMap String String :=
  collect_from_stmts fuel used symbol_table func.body

/-- The function loop of `ProgramGenerator::collect_stdlib_usage`
(program_generator.rs lines 345-350). -/
def collect_funcs (fuel : Nat) (used : List String) (symbol_table : AMap String String) :
    List Function → List String × AMap String String
  | [] => (used, symbol_table)
  | func :: rest =>
    if func.body.isEmpty then collect_funcs fuel used symbol_table rest
    else
      let (used, symbol_table) := collect_from_func fuel used symbol_table func
      collect_funcs fuel used symbol_table rest

/-- The globals loop of `collect_stdlib_usage` (program_generator.rs lines
356-366). -/
def collect_globals (fuel : Nat) (used : List String) (symbol_table : AMap String String) :
    List GlobalDeclaration → List String
  | [] => used
  | g :: rest =>
    match g with
    | .varG _ _ value | .constG _ _ value | .comptimeG _ _ value =>
      collect_globals fuel (collect_from_expr fuel used symbol_table value) symbol_table rest
    | .structG _ | .enumG _ => collect_globals fuel used symbol_table rest

/-- `ProgramGenerator::collect_stdlib_usage` (program_generator.rs lines
342-367). -/
def ProgramGenerator.collect_stdlib_usage (fuel : Nat) (g : ProgramGenerator)
    (program : Program) : ProgramGenerator :=
  let (used, symbol_table) :=
    collect_funcs fuel g.used_stdlib_functions g.symbol_table program.functions
  let (used, symbol_table) := collect_from_stmts fuel used symbol_table program.statements
  let used := collect_globals fuel used symbol_table program.globals
  { g with used_stdlib_functions := used, symbol_table := symbol_table }

/-! ### Expression generation (generators/expression_generator.rs) -/

/-- `CEmitter::emit` through the generator. -/
def gemit (g : ProgramGenerator) (code : String) : ProgramGenerator :=
  { g with emitter := g.emitter.emit code }

/-- `CEmitter::emit_line` through the generator. -/
def gemit_line (g : ProgramGenerator) (code : String) : ProgramGenerator :=
  { g with emitter := g.emitter.emit_line code }

/-- `CEmitter::indent` through the generator. -/
def gindent (g : ProgramGenerator) : ProgramGenerator :=
  { g with emitter := g.emitter.indent }

/-- `indent_level += 1` through the generator. -/
def gindent_inc (g : ProgramGenerator) : ProgramGenerator :=
  { g with emitter := { g.emitter with indent_level := g.emitter.indent_level + 1 } }

/-- `indent_level -= 1` through the generator. -/
def gindent_dec (g : ProgramGenerator) : ProgramGenerator :=
  { g with emitter := { g.emitter with indent_level := g.emitter.indent_level - 1 } }

/-- `emit_string_literal` through the generator. -/
def gemit_string_lit (g : ProgramGenerator) (s : String) : ProgramGenerator :=
  { g with emitter := g.emitter.emit_string_literal_ s }

/-- `ExpressionGenerator::build_module_func_name` (expression_generator.rs
lines 390-400). -/
def build_module_func_name (path : List String) : String :=
  if path.headD "" == "io" then
    String.intercalate "_" (["sm", "std", "io"] ++ [path.getD 1 ""])
  else if path.headD "" == "std" && path.length == 3 then
    String.intercalate "_" ("sm" :: path)
  else if path.headD "" == "std" && path.length == 2 then
    String.intercalate "_" ("sm" :: path)
  else
    String.intercalate "_" ["sm", String.intercalate "_" path]

/-- `ExpressionGenerator::add_io_type_suffix` (expression_generator.rs lines
408-437). -/
def add_io_type_suffix (fuel : Nat) (g : ProgramGenerator) (func_name : String)
    (arg : Expression) : String :=
  let expr_type :=
    infer_expression_type fuel g.symbol_table g.function_signatures g.struct_defs arg
  if expr_type == "bool" then func_name ++ "_bool"
  else if expr_type == "str" then func_name
  else
    match expr_type with
    | "i8" => func_name ++ "_i64"
    | "u8" => func_name ++ "_u64"
    | "i16" => func_name ++ "_i64"
    | "u16" => func_name ++ "_u64"
    | "i32" => func_name ++ "_i64"
    | "u32" => func_name ++ "_u64"
    | "i64" => func_name ++ "_i64"
    | "u64" => func_name ++ "_u64"
    | "i128" => func_name ++ "_i128"
    | "u128" => func_name ++ "_u128"
    | _ => func_name ++ "_i64"

/-- `ExpressionGenerator::resolve_func_name` (expression_generator.rs lines
366-380). -/
def resolve_func_name (fuel : Nat) (g : ProgramGenerator) (path : List String)
    (args : List Expression) : String :=
  let is_io_call := IoPathMatcher.is_print path || IoPathMatcher.is_println path
  let func_name := if path.length ≥ 2 then build_module_func_name path else path.headD ""
  if is_io_call && args.length == 1 then
    add_io_type_suffix fuel g func_name (args.headD Expression.nullLiteral)
  else func_name

mutual

/-- `ExpressionGenerator::generate_expr` (expression_generator.rs lines
26-54).  The checked-in generator predates enum construction (its match has
no `EnumConstruct` arm); that arm emits nothing and is unreachable in every
run below. -/
def generate_expr (fuel : Nat) (g : ProgramGenerator) (expr : Expression) :
    ProgramGenerator :=
  match fuel with
  | 0 => g
  | fuel + 1 =>
    match expr with
    | .intLiteral n => { g with emitter := g.emitter.emit_int_literal n }
    | .boolLiteral b => { g with emitter := g.emitter.emit_bool_literal b }
    | .stringLiteral s => gemit_string_lit g s
    | .nullLiteral => gemit g "NULL"
    | .var name => gemit g name
    | .call path type_args args => emit_call fuel g path type_args args
    | .binary op left right =>
      let g := gemit g "("
      let g := generate_expr fuel g left
      let g := gemit g (" " ++ OperatorEmitter.emit_binary_op op ++ " ")
      let g := generate_expr fuel g right
      gemit g ")"
    | .unary op operand => emit_unary_op fuel g op operand
    | .ifExpr condition then_expr else_expr =>
      let g := gemit g "("
      let g := generate_expr fuel g condition
      let g := gemit g " ? "
      let g := generate_expr fuel g then_expr
      let g := gemit g " : "
      let g := generate_expr fuel g else_expr
      gemit g ")"
    | .whenExpr value cases else_expr => emit_when_expr fuel g value cases else_expr
    | .structInit struct_name fields =>
      let g := gemit g ("(" ++ struct_name ++ ")\x7b ")
      let g := emit_struct_init_fields fuel g fields 0
      gemit g " \x7d"
    | .fieldAccess object field =>
      let g := generate_expr fuel g object
      gemit g ("." ++ field)
    | .enumConstruct _ _ _ => g
termination_by structural fuel

/-- The field loop of `emit_struct_init` (expression_generator.rs lines
68-80). -/
def emit_struct_init_fields (fuel : Nat) (g : ProgramGenerator)
    (fields : List StructFieldInit) (i : Nat) : ProgramGenerator :=
  match fuel with
  | 0 => g
  | fuel + 1 =>
    match fields with
    | [] => g
    | field_init :: rest =>
      let g := if i > 0 then gemit g ", " else g
      let g := match field_init.name with
        | some field_name => gemit g ("." ++ field_name ++ " = ")
        | none => g
      let g := generate_expr fuel g field_init.value
      emit_struct_init_fields fuel g rest (i + 1)
termination_by structural fuel

/-- `ExpressionGenerator::emit_when_expr` (expression_generator.rs lines
104-113). -/
def emit_when_expr (fuel : Nat) (g : ProgramGenerator) (value : Expression)
    (cases : List WhenExprCase) (else_expr : Expression) : ProgramGenerator :=
  match fuel with
  | 0 => g
  | fuel + 1 =>
    let has_ranges := cases.any (fun case =>
      match case.pattern with | .range _ _ _ => true | _ => false)
    if has_ranges then
      let g := gemit g "("
      let g := emit_when_expr_range_cases fuel g value cases 0
      let g := gemit g " : ("
      let g := generate_expr fuel g else_expr
      let g := gemit g ")"
      gemit g ")"
    else
      let g := gemit g "("
      let g := emit_when_expr_ternary_cases fuel g value cases 0
      let g := gemit g " : ("
      let g := generate_expr fuel g else_expr
      let g := gemit g ")"
      gemit g ")"
termination_by structural fuel

/-- The case loop of `emit_when_expr_with_ranges` (expression_generator.rs
lines 126-164); the enum-variant pattern (absent from the checked-in
generator) contributes no condition. -/
def emit_when_expr_range_cases (fuel : Nat) (g : ProgramGenerator) (value : Expression)
    (cases : List WhenExprCase) (i : Nat) : ProgramGenerator :=
  match fuel with
  | 0 => g
  | fuel + 1 =>
    match cases with
    | [] => g
    | case :: rest =>
      let g := if i > 0 then gemit g " : " else g
      let g := gemit g "("
      let g := match case.pattern with
        | .single pattern_expr =>
          let g := gemit g "("
          let g := generate_expr fuel g value
          let g := gemit g ") == ("
          let g := generate_expr fuel g pattern_expr
          gemit g ")"
        | .range start_ end_ inclusive =>
          let g := gemit g "("
          let g := generate_expr fuel g value
          let g := gemit g ") >= ("
          let g := generate_expr fuel g start_
          let g := gemit g ") && ("
          let g := generate_expr fuel g value
          let g := gemit g ")"
          let g := if inclusive then gemit g " <= (" else gemit g " < ("
          let g := generate_expr fuel g end_
          gemit g ")"
        | .enumVariant _ _ _ => g
      let g := gemit g ") ? ("
      let g := generate_expr fuel g case.result
      let g := gemit g ")"
      emit_when_expr_range_cases fuel g value rest (i + 1)
termination_by structural fuel

/-- The case loop of `emit_when_expr_with_ternary` (expression_generator.rs
lines 184-198); only `Single` patterns emit anything, as in the source. -/
def emit_when_expr_ternary_cases (fuel : Nat) (g : ProgramGenerator) (value : Expression)
    (cases : List WhenExprCase) (i : Nat) : ProgramGenerator :=
  match fuel with
  | 0 => g
  | fuel + 1 =>
    match cases with
    | [] => g
    | case :: rest =>
      let g := if i > 0 then gemit g " : " else g
      let g := match case.pattern with
        | .single pattern_expr =>
          let g := gemit g "("
          let g := generate_expr fuel g value
          let g := gemit g ") == ("
          let g := generate_expr fuel g pattern_expr
          let g := gemit g ") ? ("
          let g := generate_expr fuel g case.result
          gemit g ")"
        | _ => g
      emit_when_expr_ternary_cases fuel g value rest (i + 1)
termination_by structural fuel

/-- `ExpressionGenerator::emit_call` (expression_generator.rs lines
232-276). -/
def emit_call (fuel : Nat) (g : ProgramGenerator) (path : List String)
    (type_args : Option (List String)) (args : List Expression) : ProgramGenerator :=
  match fuel with
  | 0 => g
  | fuel + 1 =>
    if IoPathMatcher.is_readln path then gemit g "sm_std_io_readln()"
    else if IoPathMatcher.is_read path then
      match type_args with
      | some [t] => gemit g ("sm_std_io_read_" ++ t ++ "()")
      | _ => gemit g "/* Error: read requires a type parameter */"
    else
      let is_println := IoPathMatcher.is_println path
      let is_print := IoPathMatcher.is_print path
      let format_str? :=
        if (is_println || is_print) && !args.isEmpty then
          match args.headD Expression.nullLiteral with
          | .stringLiteral format_str =>
            if occurs "\x7b\x7d" format_str then some format_str else none
          | _ => none
        else none
      match format_str? with
      | some format_str => emit_formatted_print fuel g format_str (args.drop 1) is_println
      | none =>
        let func_name := resolve_func_name fuel g path args
        let g := gemit g (func_name ++ "(")
        let g := emit_call_args fuel g args 0
        gemit g ")"
termination_by structural fuel

/-- The argument loop of `emit_call` (expression_generator.rs lines
268-273). -/
def emit_call_args (fuel : Nat) (g : ProgramGenerator) (args : List Expression)
    (i : Nat) : ProgramGenerator :=
  match fuel with
  | 0 => g
  | fuel + 1 =>
    match args with
    | [] => g
    | arg :: rest =>
      let g := if i > 0 then gemit g ", " else g
      let g := generate_expr fuel g arg
      emit_call_args fuel g rest (i + 1)
termination_by structural fuel

/-- `ExpressionGenerator::emit_formatted_print` (expression_generator.rs
lines 285-355). -/
def emit_formatted_print (fuel : Nat) (g : ProgramGenerator) (format_str : String)
    (args : List Expression) (with_newline : Bool) : ProgramGenerator :=
  match fuel with
  | 0 => g
  | fuel + 1 =>
    let parts := split_on_pair '\x7b' '\x7d' format_str
    if parts.length - 1 != args.length then
      let g := gemit g "sm_std_io_print"
      let g := if with_newline then gemit g "ln" else g
      let g := gemit g "("
      let g := gemit_string_lit g format_str
      gemit g ")"
    else
      let arg_types := args.map (fun arg =>
        infer_expression_type fuel g.symbol_table g.function_signatures g.struct_defs arg)
      let g := emit_fp_parts fuel g parts args arg_types with_newline 0 parts.length
      if with_newline then gemit g "sm_std_io_println(\"\")" else g
termination_by structural fuel

/-- The part/argument interleaving loop of `emit_formatted_print`
(expression_generator.rs lines 307-350). -/
def emit_fp_parts (fuel : Nat) (g : ProgramGenerator) (parts_rest : List String)
    (args : List Expression) (arg_types : List String) (with_newline : Bool)
    (i parts_len : Nat) : ProgramGenerator :=
  match fuel with
  | 0 => g
  | fuel + 1 =>
    match parts_rest with
    | [] => g
    | part :: rest =>
      let g :=
        if part != "" then
          let g := gemit g "sm_std_io_print("
          let g := gemit_string_lit g part
          let g := gemit g ")"
          if i < args.length || with_newline then gemit g "; " else g
        else g
      let g :=
        if i < args.length then
          let arg_type := arg_types.getD i ""
          let arg := args.getD i Expression.nullLiteral
          let g :=
            if arg_type == "str" then
              let g := gemit g "sm_std_io_print("
              let g := generate_expr fuel g arg
              gemit g ")"
            else if arg_type == "bool" then
              let g := gemit g "sm_std_io_print_bool("
              let g := generate_expr fuel g arg
              gemit g ")"
            else if occurs "128" arg_type then
              let g :=
                if arg_type.data.headD ' ' == 'u' then gemit g "sm_std_io_print_u128("
                else gemit g "sm_std_io_print_i128("
              let g := generate_expr fuel g arg
              gemit g ")"
            else if arg_type.data.headD ' ' == 'u' then
              let g := gemit g "sm_std_io_print_u64("
              let g := generate_expr fuel g arg
              gemit g ")"
            else
              let g := gemit g "sm_std_io_print_i64("
              let g := generate_expr fuel g arg
              gemit g ")"
          if i < parts_len - 1 || with_newline then gemit g "; " else g
        else g
      emit_fp_parts fuel g rest args arg_types with_newline (i + 1) parts_len
termination_by structural fuel

/-- `ExpressionGenerator::emit_unary_op` (expression_generator.rs lines
461-483), including the `i128::MIN` special case. -/
def emit_unary_op (fuel : Nat) (g : ProgramGenerator) (op : UnaryOp)
    (operand : Expression) : ProgramGenerator :=
  match fuel with
  | 0 => g
  | fuel + 1 =>
    match op with
    | .negate =>
      match operand with
      | .intLiteral n =>
        if n == 170141183460469231731687303715884105728 then
          gemit g "((__int128)9223372036854775808ULL << 64)"
        else
          let g := gemit g "(-"
          let g := generate_expr fuel g operand
          gemit g ")"
      | _ =>
        let g := gemit g "(-"
        let g := generate_expr fuel g operand
        gemit g ")"
    | .not =>
      let g := gemit g "(!"
      let g := generate_expr fuel g operand
      gemit g ")"
termination_by structural fuel

end

/-! ### Statement generation (generators/statement_generator.rs) -/

mutual

/-- `StatementGenerator::generate_stmt` (statement_generator.rs lines
27-77). -/
def generate_stmt (fuel : Nat) (g : ProgramGenerator) (stmt : Statement) :
    ProgramGenerator :=
  match fuel with
  | 0 => g
  | fuel + 1 =>
    match stmt with
    | .whenStmt value cases else_block => emit_when_stmt fuel g value cases else_block
    | .expect condition pattern else_block => emit_expect_stmt fuel g condition pattern else_block
    | .forStmt variable_ start_ end_ inclusive step filter body =>
      emit_for_loop fuel g variable_ start_ end_ inclusive step filter body
    | .varDecl name var_type value => emit_let_stmt fuel g name var_type value
    | .constDecl name var_type value => emit_const_stmt fuel g name var_type value
    | .comptimeDecl name var_type value => emit_const_stmt fuel g name var_type value
    | .assign name value =>
      let g := gindent g
      let g := gemit g (name ++ " = ")
      let g := generate_expr fuel g value
      gemit g ";\n"
    | .fieldAssign object field value =>
      let g := gindent g
      let g := gemit g (object ++ "." ++ field ++ " = ")
      let g := generate_expr fuel g value
      gemit g ";\n"
    | .ret expr =>
      let g := gindent g
      let g := gemit g "return "
      let g := generate_expr fuel g expr
      gemit g ";\n"
    | .exprStmt expr =>
      let g := gindent g
      let g := generate_expr fuel g expr
      gemit g ";\n"
    | .ifStmt condition then_block elseif_blocks else_block =>
      emit_if_stmt fuel g condition then_block elseif_blocks else_block
    | .whileStmt condition body =>
      let g := gindent g
      let g := gemit g "while ("
      let g := generate_expr fuel g condition
      let g := gemit g ") \x7b\n"
      let g := gindent_inc g
      let g := generate_stmts fuel g body
      let g := gindent_dec g
      gemit_line g "\x7d"
    | .next => gemit_line g "continue;"
    | .stop => gemit_line g "break;"
    | .fallthrough => gemit_line g "/* fallthrough */"
termination_by structural fuel

/-- Sequential `generate_stmt` over a list. -/
def generate_stmts (fuel : Nat) (g : ProgramGenerator) (stmts : List Statement) :
    ProgramGenerator :=
  match fuel with
  | 0 => g
  | fuel + 1 =>
    match stmts with
    | [] => g
    | stmt :: rest => generate_stmts fuel (generate_stmt fuel g stmt) rest
termination_by structural fuel

/-- The body walk of the fallthrough path of `emit_when_with_ranges`, which
skips `Fallthrough` statements (statement_generator.rs lines 236-240). -/
def generate_stmts_skip_fallthrough (fuel : Nat) (g : ProgramGenerator)
    (stmts : List Statement) : ProgramGenerator :=
  match fuel with
  | 0 => g
  | fuel + 1 =>
    match stmts with
    | [] => g
    | .fallthrough :: rest => generate_stmts_skip_fallthrough fuel g rest
    | stmt :: rest =>
      generate_stmts_skip_fallthrough fuel (generate_stmt fuel g stmt) rest
termination_by structural fuel

/-- `StatementGenerator::emit_expect_stmt` (statement_generator.rs lines
86-140). -/
def emit_expect_stmt (fuel : Nat) (g : ProgramGenerator) (condition : Expression)
    (pattern : Option ExpectPattern) (else_block : List Statement) : ProgramGenerator :=
  match fuel with
  | 0 => g
  | fuel + 1 =>
    let g := gindent g
    let g := match pattern with
      | some (.single expr) =>
        let g := gemit g "if (!("
        let g := generate_expr fuel g condition
        let g := gemit g " == "
        let g := generate_expr fuel g expr
        gemit g ")) \x7b\n"
      | some (.range start_ end_ inclusive) =>
        let g := gemit g "if (!("
        let g := generate_expr fuel g condition
        let g := gemit g " >= "
        let g := generate_expr fuel g start_
        let g := gemit g " && "
        let g := generate_expr fuel g condition
        let g := if inclusive then gemit g " <= " else gemit g " < "
        let g := generate_expr fuel g end_
        gemit g ")) \x7b\n"
      | none =>
        let g := gemit g "if (!("
        let g := generate_expr fuel g condition
        gemit g ")) \x7b\n"
    let g := gindent_inc g
    let g := generate_stmts fuel g else_block
    let g := gindent_dec g
    gemit_line g "\x7d"
termination_by structural fuel

/-- `StatementGenerator::emit_when_stmt` (statement_generator.rs lines
149-158). -/
def emit_when_stmt (fuel : Nat) (g : ProgramGenerator) (value : Expression)
    (cases : List WhenCase) (else_block : Option (List Statement)) : ProgramGenerator :=
  match fuel with
  | 0 => g
  | fuel + 1 =>
    let has_ranges := cases.any (fun case =>
      match case.pattern with | .range _ _ _ => true | _ => false)
    if has_ranges then emit_when_with_ranges fuel g value cases else_block
    else emit_when_with_switch fuel g value cases else_block
termination_by structural fuel

/-- `StatementGenerator::emit_when_with_ranges` (statement_generator.rs lines
167-346). -/
def emit_when_with_ranges (fuel : Nat) (g : ProgramGenerator) (value : Expression)
    (cases : List WhenCase) (else_block : Option (List Statement)) : ProgramGenerator :=
  match fuel with
  | 0 => g
  | fuel + 1 =>
    let has_any_fallthrough := cases.any (fun case =>
      match case.body.getLast? with | some .fallthrough => true | _ => false)
    if has_any_fallthrough then
      let g := gindent g
      let g := gemit g "\x7b\n"
      let g := gindent_inc g
      let g := gindent g
      let value_type :=
        infer_expression_type fuel g.symbol_table g.function_signatures g.struct_defs value
      let c_type := g.map_type value_type
      let g := gemit g (c_type ++ " __when_value = ")
      let g := generate_expr fuel g value
      let g := gemit g ";\n"
      let g := gindent g
      let g := gemit g "int __when_matched = 0;\n"
      let g := emit_when_goto_cases fuel g cases 0 cases.length
      let g := match else_block with
        | some else_stmts =>
          let g := gindent g
          let g := gemit g "if (!__when_matched) \x7b\n"
          let g := gindent_inc g
          let g := generate_stmts fuel g else_stmts
          let g := gindent_dec g
          let g := gindent g
          gemit g "\x7d\n"
        | none => g
      let g := gindent_dec g
      gemit_line g "\x7d"
    else
      let g := emit_when_chain_cases fuel g value cases true
      match else_block with
      | some else_stmts =>
        let g := gindent g
        let g := gemit g "else \x7b\n"
        let g := gindent_inc g
        let g := generate_stmts fuel g else_stmts
        let g := gindent_dec g
        gemit_line g "\x7d"
      | none => g
termination_by structural fuel

/-- The labelled-case loop of the fallthrough path of
`emit_when_with_ranges` (statement_generator.rs lines 197-257); the
enum-variant pattern (absent from the checked-in generator) contributes no
condition. -/
def emit_when_goto_cases (fuel : Nat) (g : ProgramGenerator) (cases : List WhenCase)
    (i cases_len : Nat) : ProgramGenerator :=
  match fuel with
  | 0 => g
  | fuel + 1 =>
    match cases with
    | [] => g
    | case :: rest =>
      let g := gindent g
      let g := gemit g ("__when_case_" ++ toString i ++ ":\n")
      let g := gindent g
      let g := gemit g "if (__when_matched || ("
      let g := match case.pattern with
        | .single expr =>
          let g := gemit g "__when_value == "
          generate_expr fuel g expr
        | .range start_ end_ inclusive =>
          let g := gemit g "__when_value >= "
          let g := generate_expr fuel g start_
          let g := gemit g " && __when_value "
          let g := if inclusive then gemit g "<= " else gemit g "< "
          generate_expr fuel g end_
        | .enumVariant _ _ _ => g
      let g := gemit g ")) \x7b\n"
      let g := gindent_inc g
      let has_fallthrough :=
        match case.body.getLast? with | some .fallthrough => true | _ => false
      let g := generate_stmts_skip_fallthrough fuel g case.body
      let g :=
        if has_fallthrough then
          let g := gindent g
          let g := gemit g "__when_matched = 1;\n"
          if i + 1 < cases_len then
            let g := gindent g
            gemit g ("goto __when_case_" ++ toString (i + 1) ++ ";\n")
          else g
        else
          let g := gindent g
          gemit g "__when_matched = 1;\n"
      let g := gindent_dec g
      let g := gindent g
      let g := gemit g "\x7d\n"
      emit_when_goto_cases fuel g rest (i + 1) cases_len
termination_by structural fuel

/-- The if/else-if chain of the no-fallthrough path of
`emit_when_with_ranges` (statement_generator.rs lines 277-330). -/
def emit_when_chain_cases (fuel : Nat) (g : ProgramGenerator) (value : Expression)
    (cases : List WhenCase) (first : Bool) : ProgramGenerator :=
  match fuel with
  | 0 => g
  | fuel + 1 =>
    match cases with
    | [] => g
    | case :: rest =>
      let g := gindent g
      let g := if first then gemit g "if (" else gemit g "else if ("
      let g := match case.pattern with
        | .single expr =>
          let g := generate_expr fuel g value
          let g := gemit g " == "
          generate_expr fuel g expr
        | .range start_ end_ inclusive =>
          let g := generate_expr fuel g value
          let g := gemit g " >= "
          let g := generate_expr fuel g start_
          let g := gemit g " && "
          let g := generate_expr fuel g value
          let g := if inclusive then gemit g " <= " else gemit g " < "
          generate_expr fuel g end_
        | .enumVariant _ _ _ => g
      let g := gemit g ") \x7b\n"
      let g := gindent_inc g
      let g := generate_stmts fuel g case.body
      let g := gindent_dec g
      let g := gindent g
      let g := gemit g "\x7d\n"
      emit_when_chain_cases fuel g value rest false
termination_by structural fuel

/-- `StatementGenerator::emit_when_with_switch` (statement_generator.rs lines
355-412). -/
def emit_when_with_switch (fuel : Nat) (g : ProgramGenerator) (value : Expression)
    (cases : List WhenCase) (else_block : Option (List Statement)) : ProgramGenerator :=
  match fuel with
  | 0 => g
  | fuel + 1 =>
    let g := gindent g
    let g := gemit g "switch ("
    let g := generate_expr fuel g value
    let g := gemit g ") \x7b\n"
    let g := gindent_inc g
    let g := emit_switch_cases fuel g cases
    let g := match else_block with
      | some else_stmts =>
        let g := gindent g
        let g := gemit g "default:\n"
        let g := gindent_inc g
        let g := generate_stmts fuel g else_stmts
        let g := gindent g
        let g := gemit g "break;\n"
        gindent_dec g
      | none => g
    let g := gindent_dec g
    gemit_line g "\x7d"
termination_by structural fuel

/-- The case loop of `emit_when_with_switch` (statement_generator.rs lines
366-394). -/
def emit_switch_cases (fuel : Nat) (g : ProgramGenerator) (cases : List WhenCase) :
    ProgramGenerator :=
  match fuel with
  | 0 => g
  | fuel + 1 =>
    match cases with
    | [] => g
    | case :: rest =>
      let g := gindent g
      let g := gemit g "case "
      let g := match case.pattern with
        | .single expr => generate_expr fuel g expr
        | _ => g
      let g := gemit g ":\n"
      let g := gindent_inc g
      let has_fallthrough :=
        match case.body.getLast? with | some .fallthrough => true | _ => false
      let g := generate_stmts fuel g case.body
      let g :=
        if !has_fallthrough then
          let g := gindent g
          gemit g "break;\n"
        else g
      let g := gindent_dec g
      emit_switch_cases fuel g rest
termination_by structural fuel

/-- `StatementGenerator::emit_step_value` (statement_generator.rs lines
443-450). -/
def emit_step_value (fuel : Nat) (g : ProgramGenerator) (step : Option Expression) :
    ProgramGenerator :=
  match fuel with
  | 0 => g
  | fuel + 1 =>
    match step with
    | some step_expr => generate_expr fuel g step_expr
    | none => gemit g "1"

/-- `StatementGenerator::emit_for_loop` (statement_generator.rs lines
463-499): the sign of a bare literal step decides `is_positive`; any other
step expression (including a parsed `-1`, which is `Unary(Negate, 1)`)
counts as positive. -/
def emit_for_loop (fuel : Nat) (g : ProgramGenerator) (variable_ : String)
    (start_ end_ : Expression) (inclusive : Bool) (step filter : Option Expression)
    (body : List Statement) : ProgramGenerator :=
  match fuel with
  | 0 => g
  | fuel + 1 =>
    let start_type :=
      infer_expression_type fuel g.symbol_table g.function_signatures g.struct_defs start_
    let end_type :=
      infer_expression_type fuel g.symbol_table g.function_signatures g.struct_defs end_
    let loop_type := CodegenTypeInference.wider_type start_type end_type
    let c_type := g.map_type loop_type
    let is_positive :=
      match step with
      | some (.intLiteral val) => 0 < i64_of_u128 val
      | some _ => true
      | none => true
    let g := { g with symbol_table := g.symbol_table.insert variable_ loop_type }
    if step.isNone && filter.isNone && is_positive then
      emit_simple_for_loop fuel g variable_ start_ end_ inclusive c_type body
    else
      emit_complex_for_loop fuel g variable_ start_ end_ inclusive step filter body c_type
termination_by structural fuel

/-- `StatementGenerator::emit_simple_for_loop` (statement_generator.rs lines
511-535). -/
def emit_simple_for_loop (fuel : Nat) (g : ProgramGenerator) (variable_ : String)
    (start_ end_ : Expression) (inclusive : Bool) (c_type : String)
    (body : List Statement) : ProgramGenerator :=
  match fuel with
  | 0 => g
  | fuel + 1 =>
    let g := gindent g
    let g := gemit g ("for (" ++ c_type ++ " " ++ variable_ ++ " = ")
    let g := generate_expr fuel g start_
    let g := gemit g ("; " ++ variable_ ++ " " ++ (if inclusive then "<=" else "<") ++ " ")
    let g := generate_expr fuel g end_
    let g := gemit g ("; " ++ variable_ ++ "++) \x7b\n")
    let g := gindent_inc g
    let g := generate_stmts fuel g body
    let g := gindent_dec g
    gemit_line g "\x7d"
termination_by structural fuel

/-- `StatementGenerator::emit_complex_for_loop` (statement_generator.rs lines
549-634): the while-condition operator is `<=`/`<` unless the step is a bare
integer literal whose `as i64` value is non-positive, in which case it is
`>=`/`>`. -/
def emit_complex_for_loop (fuel : Nat) (g : ProgramGenerator) (variable_ : String)
    (start_ end_ : Expression) (inclusive : Bool) (step filter : Option Expression)
    (body : List Statement) (c_type : String) : ProgramGenerator :=
  match fuel with
  | 0 => g
  | fuel + 1 =>
    let g := gindent g
    let g := gemit g "\x7b\n"
    let g := gindent_inc g
    let g := gindent g
    let g := gemit g (c_type ++ " " ++ variable_ ++ " = ")
    let g := generate_expr fuel g start_
    let g := gemit g ";\n"
    let g := gindent g
    let g := gemit g ("while (" ++ variable_ ++ " ")
    let g := match step with
      | some (.intLiteral val) =>
        if 0 < i64_of_u128 val then
          if inclusive then gemit g "<= " else gemit g "< "
        else
          if inclusive then gemit g ">= " else gemit g "> "
      | some _ => if inclusive then gemit g "<= " else gemit g "< "
      | none => if inclusive then gemit g "<= " else gemit g "< "
    let g := generate_expr fuel g end_
    let g := gemit g ") \x7b\n"
    let g := gindent_inc g
    let g := match filter with
      | some filter_expr =>
        let g := gindent g
        let g := gemit g "if (!("
        let g := generate_expr fuel g filter_expr
        let g := gemit g ")) \x7b\n"
        let g := gindent_inc g
        let g := gindent g
        let g := gemit g variable_
        let g := gemit g " += "
        let g := emit_step_value fuel g step
        let g := gemit g ";\n"
        let g := gemit_line g "continue;"
        let g := gindent_dec g
        gemit_line g "\x7d"
      | none => g
    let g := generate_stmts fuel g body
    let g := gindent g
    let g := gemit g variable_
    let g := gemit g " += "
    let g := emit_step_value fuel g step
    let g := gemit g ";\n"
    let g := gindent_dec g
    let g := gemit_line g "\x7d"
    let g := gindent_dec g
    gemit_line g "\x7d"
termination_by structural fuel

/-- `StatementGenerator::emit_let_stmt` (statement_generator.rs lines
636-654). -/
def emit_let_stmt (fuel : Nat) (g : ProgramGenerator) (name : String)
    (var_type : Option String) (value : Expression) : ProgramGenerator :=
  match fuel with
  | 0 => g
  | fuel + 1 =>
    let g := gindent g
    let summit_type := resolve_type fuel g var_type value
    let c_type := g.map_type summit_type
    let g := gemit g (c_type ++ " " ++ name ++ " = ")
    let g := generate_expr fuel g value
    let g := gemit g ";\n"
    { g with symbol_table := g.symbol_table.insert name summit_type }

/-- `StatementGenerator::emit_const_stmt` (statement_generator.rs lines
664-683); `emit_comptime_stmt` (lines 692-695) delegates here. -/
def emit_const_stmt (fuel : Nat) (g : ProgramGenerator) (name : String)
    (var_type : Option String) (value : Expression) : ProgramGenerator :=
  match fuel with
  | 0 => g
  | fuel + 1 =>
    let g := gindent g
    let summit_type := resolve_type fuel g var_type value
    let c_type := g.map_type summit_type
    let g := gemit g ("const " ++ c_type ++ " " ++ name ++ " = ")
    let g := generate_expr fuel g value
    let g := gemit g ";\n"
    { g with symbol_table := g.symbol_table.insert name summit_type }

/-- `StatementGenerator::emit_if_stmt` (statement_generator.rs lines
771-813). -/
def emit_if_stmt (fuel : Nat) (g : ProgramGenerator) (condition : Expression)
    (then_block : List Statement) (elseif_blocks : List ElseIfBlock)
    (else_block : Option (List Statement)) : ProgramGenerator :=
  match fuel with
  | 0 => g
  | fuel + 1 =>
    let g := gindent g
    let g := gemit g "if ("
    let g := generate_expr fuel g condition
    let g := gemit g ") \x7b\n"
    let g := gindent_inc g
    let g := generate_stmts fuel g then_block
    let g := gindent_dec g
    let g := emit_elseif_blocks fuel g elseif_blocks
    let g := match else_block with
      | some else_stmts =>
        let g := gemit_line g "\x7d else \x7b"
        let g := gindent_inc g
        let g := generate_stmts fuel g else_stmts
        gindent_dec g
      | none => g
    gemit_line g "\x7d"
termination_by structural fuel

/-- The `elseif` loop of `emit_if_stmt` (statement_generator.rs lines
787-801). -/
def emit_elseif_blocks (fuel : Nat) (g : ProgramGenerator)
    (blocks : List ElseIfBlock) : ProgramGenerator :=
  match fuel with
  | 0 => g
  | fuel + 1 =>
    match blocks with
    | [] => g
    | b :: rest =>
      let g := gemit_line g "\x7d else if ("
      let g := generate_expr fuel g b.condition
      let g := gemit g ") \x7b\n"
      let g := gindent_inc g
      let g := generate_stmts fuel g b.body
      let g := gindent_dec g
      emit_elseif_blocks fuel g rest
termination_by structural fuel

end

/-! ### Function, global and program generation (function_generator.rs,
global_generator.rs, program_generator.rs) -/

/-- `FunctionGenerator::map_summit_to_c_type` (function_generator.rs lines
96-119); both fallback branches return the name unchanged. -/
def map_summit_to_c_type (summit_type : String) : String :=
  match summit_type with
  | "str" => "char*"
  | "i8" => "int8_t"
  | "u8" => "uint8_t"
  | "i16" => "int16_t"
  | "u16" => "uint16_t"
  | "i32" => "int32_t"
  | "u32" => "uint32_t"
  | "i64" => "int64_t"
  | "u64" => "uint64_t"
  | "i128" => "__int128"
  | "u128" => "unsigned __int128"
  | "bool" => "int"
  | "void" => "void"
  | _ => summit_type

/-- The parameter loop of `emit_func_signature` (function_generator.rs lines
163-169). -/
def emit_signature_params (g : ProgramGenerator) (params : List Parameter) (i : Nat) :
    ProgramGenerator :=
  match params with
  | [] => g
  | param :: rest =>
    let g := if i > 0 then gemit g ", " else g
    let g := gemit g (g.map_type param.param_type ++ " " ++ param.name)
    emit_signature_params g rest (i + 1)

/-- `FunctionGenerator::emit_func_signature` (function_generator.rs lines
159-174). -/
def emit_func_signature (g : ProgramGenerator) (func : Function) : ProgramGenerator :=
  let g := gemit g (g.map_type func.return_type ++ " " ++ func.name ++ "(")
  let g := emit_signature_params g func.params 0
  if func.params.isEmpty && func.abi.isNone then gemit g "void" else g

/-- `FunctionGenerator::emit_func_decl` (function_generator.rs lines
25-28). -/
def emit_func_decl (g : ProgramGenerator) (func : Function) : ProgramGenerator :=
  gemit (emit_func_signature g func) ");\n"

/-- The parameter loop of `emit_external_func_decl` (function_generator.rs
lines 60-66). -/
def emit_external_params (g : ProgramGenerator) (params : List Parameter) (i : Nat) :
    ProgramGenerator :=
  match params with
  | [] => g
  | param :: rest =>
    let g := if i > 0 then gemit g ", " else g
    let g := gemit g (map_summit_to_c_type param.param_type)
    emit_external_params g rest (i + 1)

/-- `FunctionGenerator::emit_external_func_decl` (function_generator.rs lines
47-78). -/
def emit_external_func_decl (g : ProgramGenerator) (func : Function) : ProgramGenerator :=
  let c_return_type :=
    if func.return_type == "void" then "void" else map_summit_to_c_type func.return_type
  let g := gemit g ("extern " ++ c_return_type ++ " " ++ func.name ++ "(")
  let g := emit_external_params g func.params 0
  let g :=
    if func.has_varargs then
      let g := if !func.params.isEmpty then gemit g ", " else g
      gemit g "..."
    else if func.params.isEmpty then gemit g "void"
    else g
  gemit g ");\n"

/-- `FunctionGenerator::generate_func` (function_generator.rs lines
126-148); the symbol table is cleared and repopulated with the
parameters. -/
def generate_func (fuel : Nat) (g : ProgramGenerator) (func : Function) :
    ProgramGenerator :=
  if func.body.isEmpty then g
  else
    let g := { g with symbol_table :=
      func.params.foldl (fun (s : AMap String String) p => s.insert p.name p.param_type) [] }
    let g := emit_func_signature g func
    let g := gemit g ") \x7b\n"
    let g := gindent_inc g
    let g := generate_stmts fuel g func.body
    let g := gindent_dec g
    gemit_line g "\x7d"

/-- `GlobalGenerator::emit_global_decl` (global_generator.rs lines 48-81);
the checked-in match predates enums (no `Enum` arm); that arm is a modelled
no-op. -/
def emit_global_decl (fuel : Nat) (g : ProgramGenerator) (global : GlobalDeclaration) :
    ProgramGenerator :=
  match global with
  | .varG name var_type value | .constG name var_type value
  | .comptimeG name var_type value =>
    let summit_type := resolve_type fuel g var_type value
    let c_type := g.map_type summit_type
    let g :=
      if leadsWith "const ".data c_type.data then gemit g ("static " ++ c_type)
      else gemit g ("static const " ++ c_type)
    let g := gemit g (" " ++ name ++ " = ")
    let g := generate_expr fuel g value
    let g := gemit g ";\n"
    { g with symbol_table := g.symbol_table.insert name summit_type }
  | .structG _ => g
  | .enumG _ => g

/-- `GlobalGenerator::emit_comptime_globals` (global_generator.rs lines
26-30). -/
def emit_comptime_globals (fuel : Nat) (g : ProgramGenerator) :
    List GlobalDeclaration → ProgramGenerator
  | [] => g
  | global :: rest => emit_comptime_globals fuel (emit_global_decl fuel g global) rest

/-- `GlobalGenerator::emit_global_decls_only` (global_generator.rs lines
88-122); both `Const` branches emit `static`. -/
def emit_global_decls_only (fuel : Nat) (g : ProgramGenerator)
    (global : GlobalDeclaration) : ProgramGenerator :=
  match global with
  | .varG name var_type value =>
    let summit_type := resolve_type fuel g var_type value
    let c_type := g.map_type summit_type
    gemit g ("static " ++ c_type ++ " " ++ name ++ ";\n")
  | .constG name var_type value =>
    let summit_type := resolve_type fuel g var_type value
    let c_type := g.map_type summit_type
    gemit g ("static " ++ c_type ++ " " ++ name ++ ";\n")
  | .comptimeG _ _ _ => g
  | .structG _ => g
  | .enumG _ => g

/-- `GlobalGenerator::emit_runtime_global_decls` (global_generator.rs lines
37-41). -/
def emit_runtime_global_decls (fuel : Nat) (g : ProgramGenerator) :
    List GlobalDeclaration → ProgramGenerator
  | [] => g
  | global :: rest =>
    emit_runtime_global_decls fuel (emit_global_decls_only fuel g global) rest

/-- `GlobalGenerator::emit_global_init` (global_generator.rs lines
129-154). -/
def emit_global_init (fuel : Nat) (g : ProgramGenerator) (global : GlobalDeclaration) :
    ProgramGenerator :=
  match global with
  | .varG name _ value | .constG name _ value =>
    let g := gindent g
    let g := gemit g (name ++ " = ")
    let g := generate_expr fuel g value
    gemit g ";\n"
  | .comptimeG _ _ _ => g
  | .structG _ => g
  | .enumG _ => g

/-- The global-initialisation loop shared by `emit_global_init_function` and
`emit_synthetic_start`. -/
def emit_global_inits (fuel : Nat) (g : ProgramGenerator) :
    List GlobalDeclaration → ProgramGenerator
  | [] => g
  | global :: rest => emit_global_inits fuel (emit_global_init fuel g global) rest

/-- The field loop of `ProgramGenerator::emit_struct_defs`
(program_generator.rs lines 163-167). -/
def emit_struct_fields (g : ProgramGenerator) : List StructField → ProgramGenerator
  | [] => g
  | field :: rest =>
    let g := gindent g
    let g := gemit g (g.map_type field.field_type ++ " " ++ field.name ++ ";\n")
    emit_struct_fields g rest

/-- `ProgramGenerator::emit_struct_defs` (program_generator.rs lines
154-173). -/
def emit_struct_defs (g : ProgramGenerator) : List StructDef → ProgramGenerator
  | [] => g
  | struct_def :: rest =>
    let g := gemit g ("typedef struct " ++ struct_def.name ++ " \x7b\n")
    let g := gindent_inc g
    let g := emit_struct_fields g struct_def.fields
    let g := gindent_dec g
    let g := gemit g ("\x7d " ++ struct_def.name ++ ";\n")
    let g := gemit_line g ""
    emit_struct_defs g rest

/-- The tag loop of `ProgramGenerator::emit_enum_defs` (program_generator.rs
lines 190-193). -/
def emit_enum_tags (g : ProgramGenerator) (enum_name : String) :
    List EnumVariant → ProgramGenerator
  | [] => g
  | variant :: rest =>
    let g := gindent g
    let g := gemit g (enum_name ++ "_" ++ variant.name ++ ",\n")
    emit_enum_tags g enum_name rest

/-- The multi-payload field loop of `emit_enum_defs` (program_generator.rs
lines 221-225). -/
def emit_enum_payload_fields (g : ProgramGenerator) (payload_types : List String)
    (i : Nat) : ProgramGenerator :=
  match payload_types with
  | [] => g
  | t :: rest =>
    let g := gindent g
    let g := gemit g (g.map_type t ++ " _" ++ toString i ++ ";\n")
    emit_enum_payload_fields g rest (i + 1)

/-- The union-member loop of `emit_enum_defs` (program_generator.rs lines
212-231). -/
def emit_enum_union_members (g : ProgramGenerator) : List EnumVariant → ProgramGenerator
  | [] => g
  | variant :: rest =>
    let g := match variant.payload with
      | some payload_types =>
        let g := gindent g
        match payload_types with
        | [t] => gemit g (g.map_type t ++ " " ++ variant.name.toLower ++ ";\n")
        | _ =>
          let g := gemit g "struct \x7b\n"
          let g := gindent_inc g
          let g := emit_enum_payload_fields g payload_types 0
          let g := gindent_dec g
          let g := gindent g
          gemit g ("\x7d " ++ variant.name.toLower ++ ";\n")
      | none => g
    emit_enum_union_members g rest

/-- `ProgramGenerator::emit_enum_defs` (program_generator.rs lines 180-242);
`to_lowercase` is ASCII lowercasing on the identifiers involved. -/
def emit_enum_defs (g : ProgramGenerator) : List EnumDef → ProgramGenerator
  | [] => g
  | enum_def :: rest =>
    let g := gemit g "typedef enum \x7b\n"
    let g := gindent_inc g
    let g := emit_enum_tags g enum_def.name enum_def.variants
    let g := gindent_dec g
    let g := gemit g ("\x7d " ++ enum_def.name ++ "_Tag;\n\n")
    let g := gemit g "typedef struct \x7b\n"
    let g := gindent_inc g
    let g := gindent g
    let g := gemit g (enum_def.name ++ "_Tag tag;\n")
    let has_payloads := enum_def.variants.any (fun v => v.payload.isSome)
    let g :=
      if has_payloads then
        let g := gindent g
        let g := gemit g "union \x7b\n"
        let g := gindent_inc g
        let g := emit_enum_union_members g enum_def.variants
        let g := gindent_dec g
        let g := gindent g
        gemit g "\x7d data;\n"
      else g
    let g := gindent_dec g
    let g := gemit g ("\x7d " ++ enum_def.name ++ ";\n")
    let g := gemit_line g ""
    emit_enum_defs g rest

/-- `ProgramGenerator::identify_runtime_globals` (program_generator.rs lines
252-273). -/
def identify_runtime_globals (fuel : Nat) (acc : List String) :
    List GlobalDeclaration → List String
  | [] => acc
  | global :: rest =>
    match global with
    | .varG name _ _ => identify_runtime_globals fuel (ASet.insert acc name) rest
    | .constG name _ value =>
      if !is_compile_time_constant_expr fuel value acc then
        identify_runtime_globals fuel (ASet.insert acc name) rest
      else identify_runtime_globals fuel acc rest
    | .comptimeG _ _ _ | .structG _ | .enumG _ => identify_runtime_globals fuel acc rest

/-- `ProgramGenerator::separate_globals` (program_generator.rs lines
284-335), returning the updated generator and the comptime/runtime lists. -/
def separate_globals (fuel : Nat) (g : ProgramGenerator)
    (globals : List GlobalDeclaration) (runtime_global_names : List String)
    (comptime_acc runtime_acc : List GlobalDeclaration) :
    ProgramGenerator × List GlobalDeclaration × List GlobalDeclaration :=
  match globals with
  | [] => (g, comptime_acc, runtime_acc)
  | global :: rest =>
    match global with
    | .varG name var_type value =>
      let inferred_type :=
        match var_type with
        | some t => t
        | none => g.infer_expr_type fuel value
      let g := { g with symbol_table := g.symbol_table.insert name inferred_type,
                        mutability_table := g.mutability_table.insert name true }
      separate_globals fuel g rest runtime_global_names comptime_acc (runtime_acc ++ [global])
    | .comptimeG name var_type value =>
      let inferred_type :=
        match var_type with
        | some t => t
        | none => g.infer_expr_type fuel value
      let g := { g with symbol_table := g.symbol_table.insert name inferred_type,
                        mutability_table := g.mutability_table.insert name false }
      separate_globals fuel g rest runtime_global_names (comptime_acc ++ [global]) runtime_acc
    | .constG name var_type value =>
      let inferred_type :=
        match var_type with
        | some t => t
        | none => g.infer_expr_type fuel value
      let g := { g with symbol_table := g.symbol_table.insert name inferred_type,
                        mutability_table := g.mutability_table.insert name false }
      if runtime_global_names.contains name then
        separate_globals fuel g rest runtime_global_names comptime_acc (runtime_acc ++ [global])
      else
        separate_globals fuel g rest runtime_global_names (comptime_acc ++ [global]) runtime_acc
    | .structG _ | .enumG _ =>
      separate_globals fuel g rest runtime_global_names comptime_acc runtime_acc

/-- `ProgramGenerator::emit_headers` (program_generator.rs lines 373-376). -/
def emit_headers (g : ProgramGenerator) : ProgramGenerator :=
  gemit_line (gemit_line g "#include \"freestanding.h\"") ""

/-- `ProgramGenerator::emit_stdlib_decls` (program_generator.rs lines
382-388), delegating to the emitter-level `emit_stdlib_decls` over the
used-set in this embedding's insertion order. -/
def ProgramGenerator.emit_stdlib_decls_g (g : ProgramGenerator) : ProgramGenerator :=
  { g with emitter := Summit.emit_stdlib_decls g.emitter g.used_stdlib_functions }

/-- `ProgramGenerator::emit_global_init_function` (program_generator.rs lines
426-438). -/
def emit_global_init_function (fuel : Nat) (g : ProgramGenerator)
    (runtime_globals : List GlobalDeclaration) : ProgramGenerator :=
  let g := gemit_line g "static void __init_globals(void) \x7b"
  let g := gindent_inc g
  let g := emit_global_inits fuel g runtime_globals
  let g := gindent_dec g
  let g := gemit_line g "\x7d"
  gemit_line g ""

/-- `ProgramGenerator::emit_start_wrapper` (program_generator.rs lines
445-477). -/
def emit_start_wrapper (g : ProgramGenerator) (has_global_init : Bool) : ProgramGenerator :=
  if g.linking_libc then
    if has_global_init then
      let g := gemit_line g "// Global initializers will be called before main"
      let g := gemit_line g "// via constructor attribute or explicit call in main"
      gemit_line g ""
    else g
  else
    let g := gemit_line g "void _start(void) \x7b"
    let g := gindent_inc g
    let g := if has_global_init then gemit_line g "__init_globals();" else g
    let main_return_type := (g.function_signatures.get? "main").getD "void"
    let g :=
      if main_return_type == "void" then
        gemit_line (gemit_line g "main();") "syscall1(SYS_exit, 0);"
      else
        gemit_line (gemit_line g "int8_t exit_code = main();") "syscall1(SYS_exit, exit_code);"
    let g := gindent_dec g
    gemit_line (gemit_line g "\x7d") ""

/-- `ProgramGenerator::emit_synthetic_start` (program_generator.rs lines
485-525). -/
def emit_synthetic_start (fuel : Nat) (g : ProgramGenerator) (program : Program)
    (runtime_globals : List GlobalDeclaration) : ProgramGenerator :=
  if g.linking_libc then
    let g := gemit_line g "int main(void) \x7b"
    let g := gindent_inc g
    let g := emit_global_inits fuel g runtime_globals
    let g := generate_stmts fuel g program.statements
    let g := gemit_line g "return 0;"
    let g := gindent_dec g
    gemit_line (gemit_line g "\x7d") ""
  else
    let g := gemit_line g "void _start(void) \x7b"
    let g := gindent_inc g
    let g := emit_global_inits fuel g runtime_globals
    let g := generate_stmts fuel g program.statements
    let g := gemit_line g "syscall1(SYS_exit, 0);"
    let g := gindent_dec g
    gemit_line (gemit_line g "\x7d") ""

/-- The regular-function loop of `generate_main_or_funcs`
(program_generator.rs lines 409-413). -/
def generate_regular_funcs (fuel : Nat) (g : ProgramGenerator) :
    List Function → ProgramGenerator
  | [] => g
  | func :: rest =>
    generate_regular_funcs fuel (gemit_line (generate_func fuel g func) "") rest

/-- `ProgramGenerator::generate_main_or_funcs` (program_generator.rs lines
397-419). -/
def generate_main_or_funcs (fuel : Nat) (g : ProgramGenerator) (program : Program)
    (runtime_globals : List GlobalDeclaration) (regular_funcs : List Function) :
    ProgramGenerator :=
  let has_main := regular_funcs.any (fun f => f.name == "main")
  if !program.statements.isEmpty && !has_main then
    emit_synthetic_start fuel g program runtime_globals
  else
    let g :=
      if has_main && !runtime_globals.isEmpty then
        emit_global_init_function fuel g runtime_globals
      else g
    let g := generate_regular_funcs fuel g regular_funcs
    if has_main then emit_start_wrapper g (!runtime_globals.isEmpty) else g

/-- The struct/enum registration loop of `generate_program`
(program_generator.rs lines 81-93), returning the collected definition
lists. -/
def register_codegen_types (g : ProgramGenerator) (globals : List GlobalDeclaration)
    (structs : List StructDef) (enums : List EnumDef) :
    ProgramGenerator × List StructDef × List EnumDef :=
  match globals with
  | [] => (g, structs, enums)
  | .structG struct_def :: rest =>
    register_codegen_types
      { g with struct_defs := g.struct_defs.insert struct_def.name struct_def }
      rest (structs ++ [struct_def]) enums
  | .enumG enum_def :: rest =>
    register_codegen_types
      { g with enum_defs := g.enum_defs.insert enum_def.name enum_def }
      rest structs (enums ++ [enum_def])
  | _ :: rest => register_codegen_types g rest structs enums

/-- The external-declaration loop of `generate_program` (program_generator.rs
lines 126-129). -/
def emit_external_decls (g : ProgramGenerator) : List Function → ProgramGenerator
  | [] => g
  | func :: rest => emit_external_decls (emit_external_func_decl g func) rest

/-- The forward-declaration loop of `generate_program` (program_generator.rs
lines 135-138). -/
def emit_func_decls (g : ProgramGenerator) : List Function → ProgramGenerator
  | [] => g
  | func :: rest => emit_func_decls (emit_func_decl g func) rest

/-- `ProgramGenerator::generate_program` (program_generator.rs lines
77-147). -/
def generate_program (fuel : Nat) (g : ProgramGenerator) (program : Program) : String :=
  let (g, structs, enums) := register_codegen_types g program.globals [] []
  let fs := program.functions.foldl
    (fun (fs : AMap String String) func => fs.insert func.name func.return_type)
    g.function_signatures
  let g := { g with function_signatures := fs }
  let runtime_global_names := identify_runtime_globals fuel [] program.globals
  let (g, comptime_globals, runtime_globals) :=
    separate_globals fuel g program.globals runtime_global_names [] []
  let g := g.collect_stdlib_usage fuel program
  let g := emit_headers g
  let g := if !g.used_stdlib_functions.isEmpty then g.emit_stdlib_decls_g else g
  let g := emit_enum_defs g enums
  let g := emit_struct_defs g structs
  let g := emit_comptime_globals fuel g comptime_globals
  let g := emit_runtime_global_decls fuel g runtime_globals
  let g := if !program.globals.isEmpty then gemit_line g "" else g
  let external_funcs := program.functions.filter (fun f => f.body.isEmpty && f.abi.isSome)
  let regular_funcs := program.functions.filter (fun f => !(f.body.isEmpty && f.abi.isSome))
  let g := emit_external_decls g external_funcs
  let g := if !external_funcs.isEmpty then gemit_line g "" else g
  let g := emit_func_decls g regular_funcs
  let g := if !regular_funcs.isEmpty then gemit_line g "" else g
  let g := generate_main_or_funcs fuel g program runtime_globals regular_funcs
  g.emitter.output

/-- `generate` (generators/code_generator.rs lines 12-15). -/
def generate (fuel : Nat) (program : Program) (link_libs : List String) : String :=
  generate_program fuel (ProgramGenerator.new link_libs) program

end Codegen

/-- The in-memory core of `Compiler::compile` (compilation_pipeline.rs lines
42-63): lex, parse, analyze, generate, with the pipeline's error prefixes;
the surrounding file I/O and the gcc invocation are outside the embedding. -/
def compile_source (fuel : Nat) (link_libs : List String) (source : String) :
    Except String String :=
  match Lexer.tokenize source with
  | .error e => .error ("Lexer error: " ++ e)
  | .ok tokens =>
    match parse tokens with
    | .error e => .error ("Parser error: " ++ e)
    | .ok ast =>
      match Semantics.analyze fuel ast with
      | .error e => .error ("Semantic error: " ++ e)
      | .ok _ => .ok (Codegen.generate fuel ast link_libs)



/-! ## Concrete programs used by the C6 and C8 theorems (each is proven equal
to the parser's output in the corresponding theorem) -/

/-- The struct definition of spec example S7. -/
def s7_struct : StructDef :=
  { name := "P",
    fields := [{ name := "x", field_type := "i32" }, { name := "y", field_type := "i32" }] }

/-- The `main` function of spec example S7. -/
def s7_main : Function :=
  { name := "main", params := [], has_varargs := false, return_type := "i8", abi := none,
    body := [.varDecl "p" none (.structInit "P"
               [.mk (some "x") (.intLiteral 1), .mk (some "y") (.intLiteral 2)]),
             .fieldAssign "p" "x" (.intLiteral 3),
             .ret (.intLiteral 0)] }

/-- The AST of spec example S7. -/
def s7_program : Program :=
  { imports := [], globals := [.structG s7_struct], statements := [], functions := [s7_main] }

/-- The `const p` variant of S7's `main`. -/
def s7_const_main : Function :=
  { name := "main", params := [], has_varargs := false, return_type := "i8", abi := none,
    body := [.constDecl "p" none (.structInit "P"
               [.mk (some "x") (.intLiteral 1), .mk (some "y") (.intLiteral 2)]),
             .fieldAssign "p" "x" (.intLiteral 3),
             .ret (.intLiteral 0)] }

/-- The AST of the `const p` variant of S7. -/
def s7_const_program : Program :=
  { imports := [], globals := [.structG s7_struct], statements := [],
    functions := [s7_const_main] }

/-- The `main` of the C8 loop program: note the step is
`Unary(Negate, IntLiteral 1)`, not a bare literal. -/
def c8_main : Function :=
  { name := "main", params := [], has_varargs := false, return_type := "i8", abi := none,
    body := [.forStmt "i" (.intLiteral 10) (.intLiteral 1) true
               (some (.unary .negate (.intLiteral 1))) none [],
             .ret (.intLiteral 0)] }

/-- The AST of the C8 loop program. -/
def c8_program : Program :=
  { imports := [], globals := [], statements := [], functions := [c8_main] }

/-! ## Theorems: the claims checked against the embedding -/

/-- `types_compatible` unfolded to a proposition: same name or both members of
the ten-element integer-type list. -/
theorem types_compatible_iff (t1 t2 : String) :
    TypeCompatibility.types_compatible t1 t2 = true ↔
      t1 = t2 ∨ (TypeCompatibility.int_types.contains t1 ∧
        TypeCompatibility.int_types.contains t2) := by
  unfold TypeCompatibility.types_compatible
  by_cases h : t1 = t2
  · simp [h]
  · simp [h, beq_iff_eq]

/-- Every `can_convert` edge relates two names from the integer-type list, so
inside `check_type_compatibility` the `can_convert` branch is unreachable:
whenever it would fire, `types_compatible` has already returned `true`. -/
theorem can_convert_both_ints (a b : String) (h : TypeConversion.can_convert a b = true) :
    TypeCompatibility.int_types.contains a ∧ TypeCompatibility.int_types.contains b := by
  unfold TypeConversion.can_convert at h
  rw [List.any_eq_true] at h
  obtain ⟨p, hp, hpe⟩ := h
  rw [Bool.and_eq_true, beq_iff_eq, beq_iff_eq] at hpe
  obtain ⟨h1, h2⟩ := hpe
  subst h1; subst h2
  fin_cases hp <;> decide

/-- C1, counterexample.  The analyzer's assignment-compatibility check (the
compatibility-then-bounds sequence run for an explicitly typed declaration)
accepts assigning a non-literal expression of inferred type `i64` to a
declaration of type `u8`, although `u8 ≠ i64`, `i64` does not widen to `u8`,
and the expression is not an integer literal — contradicting the claim that no
combination outside equality/widening/fitting-literal is accepted. -/
theorem claim_C1_counterexample :
    declaration_check "u8" "i64" (.var "x") = .ok () ∧
    "u8" ≠ "i64" ∧
    TypeConversion.can_convert "i64" "u8" = false ∧
    TypeCheckerUtils.get_literal_value (.var "x") = none :=
  ⟨by decide, by decide, by decide, rfl⟩

/-- C1, amended.  For a non-literal initializer (here: a variable reference),
the analyzer's assignment-compatibility check accepts `expected := actual` iff
`expected = actual` or both names are among the ten integer types; the
widening / literal-fit restrictions of the original claim are unreachable
dead code. -/
theorem claim_C1_amended :
    ∀ expected actual name : String,
      declaration_check expected actual (.var name) = .ok () ↔
        (expected = actual ∨
          (TypeCompatibility.int_types.contains expected ∧
           TypeCompatibility.int_types.contains actual)) := by
  intro expected actual name
  rw [← types_compatible_iff]
  constructor
  · intro h
    by_cases hc : TypeCompatibility.types_compatible expected actual = true
    · exact hc
    · exfalso
      by_cases hcc : TypeConversion.can_convert actual expected = true
      · obtain ⟨h1, h2⟩ := can_convert_both_ints _ _ hcc
        exact hc ((types_compatible_iff _ _).mpr (Or.inr ⟨h2, h1⟩))
      · simp [declaration_check, TypeCompatibility.check_type_compatibility, hc, hcc,
          Bool.not_eq_true, Bind.bind, Except.bind] at h
  · intro hc
    simp [declaration_check, TypeCompatibility.check_type_compatibility, hc,
      BoundsChecker.check_expression_bounds, Bind.bind, Except.bind]

/-- C1, witness for the amended theorem at a concrete input: `u8 := i64` with
a variable initializer is accepted. -/
theorem claim_C1_amended_witness :
    declaration_check "u8" "i64" (.var "y") = .ok () :=
  (claim_C1_amended "u8" "i64" "y").mpr (Or.inr (by decide))

/-- C2.  For every representable literal value, the analyzer's
`infer_int_literal_type` returns exactly the first type in the order
`i8, u8, i16, u16, i32, u32, i64, u64, i128, u128` whose maximum is `≥ v`. -/
theorem claim_C2_literal_typing : ∀ v : Nat, v ≤ u128_max →
    (TypeInference.infer_int_literal_type v).toOption = spec_literal_first_fit v := by
  intro v hv
  unfold u128_max at hv
  by_cases h1 : v ≤ 127
  · simp [TypeInference.infer_int_literal_type, spec_literal_first_fit, literal_order,
      type_max_value, List.find?, i8_max, u8_max, i16_max, h1, Except.toOption]
  · by_cases h2 : v ≤ 255
    · simp [TypeInference.infer_int_literal_type, spec_literal_first_fit, literal_order,
        type_max_value, List.find?, i8_max, u8_max, i16_max, h1, h2,
        show v ≤ 32767 by omega, Except.toOption]
    · by_cases h3 : v ≤ 32767
      · simp [TypeInference.infer_int_literal_type, spec_literal_first_fit, literal_order,
          type_max_value, List.find?, i8_max, u8_max, i16_max, h1, h2, h3, Except.toOption]
      · by_cases h4 : v ≤ 65535
        · simp [TypeInference.infer_int_literal_type, spec_literal_first_fit, literal_order,
            type_max_value, List.find?, i8_max, u8_max, i16_max, u16_max, i32_max, h1, h2, h3, h4,
            show v ≤ 2147483647 by omega, Except.toOption]
        · by_cases h5 : v ≤ 2147483647
          · simp [TypeInference.infer_int_literal_type, spec_literal_first_fit, literal_order,
              type_max_value, List.find?, i8_max, u8_max, i16_max, u16_max, i32_max, h1, h2, h3,
              h4, h5, Except.toOption]
          · by_cases h6 : v ≤ 4294967295
            · simp [TypeInference.infer_int_literal_type, spec_literal_first_fit, literal_order,
                type_max_value, List.find?, i8_max, u8_max, i16_max, u16_max, i32_max, u32_max,
                i64_max, h1, h2, h3, h4, h5, h6, show v ≤ 9223372036854775807 by omega,
                Except.toOption]
            · by_cases h7 : v ≤ 9223372036854775807
              · simp [TypeInference.infer_int_literal_type, spec_literal_first_fit, literal_order,
                  type_max_value, List.find?, i8_max, u8_max, i16_max, u16_max, i32_max, u32_max,
                  i64_max, h1, h2, h3, h4, h5, h6, h7, Except.toOption]
              · by_cases h8 : v ≤ 18446744073709551615
                · simp [TypeInference.infer_int_literal_type, spec_literal_first_fit,
                    literal_order, type_max_value, List.find?, i8_max, u8_max, i16_max, u16_max,
                    i32_max, u32_max, i64_max, u64_max, h1, h2, h3, h4, h5, h6, h7, h8,
                    Except.toOption]
                · by_cases h9 : v ≤ 170141183460469231731687303715884105727
                  · simp [TypeInference.infer_int_literal_type, spec_literal_first_fit,
                      literal_order, type_max_value, List.find?, i8_max, u8_max, i16_max, u16_max,
                      i32_max, u32_max, i64_max, u64_max, i128_max, h1, h2, h3, h4, h5, h6, h7,
                      h8, h9, Except.toOption]
                  · simp [TypeInference.infer_int_literal_type, spec_literal_first_fit,
                      literal_order, type_max_value, List.find?, i8_max, u8_max, i16_max, u16_max,
                      i32_max, u32_max, i64_max, u64_max, i128_max, u128_max, h1, h2, h3, h4, h5,
                      h6, h7, h8, h9, show v ≤ 340282366920938463463374607431768211455 by omega,
                      Except.toOption]

/-- C2, witness at `v = 300` (first fit is `i16`). -/
theorem claim_C2_witness :
    (TypeInference.infer_int_literal_type 300).toOption = spec_literal_first_fit 300 :=
  claim_C2_literal_typing 300 (by decide)

/-- C3, counterexample.  The code generator's literal-typing function
(`TypeUtils::infer_int_literal_type`) and the analyzer's disagree already at 0
(`i64` vs `i8`), and the two `wider_type` implementations disagree on the pair
`(i8, u8)` (analyzer: signed tie-break to `i8`; emitter: priority order picks
`u8`). -/
theorem claim_C3_counterexample :
    TypeUtils.infer_int_literal_type 0 = "i64" ∧
    TypeInference.infer_int_literal_type 0 = .ok "i8" ∧
    TypeCheckerUtils.wider_type "i8" "u8" = "i8" ∧
    CodegenTypeInference.wider_type "i8" "u8" = "u8" :=
  ⟨by decide, by decide, by decide, by decide⟩

/-- C3, amended.  The two integer-literal typing functions agree exactly on
values in `(u32::MAX, u64::MAX]` and `(i128::MAX, u128::MAX]`; the two
`wider_type` implementations agree on a pair of the eleven type names exactly
when the pair is not one of the eleven `wider_disagreements` pairs. -/
theorem claim_C3_amended :
    (∀ v : Nat, v ≤ u128_max →
      ((TypeInference.infer_int_literal_type v).toOption =
          some (TypeUtils.infer_int_literal_type v) ↔
        ((u32_max < v ∧ v ≤ u64_max) ∨ i128_max < v))) ∧
    ((CodegenTypeInference.type_priority.all fun t1 =>
        CodegenTypeInference.type_priority.all fun t2 =>
          (TypeCheckerUtils.wider_type t1 t2 == CodegenTypeInference.wider_type t1 t2) ==
            !(wider_disagreements.contains (t1, t2))) = true) := by
  constructor
  · intro v hv
    unfold TypeInference.infer_int_literal_type TypeUtils.infer_int_literal_type
      u128_max i8_max u8_max i16_max u16_max i32_max u32_max i64_max u64_max i128_max at *
    split_ifs <;> simp_all [Except.toOption] <;> omega
  · decide

/-- C3, witness for the quantified part at `v = 5000000000` (inside the
agreement region, both give `i64`). -/
theorem claim_C3_amended_witness :
    (TypeInference.infer_int_literal_type 5000000000).toOption =
      some (TypeUtils.infer_int_literal_type 5000000000) :=
  (claim_C3_amended.1 5000000000 (by decide)).mpr (Or.inl ⟨by decide, by decide⟩)

/-- C7, counterexample.  The analyzer's `wider_type` is not commutative on the
pair `(u8, bool)` (both types have bit width 8), so commutativity fails on the
set "bool plus the ten integer type names"; moreover on the equal-width pair
`(i8, u8)` the emitter's `wider_type` returns the unsigned side, so the
"ties resolve to the signed side" part fails for the emitter. -/
theorem claim_C7_counterexample :
    TypeCheckerUtils.wider_type "u8" "bool" = "bool" ∧
    TypeCheckerUtils.wider_type "bool" "u8" = "u8" ∧
    TypeCheckerUtils.get_type_size "u8" = TypeCheckerUtils.get_type_size "bool" ∧
    CodegenTypeInference.wider_type "i8" "u8" = "u8" ∧
    TypeCheckerUtils.get_type_size "i8" = TypeCheckerUtils.get_type_size "u8" ∧
    TypeCheckerUtils.is_signed "u8" = false :=
  ⟨by decide, by decide, by decide, by decide, by decide, by decide⟩


set_option maxHeartbeats 2000000 in
/-- C7, amended.  Over bool plus the ten integer type names: both `wider_type`
implementations are associative and monotone in each argument with respect to
bit width; the emitter's is commutative on all eleven names; the analyzer's is
commutative except on the pair `(u8, bool)`/`(bool, u8)`; on equal-width
distinct integer pairs the analyzer returns the signed side while the emitter
returns the unsigned side. -/
theorem claim_C7_amended :
    ((bool_and_ints.all fun a => bool_and_ints.all fun b => bool_and_ints.all fun c =>
        TypeCheckerUtils.wider_type (TypeCheckerUtils.wider_type a b) c ==
          TypeCheckerUtils.wider_type a (TypeCheckerUtils.wider_type b c)) = true) ∧
    ((bool_and_ints.all fun a => bool_and_ints.all fun b => bool_and_ints.all fun c =>
        CodegenTypeInference.wider_type (CodegenTypeInference.wider_type a b) c ==
          CodegenTypeInference.wider_type a (CodegenTypeInference.wider_type b c)) = true) ∧
    ((bool_and_ints.all fun a => bool_and_ints.all fun b =>
        CodegenTypeInference.wider_type a b == CodegenTypeInference.wider_type b a) = true) ∧
    ((bool_and_ints.all fun a => bool_and_ints.all fun b =>
        (TypeCheckerUtils.wider_type a b == TypeCheckerUtils.wider_type b a) ==
          !((a, b) == ("u8", "bool") || (a, b) == ("bool", "u8"))) = true) ∧
    ((bool_and_ints.all fun a => bool_and_ints.all fun a2 => bool_and_ints.all fun b =>
        !(decide (TypeCheckerUtils.get_type_size a ≤ TypeCheckerUtils.get_type_size a2)) ||
          (decide (TypeCheckerUtils.get_type_size (TypeCheckerUtils.wider_type a b) ≤
              TypeCheckerUtils.get_type_size (TypeCheckerUtils.wider_type a2 b)) &&
           decide (TypeCheckerUtils.get_type_size (TypeCheckerUtils.wider_type b a) ≤
              TypeCheckerUtils.get_type_size (TypeCheckerUtils.wider_type b a2)))) = true) ∧
    ((bool_and_ints.all fun a => bool_and_ints.all fun a2 => bool_and_ints.all fun b =>
        !(decide (TypeCheckerUtils.get_type_size a ≤ TypeCheckerUtils.get_type_size a2)) ||
          (decide (TypeCheckerUtils.get_type_size (CodegenTypeInference.wider_type a b) ≤
              TypeCheckerUtils.get_type_size (CodegenTypeInference.wider_type a2 b)) &&
           decide (TypeCheckerUtils.get_type_size (CodegenTypeInference.wider_type b a) ≤
              TypeCheckerUtils.get_type_size (CodegenTypeInference.wider_type b a2)))) = true) ∧
    ((ten_int_types.all fun a => ten_int_types.all fun b =>
        !(decide (TypeCheckerUtils.get_type_size a = TypeCheckerUtils.get_type_size b) &&
            !(a == b)) ||
          (TypeCheckerUtils.is_signed (TypeCheckerUtils.wider_type a b) &&
           TypeCheckerUtils.is_signed (TypeCheckerUtils.wider_type b a))) = true) ∧
    ((ten_int_types.all fun a => ten_int_types.all fun b =>
        !(decide (TypeCheckerUtils.get_type_size a = TypeCheckerUtils.get_type_size b) &&
            !(a == b)) ||
          (!(TypeCheckerUtils.is_signed (CodegenTypeInference.wider_type a b)) &&
           !(TypeCheckerUtils.is_signed (CodegenTypeInference.wider_type b a)))) = true) :=
  ⟨by decide, by decide, by decide, by decide, by decide, by decide, by decide, by decide⟩

theorem replace2_cons_ne (a b r c : Char) (x : List Char) (h : (c == a) = false) :
    replace2 a b r (c :: x) = c :: replace2 a b r x := by
  match x with
  | [] => simp [replace2]
  | y :: ys => simp [replace2, h]

theorem replace2_pair_ne (a b r c2 : Char) (x : List Char) (h : (c2 == b) = false) :
    replace2 a b r (a :: c2 :: x) = a :: replace2 a b r (c2 :: x) := by
  simp [replace2, h]

theorem replace2_pair_eq (a b r : Char) (x : List Char) :
    replace2 a b r (a :: b :: x) = r :: replace2 a b r x := by
  simp [replace2]

theorem chain_cons_n (y : List Char) :
    process_escapes_chars ('\\' :: 'n' :: y) = '\n' :: process_escapes_chars y := by
  unfold process_escapes_chars
  rw [replace2_pair_eq '\\' 'n' '\n' y,
    replace2_cons_ne '\\' 't' '\t' '\n' _ (by decide),
    replace2_cons_ne '\\' 'r' '\r' '\n' _ (by decide),
    replace2_cons_ne '\\' '\\' '\\' '\n' _ (by decide),
    replace2_cons_ne '\\' '"' '"' '\n' _ (by decide)]

theorem chain_cons_t (y : List Char) :
    process_escapes_chars ('\\' :: 't' :: y) = '\t' :: process_escapes_chars y := by
  unfold process_escapes_chars
  rw [replace2_pair_ne '\\' 'n' '\n' 't' y (by decide),
    replace2_cons_ne '\\' 'n' '\n' 't' y (by decide),
    replace2_pair_eq '\\' 't' '\t' _,
    replace2_cons_ne '\\' 'r' '\r' '\t' _ (by decide),
    replace2_cons_ne '\\' '\\' '\\' '\t' _ (by decide),
    replace2_cons_ne '\\' '"' '"' '\t' _ (by decide)]

theorem chain_cons_r (y : List Char) :
    process_escapes_chars ('\\' :: 'r' :: y) = '\r' :: process_escapes_chars y := by
  unfold process_escapes_chars
  rw [replace2_pair_ne '\\' 'n' '\n' 'r' y (by decide),
    replace2_cons_ne '\\' 'n' '\n' 'r' y (by decide),
    replace2_pair_ne '\\' 't' '\t' 'r' _ (by decide),
    replace2_cons_ne '\\' 't' '\t' 'r' _ (by decide),
    replace2_pair_eq '\\' 'r' '\r' _,
    replace2_cons_ne '\\' '\\' '\\' '\r' _ (by decide),
    replace2_cons_ne '\\' '"' '"' '\r' _ (by decide)]

theorem chain_cons_q (y : List Char) :
    process_escapes_chars ('\\' :: '"' :: y) = '"' :: process_escapes_chars y := by
  unfold process_escapes_chars
  rw [replace2_pair_ne '\\' 'n' '\n' '"' y (by decide),
    replace2_cons_ne '\\' 'n' '\n' '"' y (by decide),
    replace2_pair_ne '\\' 't' '\t' '"' _ (by decide),
    replace2_cons_ne '\\' 't' '\t' '"' _ (by decide),
    replace2_pair_ne '\\' 'r' '\r' '"' _ (by decide),
    replace2_cons_ne '\\' 'r' '\r' '"' _ (by decide),
    replace2_pair_ne '\\' '\\' '\\' '"' _ (by decide),
    replace2_cons_ne '\\' '\\' '\\' '"' _ (by decide),
    replace2_pair_eq '\\' '"' '"' _]

theorem chain_cons_plain (c : Char) (y : List Char) (h : (c == '\\') = false) :
    process_escapes_chars (c :: y) = c :: process_escapes_chars y := by
  unfold process_escapes_chars
  rw [replace2_cons_ne '\\' 'n' '\n' c y h,
    replace2_cons_ne '\\' 't' '\t' c _ h,
    replace2_cons_ne '\\' 'r' '\r' c _ h,
    replace2_cons_ne '\\' '\\' '\\' c _ h,
    replace2_cons_ne '\\' '"' '"' c _ h]

theorem decode_cons_esc (c2 : Char) (y : List Char) :
    decode_escapes ('\\' :: c2 :: y) = escape_byte c2 :: decode_escapes y := rfl

theorem decode_cons_plain (c : Char) (y : List Char) (h : (c == '\\') = false) :
    decode_escapes (c :: y) = c :: decode_escapes y := by
  rw [decode_escapes.eq_def]
  simp [h]

theorem emit_cons_plain (c : Char) (z : List Char)
    (hn : (c == '\n') = false) (ht : (c == '\t') = false) (hr : (c == '\r') = false)
    (hq : (c == '"') = false) (hb : (c == '\\') = false) :
    emit_string_literal_chars (c :: z) = c :: emit_string_literal_chars z := by
  unfold emit_string_literal_chars
  split <;> simp_all <;> rw [emit_string_literal_chars.eq_def]

theorem chain_eq_decode : ∀ n (x : List Char), x.length ≤ n → good_body x = true →
    process_escapes_chars x = decode_escapes x := by
  intro n
  induction n with
  | zero =>
    intro x hx _
    have hx0 : x = [] := by cases x <;> simp_all
    subst hx0; rfl
  | succ n IH =>
    intro x hx hg
    match x with
    | [] => rfl
    | c :: rest =>
      by_cases hc : c = '\\'
      · subst hc
        match rest with
        | [] => simp [good_body] at hg
        | c2 :: rest2 =>
          have hx2 : rest2.length ≤ n := by simp at hx; omega
          have hg' : escape_letter c2 = true ∧ good_body rest2 = true := by
            simpa [good_body] using hg
          have hrec := IH rest2 hx2 hg'.2
          have hletter := hg'.1
          rw [decode_cons_esc]
          by_cases hn : c2 = 'n'
          · subst hn; rw [chain_cons_n, hrec]; rfl
          · by_cases ht : c2 = 't'
            · subst ht; rw [chain_cons_t, hrec]; rfl
            · by_cases hr : c2 = 'r'
              · subst hr; rw [chain_cons_r, hrec]; rfl
              · have hq : c2 = '"' := by
                  unfold escape_letter at hletter
                  simp [hn, ht, hr] at hletter
                  exact hletter
                subst hq; rw [chain_cons_q, hrec]; rfl
      · have hcb : (c == '\\') = false := by simp [hc]
        have hg' : good_body rest = true := by
          unfold good_body at hg
          rw [if_neg (by simp [hc])] at hg
          exact (Bool.and_eq_true_iff.mp hg).2
        have hx2 : rest.length ≤ n := by simp at hx; omega
        rw [chain_cons_plain _ _ hcb, decode_cons_plain _ _ hcb, IH rest hx2 hg']

theorem emit_decode : ∀ n (x : List Char), x.length ≤ n → good_body x = true →
    emit_string_literal_chars (decode_escapes x) = x := by
  intro n
  induction n with
  | zero =>
    intro x hx _
    have hx0 : x = [] := by cases x <;> simp_all
    subst hx0; rfl
  | succ n IH =>
    intro x hx hg
    match x with
    | [] => rfl
    | c :: rest =>
      by_cases hc : c = '\\'
      · subst hc
        match rest with
        | [] => simp [good_body] at hg
        | c2 :: rest2 =>
          have hx2 : rest2.length ≤ n := by simp at hx; omega
          have hg' : escape_letter c2 = true ∧ good_body rest2 = true := by
            simpa [good_body] using hg
          have hrec := IH rest2 hx2 hg'.2
          have hletter := hg'.1
          rw [decode_cons_esc]
          by_cases hn : c2 = 'n'
          · subst hn
            rw [show escape_byte 'n' = '\n' from rfl,
              show emit_string_literal_chars ('\n' :: decode_escapes rest2) =
                ['\\', 'n'] ++ emit_string_literal_chars (decode_escapes rest2) from rfl, hrec]
            rfl
          · by_cases ht : c2 = 't'
            · subst ht
              rw [show escape_byte 't' = '\t' from rfl,
                show emit_string_literal_chars ('\t' :: decode_escapes rest2) =
                  ['\\', 't'] ++ emit_string_literal_chars (decode_escapes rest2) from rfl, hrec]
              rfl
            · by_cases hr : c2 = 'r'
              · subst hr
                rw [show escape_byte 'r' = '\r' from rfl,
                  show emit_string_literal_chars ('\r' :: decode_escapes rest2) =
                    ['\\', 'r'] ++ emit_string_literal_chars (decode_escapes rest2) from rfl, hrec]
                rfl
              · have hq : c2 = '"' := by
                  unfold escape_letter at hletter
                  simp [hn, ht, hr] at hletter
                  exact hletter
                subst hq
                rw [show escape_byte '"' = '"' from rfl,
                  show emit_string_literal_chars ('"' :: decode_escapes rest2) =
                    ['\\', '"'] ++ emit_string_literal_chars (decode_escapes rest2) from rfl, hrec]
                rfl
      · have hcb : (c == '\\') = false := by simp [hc]
        have hgand : (!(c == '\n' || c == '\t' || c == '\r' || c == '"')) = true ∧
            good_body rest = true := by
          unfold good_body at hg
          rw [if_neg (by simp [hc])] at hg
          exact Bool.and_eq_true_iff.mp hg
        have hx2 : rest.length ≤ n := by simp at hx; omega
        have h1 := hgand.1
        simp only [Bool.not_eq_true', Bool.or_eq_false_iff] at h1
        obtain ⟨⟨⟨hn', ht'⟩, hr'⟩, hq'⟩ := h1
        rw [decode_cons_plain _ _ hcb, emit_cons_plain c _ hn' ht' hr' hq' hcb,
          IH rest hx2 hgand.2]

/-- C9, amended.  `process_escapes` is the sequential five-pass replacement
(so an escape pair's meaning can depend on surrounding text); on bodies in
which every backslash starts one of the non-interacting pairs `\n`, `\t`,
`\r`, `\"` and no raw newline/tab/carriage-return/quote byte occurs, the
passes act as the independent per-pair decoding, and emitting the lexed value
with `emit_string_literal` reproduces the original quoted source text. -/
theorem claim_C9_amended : ∀ body : List Char, good_body body = true →
    process_escapes_chars body = decode_escapes body ∧
    emit_string_literal (process_escapes (String.mk body)) =
      String.mk ('"' :: (body ++ ['"'])) := by
  intro body h
  have h1 : process_escapes_chars body = decode_escapes body :=
    chain_eq_decode body.length body (Nat.le_refl _) h
  have h2 : emit_string_literal_chars (decode_escapes body) = body :=
    emit_decode body.length body (Nat.le_refl _) h
  refine ⟨h1, ?_⟩
  show ("\"" ++ String.mk (emit_string_literal_chars (process_escapes_chars body)) ++ "\"") = _
  rw [h1, h2]
  rfl

/-- C9, witness: the body `a\nb` decodes to `a`, newline, `b` and round-trips
back to the quoted source text. -/
theorem claim_C9_witness :
    process_escapes_chars ['a', '\\', 'n', 'b'] = decode_escapes ['a', '\\', 'n', 'b'] ∧
    emit_string_literal (process_escapes (String.mk ['a', '\\', 'n', 'b'])) =
      String.mk ('"' :: (['a', '\\', 'n', 'b'] ++ ['"'])) :=
  claim_C9_amended ['a', '\\', 'n', 'b'] (by decide)

/-- C9, counterexample.  The source body `\\n` (backslash, backslash, `n`)
is translated by the lexer to backslash-newline, not to backslash-`n` as the
claim states, and emitting the lexed value does not reproduce the original
quoted source text. -/
theorem claim_C9_counterexample :
    process_escapes "\\\\n" = "\\\n" ∧
    process_escapes "\\\\n" ≠ "\\n" ∧
    emit_string_literal (process_escapes "\\\\n") ≠ "\"\\\\n\"" :=
  ⟨by decide, by decide, by decide⟩

/-- C4.  `emit_stdlib_decls` emits the declarations in hash-set iteration
order without sorting: two iteration orders of the same two-element used set
produce different output bytes, and the order that Rust's randomized hash
seed can produce at any run emits `println` before `print`, which is not the
sorted order the claim asserts. -/
theorem claim_C4_unsorted_emission :
    List.Perm ["sm_std_io_print", "sm_std_io_println"]
      ["sm_std_io_println", "sm_std_io_print"] ∧
    (emit_stdlib_decls CEmitter.new ["sm_std_io_print", "sm_std_io_println"]).output ≠
      (emit_stdlib_decls CEmitter.new ["sm_std_io_println", "sm_std_io_print"]).output ∧
    (emit_stdlib_decls CEmitter.new ["sm_std_io_println", "sm_std_io_print"]).output =
      "void sm_std_io_println(const char* s);\nvoid sm_std_io_print(const char* s);\n\n" :=
  ⟨by decide, by decide, by decide⟩

/-- Shared fact for C5: the compatibility check accepts any pair of the ten
integer type names (`types_compatible` is already true), so for such pairs the
conversion/truncation branches are dead and `declaration_check` reduces to the
bounds check. -/
theorem compat_ok_of_both_ints (expected actual : String) (e : Expression)
    (h1 : TypeCompatibility.int_types.contains expected = true)
    (h2 : TypeCompatibility.int_types.contains actual = true) :
    TypeCompatibility.check_type_compatibility expected actual e = .ok () := by
  have hc : TypeCompatibility.types_compatible expected actual = true :=
    (types_compatible_iff expected actual).mpr (Or.inr ⟨h1, h2⟩)
  simp [TypeCompatibility.check_type_compatibility, hc]

set_option maxRecDepth 100000 in
/-- C5, counterexample.  The claim quantifies over initializer *and return*
expressions, but the analyzer's return path never runs the bounds checker: it
runs the conversion chain, which rejects `ret 100` in a function returning
`u8` (inferred literal type `i8`, same size but different signedness) even
though `100 ≤ MAX(u8) = 255` — while the very same literal is accepted as an
initializer checked against an explicit `u8`. -/
theorem claim_C5_counterexample :
    (Lexer.tokenize "func f(): u8 \x7b ret 100; \x7d func main(): i8 \x7b ret 0; \x7d" >>=
        fun ts => parse ts >>= fun p => Semantics.analyze 1000 p) =
      .error "Function 'f': return type mismatch. Cannot implicitly convert 'i8' to 'u8' (same size but different signedness)" ∧
    100 ≤ type_max_value "u8" ∧
    declaration_check "u8" "i8" (.intLiteral 100) = .ok () :=
  ⟨by rfl, by decide, by rfl⟩

set_option maxRecDepth 100000 in
/-- C5, amended.  For an *initializer* checked against an explicit integer
type `T` the claimed characterization holds: an integer literal `v` passes
the bounds check iff `v ≤ MAX(T)` (`bool` accepts only `0` and `1`), a
negated literal `-v` passes iff `T` is signed and `v ≤ -MIN(T)` and never
for unsigned `T`, a boolean literal passes only against `bool`, and for
integer `T` the full declaration check accepts exactly when the bounds check
does; the program `const X: u8 = 300;` fails with exactly the claimed
message.  (Return expressions are *not* covered: see the counterexample.) -/
theorem claim_C5_amended :
    (∀ T, T ∈ ten_int_types → ∀ v : Nat, v ≤ u128_max →
      (BoundsChecker.check_expression_bounds (.intLiteral v) T = .ok () ↔
        v ≤ type_max_value T)) ∧
    (∀ v : Nat,
      BoundsChecker.check_expression_bounds (.intLiteral v) "bool" = .ok () ↔ v ≤ 1) ∧
    (∀ T, T ∈ signed_int_types → ∀ v : Nat,
      (BoundsChecker.check_expression_bounds (.unary .negate (.intLiteral v)) T = .ok () ↔
        v ≤ type_min_magnitude T)) ∧
    (∀ T, T ∈ unsigned_int_types → ∀ v : Nat,
      BoundsChecker.check_expression_bounds (.unary .negate (.intLiteral v)) T ≠ .ok ()) ∧
    (∀ (T : String) (b : Bool),
      BoundsChecker.check_expression_bounds (.boolLiteral b) T = .ok () ↔ T = "bool") ∧
    (∀ (T actual : String) (v : Nat), TypeCompatibility.int_types.contains T = true →
      TypeCompatibility.int_types.contains actual = true →
      (declaration_check T actual (.intLiteral v) = .ok () ↔
        BoundsChecker.check_expression_bounds (.intLiteral v) T = .ok ())) ∧
    (Lexer.tokenize "const X: u8 = 300;" >>= fun ts => parse ts >>=
        fun p => Semantics.analyze 1000 p) =
      .error "Integer literal 300 exceeds maximum value for type 'u8' (maximum: 255)" := by
  refine ⟨?_, ?_, ?_, ?_, ?_, ?_, ?_⟩
  · intro T hT v hv
    have hv' : v ≤ 340282366920938463463374607431768211455 := hv
    fin_cases hT <;>
      simp [BoundsChecker.check_expression_bounds, BoundsChecker.check_literal_bounds,
        type_max_value, i8_max, u8_max, i16_max, u16_max, i32_max, u32_max, i64_max,
        u64_max, i128_max, u128_max] <;> omega
  · intro v
    simp [BoundsChecker.check_expression_bounds, BoundsChecker.check_literal_bounds]
  · intro T hT v
    fin_cases hT <;>
      simp [BoundsChecker.check_expression_bounds,
        BoundsChecker.check_negative_literal_bounds, type_min_magnitude]
  · intro T hT v
    fin_cases hT <;>
      simp [BoundsChecker.check_expression_bounds,
        BoundsChecker.check_negative_literal_bounds]
  · intro T b
    by_cases h : T = "bool" <;>
      simp [BoundsChecker.check_expression_bounds, h]
  · intro T actual v h1 h2
    simp [declaration_check, compat_ok_of_both_ints T actual (Expression.intLiteral v) h1 h2,
      Bind.bind, Except.bind]
  · rfl

/-- C5, witness for the amended theorem at concrete inputs: `200` fits `u8`,
`-128` fits `i8`, and `-1` is rejected against `u8`. -/
theorem claim_C5_amended_witness :
    BoundsChecker.check_expression_bounds (.intLiteral 200) "u8" = .ok () ∧
    BoundsChecker.check_expression_bounds (.unary .negate (.intLiteral 128)) "i8" = .ok () ∧
    BoundsChecker.check_expression_bounds (.unary .negate (.intLiteral 1)) "u8" ≠ .ok () :=
  ⟨(claim_C5_amended.1 "u8" (by decide) 200 (by decide)).mpr (by decide),
   (claim_C5_amended.2.2.1 "i8" (by decide) 128).mpr (by decide),
   claim_C5_amended.2.2.2.1 "u8" (by decide) 1⟩

set_option maxRecDepth 100000 in
set_option maxHeartbeats 4000000 in
/-- C6.  The program S7 `struct P \x7b x: i32, y: i32 \x7d func main(): i8
\x7b var p = P \x7b x: 1, y: 2 \x7d; p.x = 3; ret 0; \x7d` passes the
lexer, parser and analyzer, and the C the emitter generates for it contains
both `(P)\x7b .x = 1, .y = 2 \x7d` and `p.x = 3;`; the `const p` variant
parses to the same program with `constDecl` in place of `varDecl` and is
rejected by the analyzer with the field-mutation error (so `compile_source`
fails on it with that message behind its "Semantic error: " prefix, the
code generator never being reached). -/
theorem claim_C6_struct_roundtrip :
    (Lexer.tokenize "struct P \x7b x: i32, y: i32 \x7d func main(): i8 \x7b var p = P \x7b x: 1, y: 2 \x7d; p.x = 3; ret 0; \x7d" >>=
        fun ts => parse ts) = .ok s7_program ∧
    Semantics.analyze 1000 s7_program = .ok () ∧
    occurs "(P)\x7b .x = 1, .y = 2 \x7d" (Codegen.generate 40 s7_program []) = true ∧
    occurs "p.x = 3;" (Codegen.generate 40 s7_program []) = true ∧
    (Lexer.tokenize "struct P \x7b x: i32, y: i32 \x7d func main(): i8 \x7b const p = P \x7b x: 1, y: 2 \x7d; p.x = 3; ret 0; \x7d" >>=
        fun ts => parse ts) = .ok s7_const_program ∧
    Semantics.analyze 1000 s7_const_program =
      .error "Cannot assign to field 'x' of immutable variable 'p'. Use 'var' instead of 'const' or 'comptime' to make it mutable" :=
  ⟨by rfl, by rfl, by decide, by decide, by rfl, by rfl⟩

set_option maxRecDepth 100000 in
set_option maxHeartbeats 4000000 in
/-- C8, counterexample.  For `for var i in 10 through 1 by -1` the generated
while condition uses `<=`, not the `>=` the claim asserts: the parser turns
`-1` into `Unary(Negate, IntLiteral 1)` (visible in `c8_program`), which is
not a bare integer literal, so the emitter's literal-sign test falls through
to the positive default.  No `>=` occurs anywhere in the generated C. -/
theorem claim_C8_counterexample :
    (Lexer.tokenize "func main(): i8 \x7b for var i in 10 through 1 by -1 \x7b \x7d ret 0; \x7d" >>=
        fun ts => parse ts) = .ok c8_program ∧
    Semantics.analyze 1000 c8_program = .ok () ∧
    occurs "while (i <= 1)" (Codegen.generate 40 c8_program []) = true ∧
    occurs ">=" (Codegen.generate 40 c8_program []) = false :=
  ⟨by rfl, by rfl, by decide, by decide⟩

set_option maxRecDepth 100000 in
set_option maxHeartbeats 4000000 in
/-- C8, amended.  The hoisted-while comparison operator is chosen by the sign
of the step only when the step is a *bare* integer literal, where "negative"
means the literal's `u128` value cast to `i64` is non-positive: a literal step
whose cast is positive yields `<=`/`<`, a literal step whose cast is
non-positive (e.g. `u128::MAX`, which casts to `-1`) yields `>=`/`>`, and
every non-literal step — including the parsed form of `-1`, a unary negation —
and a missing step default to `<=`/`<`. -/
theorem claim_C8_amended :
    (Codegen.emit_complex_for_loop 100 (Codegen.ProgramGenerator.new []) "i"
        (.intLiteral 0) (.intLiteral 9) true (some (.intLiteral 2)) none []
        "int64_t").emitter.output =
      "\x7b\n    int64_t i = 0;\n    while (i <= 9) \x7b\n        i += 2;\n    \x7d\n\x7d\n" ∧
    (Codegen.emit_complex_for_loop 100 (Codegen.ProgramGenerator.new []) "i"
        (.intLiteral 0) (.intLiteral 9) false (some (.intLiteral 2)) none []
        "int64_t").emitter.output =
      "\x7b\n    int64_t i = 0;\n    while (i < 9) \x7b\n        i += 2;\n    \x7d\n\x7d\n" ∧
    (Codegen.emit_complex_for_loop 100 (Codegen.ProgramGenerator.new []) "i"
        (.intLiteral 0) (.intLiteral 9) true
        (some (.intLiteral 340282366920938463463374607431768211455)) none []
        "int64_t").emitter.output =
      "\x7b\n    int64_t i = 0;\n    while (i >= 9) \x7b\n        i += ((unsigned __int128)18446744073709551615ULL << 64 | 18446744073709551615ULL);\n    \x7d\n\x7d\n" ∧
    (Codegen.emit_complex_for_loop 100 (Codegen.ProgramGenerator.new []) "i"
        (.intLiteral 0) (.intLiteral 9) false
        (some (.intLiteral 18446744073709551615)) none []
        "int64_t").emitter.output =
      "\x7b\n    int64_t i = 0;\n    while (i > 9) \x7b\n        i += 18446744073709551615ULL;\n    \x7d\n\x7d\n" ∧
    (Codegen.emit_complex_for_loop 100 (Codegen.ProgramGenerator.new []) "i"
        (.intLiteral 0) (.intLiteral 9) true
        (some (.unary .negate (.intLiteral 1))) none [] "int64_t").emitter.output =
      "\x7b\n    int64_t i = 0;\n    while (i <= 9) \x7b\n        i += (-1);\n    \x7d\n\x7d\n" ∧
    (Codegen.emit_complex_for_loop 100 (Codegen.ProgramGenerator.new []) "i"
        (.intLiteral 0) (.intLiteral 9) true (some (.var "s")) none []
        "int64_t").emitter.output =
      "\x7b\n    int64_t i = 0;\n    while (i <= 9) \x7b\n        i += s;\n    \x7d\n\x7d\n" ∧
    (Codegen.emit_complex_for_loop 100 (Codegen.ProgramGenerator.new []) "i"
        (.intLiteral 0) (.intLiteral 9) true none none [] "int64_t").emitter.output =
      "\x7b\n    int64_t i = 0;\n    while (i <= 9) \x7b\n        i += 1;\n    \x7d\n\x7d\n" :=
  ⟨by rfl, by rfl, by rfl, by rfl, by rfl, by rfl, by rfl⟩

set_option maxRecDepth 100000 in
/-- C10, counterexample.  The never-mutated check exists only inside
`analyze_func`: the top-level program `var x = 1; 1;` declares a top-level
`var x` that is never assigned anywhere, yet the analyzer accepts it — the
top-level path runs only `validate_mutations`, which checks writes to
immutables, never unused mutability. -/
theorem claim_C10_counterexample :
    (Lexer.tokenize "var x = 1; 1;" >>= fun ts => parse ts) =
      .ok { imports := [], globals := [.varG "x" none (.intLiteral 1)],
            statements := [.exprStmt (.intLiteral 1)], functions := [] } ∧
    (Lexer.tokenize "var x = 1; 1;" >>= fun ts => parse ts >>=
        fun p => Semantics.analyze 1000 p) = .ok () :=
  ⟨by rfl, by rfl⟩

/-- C10, amended.  The per-function half of the claim holds, order-insensitively:
whenever `analyze_func` accepts a function and the mutation collector returns
`(mutations, var_declarations)` for its body, every name declared with `var`
(mutable = true) appears in the collected mutation set, i.e. it has at least
one assignment or field assignment somewhere in the body. -/
theorem claim_C10_amended :
    ∀ (fuel : Nat) (a : Semantics.SemanticAnalyzer) (func : Function)
      (mutations : List String) (var_declarations : AMap String Bool),
      Semantics.collect_mutations_list fuel func.body [] [] =
        .ok (mutations, var_declarations) →
      Semantics.analyze_func fuel a func = .ok () →
      ∀ name : String, (name, true) ∈ var_declarations →
        mutations.contains name = true := by
  intro fuel a func mutations var_declarations hc h name hmem
  unfold Semantics.analyze_func at h
  rw [hc] at h
  simp only [Bind.bind, Except.bind] at h
  cases hfind : var_declarations.find? (fun nv => nv.2 && !mutations.contains nv.1) with
  | some nv => rw [hfind] at h; simp [Except.bind] at h
  | none =>
    have hall := List.find?_eq_none.mp hfind (name, true) hmem
    simpa using hall

set_option maxRecDepth 100000 in
/-- C10, witness for the amended theorem: a function whose body declares
`var y`, assigns to it, and returns, is accepted, and the theorem yields that
`y` is in the collected mutation set. -/
theorem claim_C10_amended_witness :
    (["y"] : List String).contains "y" = true :=
  claim_C10_amended 100 Semantics.SemanticAnalyzer.new
    { name := "f", params := [], has_varargs := false, return_type := "i8", abi := none,
      body := [.varDecl "y" none (.intLiteral 1), .assign "y" (.intLiteral 2),
               .ret (.intLiteral 0)] }
    ["y"] [("y", true)] (by rfl) (by rfl) "y" (by simp)

end Summit
